import Mathlib

/-!
Verification development for the metaphone3 Go package (dlclark/metaphone3).

The package is a single-file phonetic encoder: `Encoder.Encode` upper-cases
the input, scans it rune by rune with an ordered cascade of context-sensitive
rules per letter, and emits symbols into two parallel output buffers which are
truncated to `MaxLength` and collapsed to an empty secondary when equal.

This file is a shallow embedding of `metaphone3.go`.  Go methods that mutate
the receiver become functions `Encoder → Encoder` (or `Encoder → Encoder × Bool`
for the rule functions that report whether they handled the current rune);
Go's short-circuit `a() || b()` rule chains (whose calls mutate state) become
the `chain` combinator below.  Go `int` indices are `Int`, runes are `Char`,
rune slices are `List Char`.  Loops (`for` in `Encode`, `skipVowels` and
`encodeInitialHuHw`) are modelled with an explicit fuel argument that is large
enough, which is justified by the cursor-monotonicity theorems proved below.
Where Go indexes a slice without a bounds check, the embedding uses a total
lookup returning `'\x00'`; the safety theorems show the corresponding indices
are in range under the conditions that hold at the call sites.
-/

namespace Metaphone3

/-- Model of Go `unicode.ToUpper`, restricted to ASCII (all concrete inputs
considered in the basic-word scenarios are ASCII; the universally quantified
theorems below quantify over arbitrary rune lists and do not depend on the
case-folding table). -/
def goToUpper (c : Char) : Char :=
  if ('a') ≤ c ∧ c ≤ ('z') then Char.ofNat (c.toNat - 32) else c

/-- Go `unicode.ReplacementChar`, used by the encoder as a "skip this channel"
marker. -/
def replacementChar : Char := ('\uFFFD')

/-- `isVowel` from metaphone3.go: vowels in many languages and charactersets. -/
def isVowel (inChar : Char) : Bool :=
  (inChar == ('A')) || (inChar == ('E')) || (inChar == ('I')) || (inChar == ('O')) ||
  (inChar == ('U')) || (inChar == ('Y')) ||
  (inChar == ('À')) || (inChar == ('Á')) || (inChar == ('Â')) || (inChar == ('Ã')) ||
  (inChar == ('Ä')) || (inChar == ('Å')) || (inChar == ('Æ')) ||
  (inChar == ('È')) || (inChar == ('É')) || (inChar == ('Ê')) || (inChar == ('Ë')) ||
  (inChar == ('Ì')) || (inChar == ('Í')) || (inChar == ('Î')) || (inChar == ('Ï')) ||
  (inChar == ('Ò')) || (inChar == ('Ó')) || (inChar == ('Ô')) || (inChar == ('Õ')) ||
  (inChar == ('Ö')) || (inChar == ('Ø')) ||
  (inChar == ('Ù')) || (inChar == ('Ú')) || (inChar == ('Û')) || (inChar == ('Ü')) ||
  (inChar == ('Ý')) ||
  (inChar == ('\uC29F')) || (inChar == ('\uC28C'))

/-- Elementwise comparison of a candidate against (a suffix of) the input:
`matchFrom v w` is true iff `v` is a prefix of `w`.  This is the inner
letter-comparison loop shared by the `stringAt` family. -/
def matchFrom : List Char → List Char → Bool
  | [], _ => true
  | _ :: _, [] => false
  | c :: cs, d :: ds => c == d && matchFrom cs ds

/-- `areEqual` from metaphone3.go: rune-buffer equality. -/
def areEqual : List Char → List Char → Bool
  | [], [] => true
  | a :: restA, b :: restB => a == b && areEqual restA restB
  | _, _ => false

/-- `rootOrInflections` from metaphone3.go: tests whether the word is the root
or a regular english inflection of it. -/
def rootOrInflections (inWord : List Char) (root : String) : Bool :=
  let rl := root.data
  if inWord.length < rl.length then false
  else
    let last := rl.length - 1
    if ¬ matchFrom (rl.take last) inWord then false
    else
      let w := inWord.drop last
      let lenDiff := inWord.length - rl.length
      let rlast := rl.getD last ('\x00')
      if w.getD 0 ('\x00') == rlast ∧ lenDiff = 0 then true
      else if w.getD 0 ('\x00') == rlast ∧ lenDiff = 1 ∧ w.getD 1 ('\x00') == ('S') then true
      else if rlast == ('E') ∧ lenDiff = 1 ∧ w.getD 0 ('\x00') == ('E') ∧ w.getD 1 ('\x00') == ('D') then true
      else if rlast != ('E') ∧ w.getD 0 ('\x00') != rlast then false
      else if rlast != ('E') ∧ lenDiff = 2 ∧ w.getD 1 ('\x00') == ('E') ∧
              (w.getD 2 ('\x00') == ('S') || w.getD 2 ('\x00') == ('D')) then true
      else if lenDiff = 3 ∧ areEqual w (("ING").data) then true
      else if lenDiff = 5 ∧ areEqual w (("INGLY").data) then true
      else if lenDiff = 1 ∧ w.getD 0 ('\x00') == ('Y') then true
      else false

/-- The encoder value of metaphone3.go: the three public configuration fields
plus the call-scoped scan state (`in`, `idx`, `lastIdx`, the two output
buffers, and the transposition flag). -/
structure Encoder where
  EncodeVowels : Bool := false
  EncodeExact : Bool := false
  MaxLength : Int := 0
  input : List Char := []
  idx : Int := 0
  lastIdx : Int := -1
  primBuf : List Char := []
  secondBuf : List Char := []
  flagAlInversion : Bool := false
deriving Repr, DecidableEq

/-- Total rune lookup (Go would fault for an out-of-range index; the safety
theorems show those indices are in range wherever Go performs an unchecked
access). -/
def getCharD (l : List Char) (i : Int) : Char :=
  if 0 ≤ i then l.getD i.toNat ('\x00') else ('\x00')

def bumpIdx (e : Encoder) (k : Nat) : Encoder := { e with idx := e.idx + k }

def setIdx (e : Encoder) (i : Int) : Encoder := { e with idx := i }

/-- `charAt` from metaphone3.go.  Go checks only the upper bound before
indexing (`idx >= len(e.in)`); a negative index would fault, which the safety
theorems show to be unreachable. -/
def charAt (e : Encoder) (offset : Int) (c : Char) : Bool :=
  let i := e.idx + offset
  if (e.input.length : Int) ≤ i then false
  else getCharD e.input i == c

/-- `charAt` with Go's missing lower-bound check made observable: `none`
stands for the index-out-of-range fault a negative index raises in Go. -/
def charAtChecked (e : Encoder) (offset : Int) (c : Char) : Option Bool :=
  let i := e.idx + offset
  if (e.input.length : Int) ≤ i then some false
  else if 0 ≤ i then some (getCharD e.input i == c)
  else none

def charNextIs (e : Encoder) (c : Char) : Bool := charAt e 1 c

/-- `isVowelAt` from metaphone3.go (both bounds checked in the source). -/
def isVowelAt (e : Encoder) (offset : Int) : Bool :=
  let at_ := e.idx + offset
  if at_ < 0 ∨ (e.input.length : Int) ≤ at_ then false
  else isVowel (getCharD e.input at_)

/-- Inner candidate loop of `stringAt`: per candidate, return false outright
if the candidate overruns the input, otherwise compare letters. -/
def stringAtLoop (input : List Char) (start : Nat) : List String → Bool
  | [] => false
  | v :: rest =>
    if input.length < start + v.length then false
    else if matchFrom v.data (input.drop start) then true
    else stringAtLoop input start rest

/-- `stringAt` from metaphone3.go: true if one of the candidates occurs at
`idx + offset`; bounds-checked up front against the first (shortest)
candidate. -/
def stringAt (e : Encoder) (offset : Int) (vals : List String) : Bool :=
  let start := e.idx + offset
  match vals with
  | [] => false
  | v0 :: _ =>
    if start < 0 ∨ (e.input.length : Int) ≤ start ∨
       (e.input.length : Int) < start + v0.length then false
    else stringAtLoop e.input start.toNat vals

/-- `stringAtStart` from metaphone3.go. -/
def stringAtStart (e : Encoder) (offset : Int) (vals : List String) : Bool :=
  if offset = -e.idx then stringAt e offset vals else false

/-- `stringStart` from metaphone3.go. -/
def stringStart (e : Encoder) (vals : List String) : Bool :=
  stringAt e (-e.idx) vals

/-- Inner candidate loop of `stringAtEnd`: a candidate is only compared when it
lands exactly on the end of the input. -/
def stringAtEndLoop (input : List Char) (start : Nat) : List String → Bool
  | [] => false
  | v :: rest =>
    if input.length < start + v.length then false
    else if start + v.length < input.length then stringAtEndLoop input start rest
    else if matchFrom v.data (input.drop start) then true
    else stringAtEndLoop input start rest

/-- `stringAtEnd` from metaphone3.go: a candidate must match at `idx + offset`
and consume the remaining input. -/
def stringAtEnd (e : Encoder) (offset : Int) (vals : List String) : Bool :=
  let start := e.idx + offset
  match vals with
  | [] => false
  | v0 :: _ =>
    if start < 0 ∨ (e.input.length : Int) ≤ start ∨
       (e.input.length : Int) < start + v0.length then false
    else stringAtEndLoop e.input start.toNat vals

/-- Inner candidate loop of `stringEnd`. -/
def stringEndLoop (input : List Char) : List String → Bool
  | [] => false
  | v :: rest =>
    if input.length < v.length then false
    else if matchFrom v.data (input.drop (input.length - v.length)) then true
    else stringEndLoop input rest

/-- `stringEnd` from metaphone3.go: the word ends with one of the candidates,
irrespective of the cursor. -/
def stringEnd (e : Encoder) (vals : List String) : Bool :=
  stringEndLoop e.input vals

/-- Inner candidate loop of `stringExact`. -/
def stringExactLoop (input : List Char) : List String → Bool
  | [] => false
  | v :: rest =>
    if input.length < v.length then false
    else if v.length < input.length then stringExactLoop input rest
    else if matchFrom v.data input then true
    else stringExactLoop input rest

/-- `stringExact` from metaphone3.go: the whole word equals one candidate. -/
def stringExact (e : Encoder) (vals : List String) : Bool :=
  stringExactLoop e.input vals

/-- Scanning loop of `stringContains`: `count` many start positions remain. -/
def containsLoop (input : List Char) (v : List Char) : Nat → Nat → Bool
  | 0, _ => false
  | n + 1, i =>
    if matchFrom v (input.drop i) then true else containsLoop input v n (i + 1)

/-- `stringContains` from metaphone3.go: the candidate occurs somewhere in the
word. -/
def stringContains (e : Encoder) (val : String) : Bool :=
  if e.input.length < val.length then false
  else containsLoop e.input val.data (e.input.length - val.length + 1) 0

/-- `isSlavoGermanic` from metaphone3.go (reads `e.in[0]` unchecked; the input
is nonempty during an encode call). -/
def isSlavoGermanic (e : Encoder) : Bool :=
  stringStart e ["SCH", "SW"] || getCharD e.input 0 == ('J') || getCharD e.input 0 == ('W')

/-- `metaphAddAlt` from metaphone3.go: append to each channel unless the
marker is the replacement char, suppressing a vowel marker after a vowel
marker. -/
def metaphAddAlt (e : Encoder) (prim second : Char) : Encoder :=
  let e :=
    if prim ≠ replacementChar ∧
       ¬(prim = ('A') ∧ e.primBuf.getLast? = some ('A')) then
      { e with primBuf := e.primBuf ++ [prim] }
    else e
  if second ≠ replacementChar ∧
     ¬(second = ('A') ∧ e.secondBuf.getLast? = some ('A')) then
    { e with secondBuf := e.secondBuf ++ [second] }
  else e

/-- `metaphAdd` from metaphone3.go. -/
def metaphAdd (e : Encoder) (c : Char) : Encoder := metaphAddAlt e c c

/-- `metaphAddStr` from metaphone3.go: whole-string appends; only the literal
string "A" is deduplicated against a trailing vowel marker. -/
def metaphAddStr (e : Encoder) (prim second : String) : Encoder :=
  let e :=
    if ¬(prim = ("A") ∧ e.primBuf.getLast? = some ('A')) then
      { e with primBuf := e.primBuf ++ prim.data }
    else e
  if second ≠ ("") ∧ ¬(second = ("A") ∧ e.secondBuf.getLast? = some ('A')) then
    { e with secondBuf := e.secondBuf ++ second.data }
  else e

/-- `metaphAddExactApproxAlt` from metaphone3.go. -/
def metaphAddExactApproxAlt (e : Encoder) (exact altExact main alt : String) : Encoder :=
  if e.EncodeExact then metaphAddStr e exact altExact else metaphAddStr e main alt

/-- `metaphAddExactApprox` from metaphone3.go. -/
def metaphAddExactApprox (e : Encoder) (exact main : String) : Encoder :=
  if e.EncodeExact then metaphAddStr e exact exact else metaphAddStr e main main

/-- `advanceCounter` from metaphone3.go. -/
def advanceCounter (e : Encoder) (noEncodeVowel encodeVowelAmount : Nat) : Encoder :=
  if e.EncodeVowels then bumpIdx e encodeVowelAmount else bumpIdx e noEncodeVowel

/-- The vowel-run loop of `skipVowels`, returning the final relative offset.
The fuel is always instantiated with `input.length + 1`, which suffices
because the offset grows by at least one per iteration and the loop stops once
`idx + off` passes `lastIdx`. -/
def skipVowelsLoop (e : Encoder) : Nat → Int → Int
  | 0, off => off
  | fuel + 1, off =>
    let it := getCharD e.input (e.idx + off)
    if ¬(isVowel it ∨ it = ('W')) then off
    else if stringAt e off ["WICZ", "WITZ", "WIAK"] ∨
            stringAt e (off - 1) ["EWSKI", "EWSKY", "OWSKI", "OWSKY"] ∨
            stringAtEnd e off ["WICKI", "WACKI"] then off
    else
      let off := off + 1
      let off :=
        if charAt e (off - 1) ('W') ∧ charAt e off ('H') ∧
           ¬ stringAt e off ["HOP", "HIDE", "HARD", "HEAD", "HAWK", "HERD", "HOOK",
                             "HAND", "HOLE", "HEART", "HOUSE", "HOUND", "HAMMER"] then
          off + 1
        else off
      if e.lastIdx < e.idx + off then off
      else skipVowelsLoop e fuel off

/-- The final relative offset computed by `skipVowels` in its in-bounds case.
Go raises its fatal "skipping vowels moving backward" error exactly when this
value is `< 1`; the safety theorems show that never happens at the call
sites. -/
def skipVowelsFinalOff (e : Encoder) (start : Int) : Int :=
  skipVowelsLoop e (e.input.length + 1) (start - e.idx)

/-- `skipVowels` from metaphone3.go (sans the fatal branch, shown unreachable
separately). -/
def skipVowels (e : Encoder) (start : Int) : Int :=
  if start < 0 then 0
  else if (e.input.length : Int) ≤ start then (e.input.length : Int)
  else e.idx + skipVowelsFinalOff e start - 1

/-- Combinator for Go's short-circuit rule chains
`if e.ruleA() || e.ruleB() || ... { return }`: if the rule handled the rune,
stop with its state, otherwise continue with the (possibly mutated) state. -/
def chain (r : Encoder × Bool) (f : Encoder → Encoder) : Encoder :=
  if r.2 then r.1 else f r.1

/-- Combinator for Go's short-circuit chains inside a rule that itself
reports a handled flag (`if a() || b() || ... { ...; return true }`). -/
def chainB (r : Encoder × Bool) (f : Encoder → Encoder × Bool) : Encoder × Bool :=
  if r.2 then (r.1, true) else f r.1

/-! ### Letter rules: B -/

/-- `encodeSilentB` from metaphone3.go. -/
def encodeSilentB (e : Encoder) : Encoder × Bool :=
  if stringAt e (-2) ["DEBT", "SUBTL", "SUBTIL"] ∨ stringAt e (-3) ["DOUBT"] then
    (bumpIdx (metaphAdd e ('T')) 1, true)
  else (e, false)

/-- `encodeB` from metaphone3.go. -/
def encodeB (e : Encoder) : Encoder :=
  chain (encodeSilentB e) fun e =>
    let e := metaphAddExactApprox e ("B") ("P")
    if charNextIs e ('B') ∨
       (charNextIs e ('P') ∧ e.idx + 2 < (e.input.length : Int) ∧
        getCharD e.input (e.idx + 2) ≠ ('H')) then
      bumpIdx e 1
    else e

/-! ### Letter rules: C -/

/-- `encodeSilentCAtBeginning` from metaphone3.go. -/
def encodeSilentCAtBeginning (e : Encoder) : Bool :=
  e.idx = 0 ∧ stringAt e 0 ["CT", "CN"]

/-- `encodeCaToS` from metaphone3.go. -/
def encodeCaToS (e : Encoder) : Encoder × Bool :=
  if (e.idx = 0 ∧ stringAt e 0 ["CAES", "CAEC", "CAEM"]) ∨
     stringStart e ["FACADE", "FRANCAIS", "FRANCAIX", "LINGUICA", "GONCALVES", "PROVENCAL"] then
    (advanceCounter (metaphAdd e ('S')) 1 0, true)
  else (e, false)

/-- `encodeCoToS` from metaphone3.go. -/
def encodeCoToS (e : Encoder) : Encoder × Bool :=
  if (stringAt e 0 ["COEL"] ∧ (isVowelAt e 4 ∨ e.idx + 3 = e.lastIdx)) ∨
     stringAt e 0 ["COENA", "COENO"] ∨ stringStart e ["GARCON", "FRANCOIS", "MELANCON"] then
    (advanceCounter (metaphAdd e ('S')) 2 0, true)
  else (e, false)

/-- `encodeChae` from metaphone3.go. -/
def encodeChae (e : Encoder) : Encoder × Bool :=
  if 0 < e.idx ∧ stringAt e 2 ["AE"] then
    let e :=
      if stringStart e ["RACHAEL"] then metaphAdd e ('X')
      else if ¬ stringAt e (-1) ["C", "K", "G", "Q"] then metaphAdd e ('K')
      else e
    (advanceCounter e 3 1, true)
  else (e, false)

/-- `encodeChToH` from metaphone3.go. -/
def encodeChToH (e : Encoder) : Encoder × Bool :=
  if (e.idx = 0 ∧
      stringAt e 2 ["AIM", "ETH", "ELM", "ASID", "AZAN",
                    "UPPAH", "UTZPA", "ALLAH", "ALUTZ", "AMETZ",
                    "ESHVAN", "ADARIM", "ANUKAH", "ALLLOTH", "ANNUKAH", "AROSETH"]) ∨
     stringAt e (-3) ["CLACHAN"] then
    (advanceCounter (metaphAdd e ('H')) 2 1, true)
  else (e, false)

/-- `encodeSilentCh` from metaphone3.go. -/
def encodeSilentCh (e : Encoder) : Encoder × Bool :=
  if stringAt e (-2) ["YACHT", "FUCHSIA"] ∨
     stringStart e ["STRACHAN", "CRICHTON"] ∨
     (stringAt e (-3) ["DRACHM"] ∧ ¬ stringAt e (-3) ["DRACHMA"]) then
    (bumpIdx e 1, true)
  else (e, false)

/-- `encodeArch` from metaphone3.go. -/
def encodeArch (e : Encoder) : Encoder × Bool :=
  if stringAt e (-2) ["ARCH"] then
    let e :=
      if ((isVowelAt e 2 ∧ stringAt e (-2) ["ARCHA", "ARCHI", "ARCHO", "ARCHU", "ARCHY"]) ∨
          stringAt e (-2) ["ARCHEA", "ARCHEG", "ARCHEO", "ARCHET", "ARCHEL", "ARCHES", "ARCHEP",
                           "ARCHEM", "ARCHEN"] ∨
          stringAtEnd e (-2) ["ARCH"] ∨
          stringStart e ["MENARCH"]) ∧
         (¬ rootOrInflections e.input ("ARCH") ∧
          ¬ stringAt e (-4) ["SEARCH", "POARCH"] ∧
          ¬ stringStart e ["ARCHER", "ARCHIE", "ARCHENEMY", "ARCHIBALD", "ARCHULETA", "ARCHAMBAU"] ∧
          ¬((((stringAt e (-3) ["LARCH", "MARCH", "PARCH"] ∨
               stringAt e (-4) ["STARCH"]) ∧
              ¬ stringStart e ["EPARCH", "NOMARCH", "EXILARCH", "HIPPARCH", "MARCHESE",
                               "ARISTARCH", "MARCHETTI"]) ∨
             rootOrInflections e.input ("STARCH")) ∧
            (¬ stringAt e (-2) ["ARCHU", "ARCHY"] ∨ stringStart e ["STARCHY"]))) then
        metaphAddAlt e ('K') ('X')
      else metaphAdd e ('X')
    (bumpIdx e 1, true)
  else (e, false)

/-- `encodeChToX` from metaphone3.go. -/
def encodeChToX (e : Encoder) : Encoder × Bool :=
  if (stringAt e (-2) ["OACH", "EACH", "EECH", "OUCH", "OOCH", "MUCH", "SUCH"] ∧
      ¬ stringAt e (-3) ["JOACH"]) ∨
     stringAtEnd e (-1) ["ACHA", "ACHO"] ∨
     stringAtEnd e 0 ["CHOT", "CHOD", "CHAT"] ∨
     (stringAtEnd e (-1) ["OCHE"] ∧ ¬ stringAt e (-2) ["DOCHE"]) ∨
     stringAt e (-4) ["ATTACH", "DETACH", "KOVACH", "PARACHUT"] ∨
     stringAt e (-5) ["SPINACH", "MASSACHU"] ∨
     stringStart e ["MACHAU"] ∨
     (stringAt e (-3) ["THACH"] ∧ ¬ stringAt e 2 ["E"]) ∨
     stringAt e (-2) ["VACHON"] then
    (bumpIdx (metaphAdd e ('X')) 1, true)
  else (e, false)

/-- `encodeEnglishChToK` from metaphone3.go. -/
def encodeEnglishChToK (e : Encoder) : Encoder × Bool :=
  if (e.idx = 1 ∧ rootOrInflections e.input ("ACHE")) ∨
     ((3 < e.idx ∧ rootOrInflections (e.input.drop (e.idx - 1).toNat) ("ACHE")) ∧
      stringStart e ["EAR", "HEAD", "BACK", "HEART", "BELLY", "TOOTH"]) ∨
     stringAt e (-1) ["ECHO"] ∨
     stringAt e (-2) ["MICHEAL"] ∨
     stringAt e (-4) ["JERICHO"] ∨
     stringAt e (-5) ["LEPRECH"] then
    (bumpIdx (metaphAddAlt e ('K') ('X')) 1, true)
  else (e, false)

/-- `encodeGermanicChToK` from metaphone3.go. -/
def encodeGermanicChToK (e : Encoder) : Encoder × Bool :=
  if (1 < e.idx ∧
      ¬ isVowelAt e (-2) ∧
      stringAt e (-1) ["ACH"] ∧
      ¬ stringAt e (-2) ["MACHADO", "MACHUCA", "LACHANC", "LACHAPE", "KACHATU"] ∧
      ¬ stringAt e (-3) ["KHACHAT"] ∧
      (¬ charAt e 2 ('I') ∧
       (¬ charAt e 2 ('E') ∨ stringAt e (-2) ["BACHER", "MACHER", "MACHEN", "LACHER"]))) ∨
     (stringAt e 2 ["T", "S"] ∧ ¬ stringStart e ["WHICHSOEVER", "LUNCHTIME"]) ∨
     stringStart e ["SCHR"] ∨
     (2 < e.idx ∧ stringAt e (-2) ["MACHE"]) ∨
     (e.idx = 2 ∧ stringAt e (-2) ["ZACH"]) ∨
     stringAt e (-4) ["SCHACH"] ∨
     stringAt e (-1) ["ACHEN"] ∨
     stringAt e (-3) ["SPICH", "ZURCH", "BUECH"] ∨
     (stringAt e (-3) ["KIRCH", "JOACH", "BLECH", "MALCH"] ∧
      ¬(stringAt e (-3) ["KIRCHNER"] ∨ e.idx + 1 = e.lastIdx)) ∨
     stringAtEnd e (-2) ["NICH", "LICH", "BACH"] ∨
     (stringAtEnd e (-3) ["URICH", "BRICH", "ERICH", "DRICH", "NRICH"] ∧
      ¬ stringAtEnd e (-5) ["ALDRICH"] ∧
      ¬ stringAtEnd e (-6) ["GOODRICH"] ∧
      ¬ stringAtEnd e (-7) ["GINGERICH"]) ∨
     stringAtEnd e (-4) ["ULRICH", "LFRICH", "LLRICH", "EMRICH", "ZURICH", "EYRICH"] ∨
     ((stringAt e (-1) ["A", "O", "U", "E"] ∨ e.idx = 0) ∧
      stringAt e 2 ["L", "R", "N", "M", "B", "H", "F", "V", "W", " "]) then
    let e :=
      if stringAt e 2 ["R", "L"] ∨ isSlavoGermanic e then metaphAdd e ('K')
      else metaphAddAlt e ('K') ('X')
    (bumpIdx e 1, true)
  else (e, false)

/-- `encodeGreekChInitial` from metaphone3.go. -/
def encodeGreekChInitial (e : Encoder) : Encoder × Bool :=
  if (stringAt e 0 ["CHAMOM", "CHARAC", "CHARIS", "CHARTO", "CHARTU", "CHARYB", "CHRIST",
                    "CHEMIC", "CHILIA"] ∨
      (stringAt e 0 ["CHEMI", "CHEMO", "CHEMU", "CHEMY", "CHOND", "CHONA", "CHONI", "CHOIR",
                     "CHASM", "CHARO", "CHROM", "CHROI", "CHAMA", "CHALC", "CHALD", "CHAET",
                     "CHIRO", "CHILO", "CHELA", "CHOUS", "CHEIL", "CHEIR", "CHEIM", "CHITI",
                     "CHEOP"] ∧
       ¬(stringAt e 0 ["CHEMIN"] ∨ stringAt e (-2) ["ANCHONDO"])) ∨
      (stringAt e 0 ["CHISM", "CHELI"] ∧
       ¬(stringStart e ["MICHEL", "MACHISMO", "RICHELIEU", "REVANCHISM"] ∨
         stringExact e ["CHISM"])) ∨
      (stringAt e 0 ["CHOR", "CHOL", "CHYM", "CHYL", "CHLO", "CHOS", "CHUS", "CHOE"] ∧
       ¬ stringStart e ["CHOLLO", "CHOLLA", "CHORIZ"]) ∨
      (stringAt e 0 ["CHAO"] ∧ e.idx + 3 ≠ e.lastIdx) ∨
      (stringAt e 0 ["CHIA"] ∧ ¬ stringStart e ["CHIAPAS", "APPALACHIA"]) ∨
      stringAt e 0 ["CHIMERA", "CHIMAER", "CHIMERI"] ∨
      stringStart e ["CHAME", "CHELO", "CHITO"] ∨
      ((e.idx + 4 = e.lastIdx ∨ e.idx + 5 = e.lastIdx) ∧ stringAt e (-1) ["OCHETE"])) ∧
     ¬(stringExact e ["CHORE", "CHOLO", "CHOLA"] ∨
       stringAt e 0 ["CHORT", "CHOSE"] ∨
       stringAt e (-3) ["CROCHET"] ∨
       stringStart e ["CHEMISE", "CHARISE", "CHARISS", "CHAROLE"]) then
    let e :=
      if stringAt e 2 ["R", "L"] then metaphAdd e ('K')
      else metaphAddAlt e ('K') ('X')
    (bumpIdx e 1, true)
  else (e, false)

/-- `encodeGreekChNonInitial` from metaphone3.go. -/
def encodeGreekChNonInitial (e : Encoder) : Encoder × Bool :=
  if stringAt e (-2) ["LYCHN", "TACHO", "ORCHO", "ORCHI", "LICHO", "ORCHID", "NICHOL",
                      "MECHAN", "LICHEN", "MACHIC", "PACHEL", "RACHIF", "RACHID",
                      "RACHIS", "RACHIC", "MICHAL", "ORCHESTR"] ∨
     stringAt e (-3) ["MELCH", "GLOCH", "TRACH", "TROCH", "BRACH", "SYNCH", "PSYCH",
                      "STICH", "PULCH", "EPOCH"] ∨
     (stringAt e (-3) ["TRICH"] ∧ ¬ stringAt e (-5) ["OSTRICH"]) ∨
     (stringAt e (-2) ["TYCH", "TOCH", "BUCH", "MOCH", "CICH", "DICH", "NUCH", "EICH", "LOCH",
                       "DOCH", "ZECH", "WYCH"] ∧
      ¬(stringAt e (-4) ["INDOCHINA"] ∨ stringAt e (-2) ["BUCHON"])) ∨
     ((e.idx = 1 ∨ e.idx = 2) ∧ stringAt e (-1) ["OCHER", "ECHIN", "ECHID"]) ∨
     stringAt e (-4) ["BRONCH", "STOICH", "STRYCH", "TELECH", "PLANCH", "CATECH", "MANICH",
                      "MALACH", "BIANCH", "DIDACH", "BRANCHIO", "BRANCHIF"] ∨
     stringStart e ["ICHA", "ICHN"] ∨
     (stringAt e (-1) ["ACHAB", "ACHAD", "ACHAN", "ACHAZ"] ∧
      ¬ stringAt e (-2) ["MACHADO", "LACHANC"]) ∨
     stringAt e (-1) ["ACHISH", "ACHILL", "ACHAIA", "ACHENE", "ACHAIAN", "ACHATES", "ACHIRAL",
                      "ACHERON", "ACHILLEA", "ACHIMAAS", "ACHILARY", "ACHELOUS", "ACHENIAL",
                      "ACHERNAR", "ACHALASIA", "ACHILLEAN", "ACHIMENES", "ACHIMELECH",
                      "ACHITOPHEL"] ∨
     ((e.idx = 2 ∧ stringStart e ["INCHOA"]) ∨ stringStart e ["ISCH"]) ∨
     (e.idx + 1 = e.lastIdx ∧ stringAt e (-1) ["A", "O", "U", "E"] ∧
      ¬(stringStart e ["DEBAUCH"] ∨ stringAt e (-2) ["MUCH", "SUCH", "KOCH"] ∨
        stringAt e (-5) ["OODRICH", "ALDRICH"])) then
    (bumpIdx (metaphAddAlt e ('K') ('X')) 1, true)
  else (e, false)

/-- Default tail of `encodeCh` (after its inner rule chain). -/
def encodeChTail (e : Encoder) : Encoder × Bool :=
  let e :=
    if 0 < e.idx then
      if stringStart e ["MC"] ∧ e.idx = 1 then metaphAdd e ('K')
      else metaphAddAlt e ('X') ('K')
    else metaphAdd e ('X')
  (bumpIdx e 1, true)

/-- `encodeCh` from metaphone3.go. -/
def encodeCh (e : Encoder) : Encoder × Bool :=
  if ¬ stringAt e 0 ["CH"] then (e, false)
  else
    chainB (encodeChae e) fun e =>
    chainB (encodeChToH e) fun e =>
    chainB (encodeSilentCh e) fun e =>
    chainB (encodeArch e) fun e =>
    chainB (encodeChToX e) fun e =>
    chainB (encodeEnglishChToK e) fun e =>
    chainB (encodeGermanicChToK e) fun e =>
    chainB (encodeGreekChInitial e) fun e =>
    chainB (encodeGreekChNonInitial e) fun e =>
    encodeChTail e

/-- `encodeCcia` from metaphone3.go. -/
def encodeCcia (e : Encoder) : Encoder × Bool :=
  if stringAt e 1 ["CIA"] then
    (bumpIdx (metaphAddAlt e ('X') ('S')) 1, true)
  else (e, false)

/-- `encodeCc` from metaphone3.go. -/
def encodeCc (e : Encoder) : Encoder × Bool :=
  if stringAt e 0 ["CC"] ∧ ¬(e.idx = 1 ∧ getCharD e.input 0 = ('M')) then
    if stringAt e (-3) ["FLACCID"] then
      (advanceCounter (metaphAdd e ('S')) 2 1, true)
    else if stringAtEnd e 2 ["I"] ∨ stringAt e 2 ["IO"] ∨ stringAtEnd e 2 ["INO", "INI"] then
      (advanceCounter (metaphAdd e ('X')) 2 1, true)
    else if stringAt e 2 ["I", "E", "Y"] ∧
            ¬(charAt e 2 ('H') ∨ stringAt e (-2) ["SOCCER"]) then
      (advanceCounter (metaphAddStr e ("KS") ("KS")) 2 1, true)
    else
      (bumpIdx (metaphAdd e ('K')) 1, true)
  else (e, false)

/-- `encodeCkCgCq` from metaphone3.go. -/
def encodeCkCgCq (e : Encoder) : Encoder × Bool :=
  if stringAt e 0 ["CK", "CG", "CQ"] then
    let e :=
      if stringAtEnd e 0 ["CKI", "CKY"] ∧ 6 < e.input.length then
        metaphAddStr e ("K") ("SK")
      else metaphAdd e ('K')
    let e := bumpIdx e 1
    let e := if stringAt e 1 ["K", "G", "Q"] then bumpIdx e 1 else e
    (e, true)
  else (e, false)

/-- `encodeBritishSilentCE` from metaphone3.go. -/
def encodeBritishSilentCE (e : Encoder) : Bool :=
  stringAtEnd e 1 ["ESTER"] ∨ stringAt e 1 ["ESTERSHIRE"]

/-- `encodeCe` from metaphone3.go. -/
def encodeCe (e : Encoder) : Encoder × Bool :=
  if (stringAt e 1 ["EAN"] ∧ isVowelAt e (-1)) ∨
     (stringAtEnd e (-1) ["ACEA"] ∧ ¬ stringStart e ["PANACEA"]) ∨
     stringAt e 1 ["ELLI", "ERTO", "EORL"] ∨
     stringAtEnd e (-3) ["CROCE"] ∨
     stringAt e (-3) ["DOLCE"] ∨
     stringAtEnd e 1 ["ELLO"] then
    (metaphAddAlt e ('X') ('S'), true)
  else (e, false)

/-- `encodeCi` from metaphone3.go. -/
def encodeCi (e : Encoder) : Encoder × Bool :=
  if (stringAtEnd e 1 ["INI"] ∧ ¬ stringExact e ["MANCINI"]) ∨
     stringAtEnd e (-1) ["ICI"] ∨
     stringAt e (-1) ["RCIAL", "NCIAL", "RCIAN", "UCIUS"] ∨
     stringAt e (-3) ["MARCIA"] ∨
     stringAt e (-2) ["ANCIENT"] then
    (metaphAddAlt e ('X') ('S'), true)
  else if stringAt e (-4) ["COERCION"] then
    (metaphAdd e ('J'), true)
  else if (stringAt e 0 ["CIO", "CIE", "CIA"] ∧ isVowelAt e (-1)) ∨
          stringAt e 1 ["IAO"] then
    if (stringAt e 0 ["CIAN", "CIAL", "CIAO", "CIES", "CIOL", "CION"] ∨
        stringAt e (-3) ["GLACIER"] ∨
        stringAt e 0 ["CIENT", "CIENC", "CIOUS", "CIATE", "CIATI", "CIATO", "CIABL", "CIARY"] ∨
        stringAtEnd e 0 ["CIA", "CIO", "CIAS", "CIOS"]) ∧
       ¬(stringAt e (-4) ["ASSOCIATION"] ∨ stringStart e ["OCIE"] ∨
         stringAt e (-2) ["LUCIO", "SOCIO", "SOCIE", "MACIAS", "LUCIANO", "HACIENDA"] ∨
         stringAt e (-3) ["GRACIE", "GRACIA", "MARCIANO"] ∨
         stringAt e (-4) ["PALACIO", "POLICIES", "FELICIANO"] ∨
         stringAt e (-5) ["MAURICIO"] ∨
         stringAt e (-6) ["ANDALUCIA"] ∨
         stringAt e (-7) ["ENCARNACION"]) then
      (metaphAddAlt e ('X') ('S'), true)
    else
      (metaphAddAlt e ('S') ('X'), true)
  else (e, false)

/-- `encodeLatinateSuffixes` from metaphone3.go. -/
def encodeLatinateSuffixes (e : Encoder) : Encoder × Bool :=
  if stringAt e 1 ["EOUS", "IOUS"] then (metaphAddAlt e ('X') ('S'), true)
  else (e, false)

/-- Inner short-circuit chain of `encodeCFrontVowel`
(`britishSilentCE || ce || ci || latinateSuffixes` with side effects). -/
def encodeCFrontVowelInner (e : Encoder) : Encoder × Bool :=
  chainB ((e, encodeBritishSilentCE e)) fun e =>
  chainB (encodeCe e) fun e =>
  chainB (encodeCi e) fun e =>
  encodeLatinateSuffixes e

/-- `encodeCFrontVowel` from metaphone3.go. -/
def encodeCFrontVowel (e : Encoder) : Encoder × Bool :=
  if stringAt e 0 ["CI", "CE", "CY"] then
    let r := encodeCFrontVowelInner e
    if r.2 then (advanceCounter r.1 1 0, true)
    else (advanceCounter (metaphAdd r.1 ('S')) 1 0, true)
  else (e, false)

/-- `encodeSilentC` from metaphone3.go. -/
def encodeSilentC (e : Encoder) : Bool :=
  stringAt e 1 ["T", "S"] ∧ stringStart e ["INDICT", "TUCSON", "CONNECTICUT"]

/-- `encodeCz` from metaphone3.go. -/
def encodeCz (e : Encoder) : Encoder × Bool :=
  if stringAt e 1 ["Z"] ∧ ¬ stringAt e (-1) ["ECZEMA"] then
    let e := if stringAt e 0 ["CZAR"] then metaphAdd e ('S') else metaphAdd e ('X')
    (bumpIdx e 1, true)
  else (e, false)

/-- `encodeCs` from metaphone3.go. -/
def encodeCs (e : Encoder) : Encoder × Bool :=
  if stringStart e ["KOVACS"] then
    (bumpIdx (metaphAddStr e ("KS") ("X")) 1, true)
  else if stringAtEnd e (-1) ["ACS"] ∧ ¬ stringAt e (-4) ["ISAACS"] then
    (bumpIdx (metaphAdd e ('X')) 1, true)
  else (e, false)

/-- Default tail of `encodeC` (after the rule chain). -/
def encodeCTail (e : Encoder) : Encoder :=
  let e := if ¬ stringAt e (-1) ["C", "K", "G", "Q"] then metaphAdd e ('K') else e
  if stringAt e 1 [" C", " Q", " G"] then bumpIdx e 1
  else
    if stringAt e 1 ["C", "K", "Q"] ∧ ¬ stringAt e 1 ["CE", "CI"] then
      let e := bumpIdx e 1
      if stringAt e 1 ["C", "K", "Q"] ∧ ¬ stringAt e 2 ["CE", "CI"] then bumpIdx e 1 else e
    else e

/-- `encodeC` from metaphone3.go. -/
def encodeC (e : Encoder) : Encoder :=
  chain ((e, encodeSilentCAtBeginning e)) fun e =>
  chain (encodeCaToS e) fun e =>
  chain (encodeCoToS e) fun e =>
  chain (encodeCh e) fun e =>
  chain (encodeCcia e) fun e =>
  chain (encodeCc e) fun e =>
  chain (encodeCkCgCq e) fun e =>
  chain (encodeCFrontVowel e) fun e =>
  chain ((e, encodeSilentC e)) fun e =>
  chain (encodeCz e) fun e =>
  chain (encodeCs e) fun e =>
  encodeCTail e

/-! ### Letter rules: D, F, G -/

/-- `encodeDg` from metaphone3.go. -/
def encodeDg (e : Encoder) : Encoder × Bool :=
  if stringAt e 0 ["DG"] then
    let e :=
      if stringAt e 2 ["A", "O"] ∨
         stringAt e 1 ["GUN", "GUT", "GEAR", "GLAS", "GRIP", "GREN", "GILL", "GRAF",
                       "GUARD", "GUILT", "GRAVE", "GRASS", "GROUSE"] then
        metaphAddExactApprox e ("DG") ("TK")
      else metaphAdd e ('J')
    (bumpIdx e 1, true)
  else (e, false)

/-- `encodeDj` from metaphone3.go. -/
def encodeDj (e : Encoder) : Encoder × Bool :=
  if stringAt e 0 ["DJ"] then (bumpIdx (metaphAdd e ('J')) 1, true)
  else (e, false)

/-- `encodeDtDd` from metaphone3.go. -/
def encodeDtDd (e : Encoder) : Encoder × Bool :=
  if stringAt e 0 ["DT", "DD"] then
    if stringAt e 0 ["DTH"] then
      (bumpIdx (metaphAddExactApprox e ("D0") ("T0")) 2, true)
    else
      let e :=
        if e.EncodeExact then
          if stringAt e 0 ["DT"] then metaphAdd e ('T') else metaphAdd e ('D')
        else metaphAdd e ('T')
      (bumpIdx e 1, true)
  else (e, false)

/-- `encodeDToJ` from metaphone3.go. -/
def encodeDToJ (e : Encoder) : Encoder × Bool :=
  if (stringAt e 0 ["DUL"] ∧ isVowelAt e (-1) ∧ isVowelAt e 3) ∨
     stringAtEnd e (-1) ["LDIER", "NDEUR", "EDURE", "RDURE"] ∨
     stringAt e (-3) ["CORDIAL"] ∨
     stringAt e (-1) ["ADUA", "IDUA", "IDUU", "NDULA", "NDULU", "EDUCA"] then
    (advanceCounter (metaphAddExactApproxAlt e ("J") ("D") ("J") ("T")) 1 0, true)
  else (e, false)

/-- `encodeDous` from metaphone3.go. -/
def encodeDous (e : Encoder) : Encoder × Bool :=
  if stringAt e 1 ["UOUS"] then
    (advanceCounter (metaphAddExactApproxAlt e ("J") ("D") ("J") ("T")) 3 0, true)
  else (e, false)

/-- `encodeSilentD` from metaphone3.go. -/
def encodeSilentD (e : Encoder) : Bool :=
  stringAt e (-2) ["WEDNESDAY"] ∨
  stringAt e (-3) ["HANDKER", "HANDSOM", "WINDSOR"] ∨
  stringEnd e ["PERNOD", "ARTAUD", "RENAUD", "RIMBAUD", "MICHAUD", "BICHAUD"]

/-- `encodeD` from metaphone3.go. -/
def encodeD (e : Encoder) : Encoder :=
  chain (encodeDg e) fun e =>
  chain (encodeDj e) fun e =>
  chain (encodeDtDd e) fun e =>
  chain (encodeDToJ e) fun e =>
  chain (encodeDous e) fun e =>
  chain ((e, encodeSilentD e)) fun e =>
    if e.EncodeExact then
      if stringAtEnd e (-3) ["SSED"] then metaphAdd e ('T') else metaphAdd e ('D')
    else metaphAdd e ('T')

/-- `encodeF` from metaphone3.go. -/
def encodeF (e : Encoder) : Encoder :=
  if stringAt e (-1) ["OFTEN"] then
    bumpIdx (metaphAddStr e ("F") ("FT")) 1
  else
    let e := if charNextIs e ('F') then bumpIdx e 1 else e
    metaphAdd e ('F')

/-- `encodeG` from metaphone3.go. -/
def encodeG (e : Encoder) : Encoder :=
  if ¬ stringAt e (-1) ["C", "K", "G", "Q"] then metaphAddExactApprox e ("G") ("K")
  else e

/-! ### Letter rules: H -/

/-- `encodeInitialSilentH` from metaphone3.go. -/
def encodeInitialSilentH (e : Encoder) : Encoder × Bool :=
  if stringAt e 1 ["OUR", "ERB", "EIR", "ONOR", "ONOUR", "ONEST"] then
    let e :=
      if stringAtStart e 0 ["HERB"] then
        if e.EncodeVowels then metaphAddStr e ("HA") ("A") else metaphAddAlt e ('H') ('A')
      else if e.idx = 0 ∨ e.EncodeVowels then metaphAdd e ('A')
      else e
    (setIdx e (skipVowels e (e.idx + 1)), true)
  else (e, false)

/-- `encodeInitialHs` from metaphone3.go. -/
def encodeInitialHs (e : Encoder) : Encoder × Bool :=
  if stringAtStart e 0 ["HS"] then (bumpIdx (metaphAdd e ('X')) 1, true)
  else (e, false)

/-- The vowel-and-W eating loop of `encodeInitialHuHw`; the fuel
`input.length + 1` suffices because both conditions fail once the cursor
passes the end of the input. -/
def huHwLoop : Nat → Encoder → Encoder
  | 0, e => e
  | fuel + 1, e =>
    if isVowelAt e 0 ∨ charAt e 0 ('W') then huHwLoop fuel (bumpIdx e 1) else e

/-- `encodeInitialHuHw` from metaphone3.go. -/
def encodeInitialHuHw (e : Encoder) : Encoder × Bool :=
  if stringStart e ["HUA", "HUE", "HWA"] ∧ ¬ stringAt e 0 ["HUEY"] then
    let e := metaphAdd e ('A')
    if ¬ e.EncodeVowels then (bumpIdx e 2, true)
    else
      let e := bumpIdx e 1
      let e := huHwLoop (e.input.length + 1) e
      (setIdx e (e.idx - 1), true)
  else (e, false)

/-- `encodeNonInitialSilentH` from metaphone3.go. -/
def encodeNonInitialSilentH (e : Encoder) : Encoder × Bool :=
  if stringAt e (-2) ["NIHIL", "VEHEM", "LOHEN", "NEHEM", "MAHON", "MAHAN", "COHEN", "GAHAN"] ∨
     stringAt e (-3) ["TOUHY", "GRAHAM", "PROHIB", "FRAHER", "TOOHEY", "TOUHEY"] ∨
     stringStart e ["CHIHUAHUA"] then
    if e.EncodeVowels then (bumpIdx e 1, true)
    else (setIdx e (skipVowels e (e.idx + 1)), true)
  else (e, false)

/-- `encodeHPronounced` from metaphone3.go. -/
def encodeHPronounced (e : Encoder) : Encoder × Bool :=
  if ((e.idx = 0 ∨ isVowelAt e (-1) ∨ (0 < e.idx ∧ charAt e (-1) ('W'))) ∧ isVowelAt e 1) ∨
     (charNextIs e ('H') ∧ isVowelAt e 2) then
    (advanceCounter (metaphAdd e ('H')) 1 0, true)
  else (e, false)

/-- `encodeH` from metaphone3.go. -/
def encodeH (e : Encoder) : Encoder :=
  chain (encodeInitialSilentH e) fun e =>
  chain (encodeInitialHs e) fun e =>
  chain (encodeInitialHuHw e) fun e =>
  chain (encodeNonInitialSilentH e) fun e =>
  (encodeHPronounced e).1

/-! ### Letter rules: J -/

/-- `encodeSpanishJ` from metaphone3.go. -/
def encodeSpanishJ (e : Encoder) : Encoder × Bool :=
  if (stringAt e 1 ["UAN", "ACI", "ALI", "EFE", "ICA", "IME", "OAQ", "UAR"] ∧
      ¬ stringAt e 0 ["JIMERSON", "JIMERSEN"]) ∨
     stringAtEnd e 1 ["OSE"] ∨
     stringAt e 1 ["EREZ", "UNTA", "AIME", "AVIE", "AVIA", "IMINEZ", "ARAMIL"] ∨
     stringAtEnd e (-2) ["MEJIA"] ∨
     stringAt e (-2) ["TEJED", "TEJAD", "LUJAN", "FAJAR", "BEJAR", "BOJOR", "CAJIG",
                      "DEJAS", "DUJAR", "DUJAN", "MIJAR", "MEJOR", "NAJAR",
                      "NOJOS", "RAJED", "RIJAL", "REJON", "TEJAN", "UIJAN"] ∨
     stringAt e (-3) ["ALEJANDR", "GUAJARDO", "TRUJILLO"] ∨
     (stringAt e (-2) ["RAJAS"] ∧ 2 < e.idx) ∨
     (stringAt e (-2) ["MEJIA"] ∧ ¬ stringAt e (-2) ["MEJIAN"]) ∨
     stringAt e (-1) ["OJEDA"] ∨
     stringAt e (-3) ["LEIJA", "MINJA", "VIAJES", "GRAJAL"] ∨
     stringAt e 0 ["JAUREGUI"] ∨
     stringAt e (-4) ["HINOJOSA"] ∨
     stringStart e ["SAN "] ∨
     (e.idx + 1 = e.lastIdx ∧ charAt e 1 ('O') ∧
      ¬ stringStart e ["TOJO", "BANJO", "MARYJO"]) then
    let e :=
      if ¬(stringAt e 0 ["JUAN"] ∨ stringAt e 0 ["JOAQ"]) then metaphAdd e ('H')
      else if e.idx = 0 then metaphAdd e ('A')
      else e
    (advanceCounter e 1 0, true)
  else if stringAt e 1 ["ORGE", "ULIO", "ESUS"] ∧ ¬ stringStart e ["JORGEN"] then
    if stringAtEnd e 1 ["ORGE"] then
      if e.EncodeVowels then (advanceCounter (metaphAddStr e ("JARJ") ("HARHA")) 4 4, true)
      else (advanceCounter (metaphAddStr e ("JRJ") ("HRH")) 4 4, true)
    else
      (advanceCounter (metaphAddAlt e ('J') ('H')) 1 0, true)
  else (e, false)

/-- `encodeGermanJ` from metaphone3.go. -/
def encodeGermanJ (e : Encoder) : Encoder × Bool :=
  if stringAt e 1 ["AH", "UGO"] ∨ stringExact e ["JOHANN"] ∨
     (stringAt e 1 ["UNG"] ∧ ¬ charAt e 4 ('L')) then
    (advanceCounter (metaphAdd e ('A')) 1 0, true)
  else (e, false)

/-- `encodeSpanishOjUj` from metaphone3.go. -/
def encodeSpanishOjUj (e : Encoder) : Encoder × Bool :=
  if stringAt e 1 ["OJOBA", "UJUY"] then
    let e :=
      if e.EncodeVowels then metaphAddStr e ("HAH") ("HAH")
      else metaphAddStr e ("HH") ("HH")
    (advanceCounter e 3 2, true)
  else (e, false)

/-- `namesBeginningWithJThatGetAltY` from metaphone3.go. -/
def namesBeginningWithJThatGetAltY (e : Encoder) : Bool :=
  stringStart e ["JAN", "JON", "JAN", "JIN", "JEN",
    "JUHL", "JULY", "JOEL", "JOHN", "JOSH", "JUDE", "JUNE", "JONI", "JULI", "JENA",
    "JUNG", "JINA", "JANA", "JENI", "JOEL", "JANN", "JONA", "JENE", "JULE", "JANI",
    "JONG", "JOHN", "JEAN", "JUNG", "JONE", "JARA", "JUST", "JOST", "JAHN", "JACO",
    "JANG", "JUDE", "JONE",
    "JOANN", "JANEY", "JANAE", "JOANA", "JUTTA", "JULEE", "JANAY", "JANEE", "JETTA",
    "JOHNA", "JOANE", "JAYNA", "JANES", "JONAS", "JONIE", "JUSTA", "JUNIE", "JUNKO",
    "JENAE", "JULIO", "JINNY", "JOHNS", "JACOB", "JETER", "JAFFE", "JESKE", "JANKE",
    "JAGER", "JANIK", "JANDA", "JOSHI", "JULES", "JANTZ", "JEANS", "JUDAH", "JANUS",
    "JENNY", "JENEE", "JONAH", "JONAS", "JACOB", "JOSUE", "JOSEF", "JULES", "JULIE",
    "JULIA", "JANIE", "JANIS", "JENNA", "JANNA", "JEANA", "JENNI", "JEANE", "JONNA",
    "JORDAN", "JORDON", "JOSEPH", "JOSHUA", "JOSIAH", "JOSPEH", "JUDSON", "JULIAN",
    "JULIUS", "JUNIOR", "JUDITH", "JOESPH", "JOHNIE", "JOANNE", "JEANNE", "JOANNA",
    "JOSEFA", "JULIET", "JANNIE", "JANELL", "JASMIN", "JANINE", "JOHNNY", "JEANIE",
    "JEANNA", "JOHNNA", "JOELLE", "JOVITA", "JOSEPH", "JONNIE", "JANEEN", "JANINA",
    "JOANIE", "JAZMIN", "JOHNIE", "JANENE", "JOHNNY", "JONELL", "JENELL", "JANETT",
    "JANETH", "JENINE", "JOELLA", "JOEANN", "JULIAN", "JOHANA", "JENICE", "JANNET",
    "JANISE", "JULENE", "JOSHUA", "JANEAN", "JAIMEE", "JOETTE", "JANYCE", "JENEVA",
    "JORDAN", "JACOBS", "JENSEN", "JOSEPH", "JANSEN", "JORDON", "JULIAN", "JAEGER",
    "JACOBY", "JENSON", "JARMAN", "JOSLIN", "JESSEN", "JAHNKE", "JACOBO", "JULIEN",
    "JOSHUA", "JEPSON", "JULIUS", "JANSON", "JACOBI", "JUDSON", "JARBOE", "JOHSON",
    "JANZEN", "JETTON", "JUNKER", "JONSON", "JAROSZ", "JENNER", "JAGGER", "JASMIN",
    "JEPSEN", "JORDEN", "JANNEY", "JUHASZ", "JERGEN", "JAKOB",
    "JOHNSON", "JOHNNIE", "JASMINE", "JEANNIE", "JOHANNA", "JANELLE", "JANETTE",
    "JULIANA", "JUSTINA", "JOSETTE", "JOELLEN", "JENELLE", "JULIETA", "JULIANN",
    "JULISSA", "JENETTE", "JANETTA", "JOSELYN", "JONELLE", "JESENIA", "JANESSA",
    "JAZMINE", "JEANENE", "JOANNIE", "JADWIGA", "JOLANDA", "JULIANE", "JANUARY",
    "JEANICE", "JANELLA", "JEANETT", "JENNINE", "JOHANNE", "JOHNSIE", "JANIECE",
    "JOHNSON", "JENNELL", "JAMISON", "JANSSEN", "JOHNSEN", "JARDINE", "JAGGERS",
    "JURGENS", "JOURDAN", "JULIANO", "JOSEPHS", "JHONSON", "JOZWIAK", "JANICKI",
    "JELINEK", "JANSSON", "JOACHIM", "JANELLE", "JACOBUS", "JENNING", "JANTZEN",
    "JOHNNIE",
    "JOSEFINA", "JEANNINE", "JULIANNE", "JULIANNA", "JONATHAN", "JONATHON",
    "JEANETTE", "JANNETTE", "JEANETTA", "JOHNETTA", "JENNEFER", "JULIENNE",
    "JOSPHINE", "JEANELLE", "JOHNETTE", "JULIEANN", "JOSEFINE", "JULIETTA",
    "JOHNSTON", "JACOBSON", "JACOBSEN", "JOHANSEN", "JOHANSON", "JAWORSKI",
    "JENNETTE", "JELLISON", "JOHANNES", "JASINSKI", "JUERGENS", "JARNAGIN",
    "JEREMIAH", "JEPPESEN", "JARNIGAN", "JANOUSEK",
    "JOHNATHAN", "JOHNATHON", "JORGENSEN", "JEANMARIE", "JOSEPHINA", "JEANNETTE",
    "JOSEPHINE", "JEANNETTA", "JORGENSON", "JANKOWSKI", "JOHNSTONE", "JABLONSKI",
    "JOSEPHSON", "JOHANNSEN", "JURGENSEN", "JIMMERSON", "JOHANSSON",
    "JAKUBOWSKI"]

/-- `encodeJToJ` from metaphone3.go (note: its vowel branch mutates state and
then reports the rune as not handled). -/
def encodeJToJ (e : Encoder) : Encoder × Bool :=
  if isVowelAt e 1 then
    let e :=
      if e.idx = 0 ∧ namesBeginningWithJThatGetAltY e then
        if e.EncodeVowels then metaphAddStr e ("JA") ("A") else metaphAddAlt e ('J') ('A')
      else
        if e.EncodeVowels then metaphAddStr e ("JA") ("JA") else metaphAdd e ('J')
    (setIdx e (skipVowels e (e.idx + 1)), false)
  else
    (metaphAdd e ('J'), true)

/-- `encodeSpanishJ2` from metaphone3.go. -/
def encodeSpanishJ2 (e : Encoder) : Encoder × Bool :=
  if stringAtStart e (-2) ["BOJA", "BAJA", "BEJA", "BOJO", "MOJA", "MOJI", "MEJI"] ∨
     stringAtStart e (-3) ["FRIJO", "BRUJO", "BRUJA", "GRAJE", "GRIJA", "LEIJA", "QUIJA"] ∨
     (stringAtEnd e (-1) ["OJA", "EJA", "AJOS", "EJOS", "OJAS", "OJOS", "UJON",
                          "AJOZ", "AJAL", "UJAR", "EJON", "EJAN", "AJARA"] ∧
      ¬ stringStart e ["DEJA"]) then
    (advanceCounter (metaphAdd e ('H')) 1 0, true)
  else (e, false)

/-- `encodeJAsVowel` from metaphone3.go. -/
def encodeJAsVowel (e : Encoder) : Encoder × Bool :=
  if stringAt e 0 ["JEWSK"] then
    (metaphAddAlt e ('J') replacementChar, true)
  else if (stringAt e 1 ["L", "T", "K", "S", "N", "M"] ∧ ¬ stringAt e 2 ["A"]) ∨
          stringStart e ["FJ", "WOJ", "LJUB", "BJOR", "HAJEK", "HALLELUJA", "LJUBLJANA"] ∨
          stringAt e 0 ["JAVIK", "JEVIC"] ∨
          stringExact e ["SONJA", "TANJA", "TONJA"] then
    (e, true)
  else (e, false)

/-- `encodeJ` from metaphone3.go. -/
def encodeJ (e : Encoder) : Encoder :=
  chain (encodeSpanishJ e) fun e =>
  chain (encodeSpanishOjUj e) fun e =>
  if e.idx = 0 then
    chain (encodeGermanJ e) fun e => (encodeJToJ e).1
  else
    chain (encodeSpanishJ2 e) fun e =>
      let r := encodeJAsVowel e
      let e := if r.2 then r.1 else metaphAdd r.1 ('J')
      if charNextIs e ('J') then bumpIdx e 1 else e

/-! ### Letter rules: K, L -/

/-- `encodeSilentK` from metaphone3.go. -/
def encodeSilentK (e : Encoder) : Encoder × Bool :=
  if e.idx = 0 ∧ stringStart e ["KN"] ∧ ¬ stringAt e 2 ["ISH", "ESSET", "IEVEL"] then
    (e, true)
  else if (stringAt e 1 ["NOW", "NIT", "NOT", "NOB"] ∧ ¬ stringStart e ["BANKNOTE"]) ∨
          stringAt e 1 ["NOCK", "NUCK", "NIFE", "NACK", "NIGHT"] then
    if 0 < e.idx ∧ charAt e (-1) ('N') then (bumpIdx e 1, true)
    else (e, true)
  else (e, false)

/-- `encodeK` from metaphone3.go. -/
def encodeK (e : Encoder) : Encoder :=
  chain (encodeSilentK e) fun e =>
    let e := metaphAdd e ('K')
    if charAt e 1 ('K') ∨ charAt e 1 ('Q') then bumpIdx e 1 else e

/-- `interpolateVowelWhenConsLAtEnd` from metaphone3.go. -/
def interpolateVowelWhenConsLAtEnd (e : Encoder) : Encoder :=
  if e.EncodeVowels ∧ stringAtEnd e (-1) ["DL", "GL", "TL"] then metaphAdd e ('A')
  else e

/-- `encodeLelyToL` from metaphone3.go. -/
def encodeLelyToL (e : Encoder) : Encoder × Bool :=
  if stringAtEnd e (-1) ["ILELY"] then (bumpIdx (metaphAdd e ('L')) 2, true)
  else (e, false)

/-- `encodeColonel` from metaphone3.go. -/
def encodeColonel (e : Encoder) : Encoder × Bool :=
  if stringAt e (-2) ["COLONEL"] then (bumpIdx (metaphAdd e ('R')) 1, true)
  else (e, false)

/-- `encodeFrenchAult` from metaphone3.go. -/
def encodeFrenchAult (e : Encoder) : Encoder × Bool :=
  if 3 < e.idx ∧
     (stringAt e (-3) ["RAULT", "NAULT", "BAULT", "SAULT", "GAULT", "CAULT"] ∨
      stringAt e (-4) ["REAULT", "RIAULT", "NEAULT", "BEAULT"]) ∧
     ¬(rootOrInflections e.input ("ASSAULT") ∨
       stringAt e (-8) ["SOMERSAULT"] ∨
       stringAt e (-9) ["SUMMERSAULT"]) then
    (bumpIdx e 1, true)
  else (e, false)

/-- `encodeFrenchEuil` from metaphone3.go. -/
def encodeFrenchEuil (e : Encoder) : Bool :=
  stringAtEnd e (-3) ["EUIL"]

/-- `encodeFrenchOulx` from metaphone3.go. -/
def encodeFrenchOulx (e : Encoder) : Encoder × Bool :=
  if stringAtEnd e (-2) ["OULX"] then (bumpIdx e 1, true)
  else (e, false)

/-- `encodeSilentLInLm` from metaphone3.go. -/
def encodeSilentLInLm (e : Encoder) : Encoder × Bool :=
  if stringAt e 0 ["LM", "LN"] then
    if (stringAt e (-2) ["COLN", "CALM", "BALM", "MALM", "PALM"] ∨
        stringAtEnd e (-1) ["OLM"] ∨
        stringAt e (-3) ["PSALM", "QUALM"] ∨
        stringAt e (-2) ["SALMON", "HOLMES"] ∨
        stringAt e (-1) ["ALMOND"] ∨
        stringAtStart e (-1) ["ALMS"]) ∧
       (¬ stringAt e 2 ["A"] ∧
        ¬ stringAt e (-2) ["BALMO", "PALMER", "PALMOR", "BALMER"] ∧
        ¬ stringAt e (-3) ["THALM"]) then
      (e, true)
    else
      (metaphAdd e ('L'), true)
  else (e, false)

/-- `encodeSilentLInLkLv` from metaphone3.go. -/
def encodeSilentLInLkLv (e : Encoder) : Bool :=
  (stringAt e (-2) ["WALK", "YOLK", "FOLK", "HALF", "TALK", "CALF", "BALK", "CALK"] ∨
   (stringAt e (-2) ["POLK", "HALV", "SALVE", "CALVE", "SOLDER"] ∧
    ¬ stringAt e (-2) ["POLKA", "PALKO", "HALVA", "HALVO", "SALVER", "CALVER"]) ∨
   (stringAt e (-3) ["CAULK", "CHALK", "BAULK", "FAULK"] ∧
    ¬ stringAt e (-4) ["SCHALK"])) ∧
  ¬ stringAt e (-5) ["GONSALVES", "GONCALVES"] ∧
  ¬ stringAt e (-2) ["BALKAN", "TALKAL"] ∧
  ¬ stringAt e (-3) ["PAULK", "CHALF"]

/-- `encodeSilentLInOuld` from metaphone3.go. -/
def encodeSilentLInOuld (e : Encoder) : Encoder × Bool :=
  if stringAt e (-3) ["WOULD", "COULD"] ∨
     (stringAt e (-4) ["SHOULD"] ∧ ¬ stringAt e (-4) ["SHOULDER"]) then
    (bumpIdx (metaphAddExactApprox e ("D") ("T")) 1, true)
  else (e, false)

/-- `encodeLlAsVowelSpecialCases` from metaphone3.go. -/
def encodeLlAsVowelSpecialCases (e : Encoder) : Encoder × Bool :=
  if stringAt e (-5) ["TORTILLA"] ∨ stringAt e (-8) ["RATATOUILLE"] ∨
     (stringStart e ["GUILL", "VEILL", "GAILL"] ∧
      ¬(stringAt e (-3) ["GUILLOT", "GUILLOR", "GUILLEN"] ∨ stringExact e ["GUILL"])) ∨
     stringStart e ["ROBILL", "BROUILL", "GREMILL"] ∨
     (stringAtEnd e (-2) ["EILLE"] ∧ ¬ stringAt e (-5) ["REVEILLE"]) then
    (bumpIdx e 1, true)
  else (e, false)

/-- `encodeLlAsVowel` from metaphone3.go. -/
def encodeLlAsVowel (e : Encoder) : Encoder × Bool :=
  if stringAtEnd e (-1) ["ILLO", "ILLA", "ALLE"] ∨
     (stringEnd e ["A", "O", "AS", "OS"] ∧ stringAt e (-1) ["AL", "IL"] ∧
      ¬ stringAt e (-1) ["ALLA"]) ∨
     stringStart e ["LLA", "VILLE", "VILLA", "GALLARDO", "VALLADAR", "MAGALLAN",
                    "CAVALLAR", "BALLASTE"] then
    (bumpIdx (metaphAddAlt e ('L') replacementChar) 1, true)
  else (e, false)

/-- `encodeLlAsVowelCases` from metaphone3.go (mutates the cursor and reports
unhandled when neither double-L case applies). -/
def encodeLlAsVowelCases (e : Encoder) : Encoder × Bool :=
  if charNextIs e ('L') then
    let r := encodeLlAsVowelSpecialCases e
    if r.2 then (r.1, true) else
    let r := encodeLlAsVowel r.1
    if r.2 then (r.1, true) else
    (bumpIdx r.1 1, false)
  else (e, false)

/-- `encodeVowelLeTransposition` from metaphone3.go (the parameter is the
cursor position saved on entry to `encodeL`). -/
def encodeVowelLeTransposition (e : Encoder) (idx0 : Int) : Encoder × Bool :=
  let offset := e.idx - idx0
  if e.EncodeVowels ∧ 1 < idx0 ∧ ¬ isVowelAt e (offset - 1) ∧ charAt e (offset + 1) ('E') ∧
     ¬ charAt e (offset - 1) ('L') ∧ ¬ charAt e (offset - 1) ('R') ∧
     ¬ isVowelAt e (offset + 2) ∧
     ¬ stringStart e ["MCCLE", "MCLEL", "EMBLEM", "KADLEC", "ECCLESI", "COMPLEC",
                      "COMPLEJ", "ROBLEDO"] ∧
     ¬(idx0 + 2 = e.lastIdx ∧ stringAt e offset ["LET"]) ∧
     ¬ stringAt e offset ["LEG", "LER", "LEX", "LESS", "LESQ", "LECT", "LEDG", "LETE",
                          "LETH", "LETS", "LETT", "LETUS", "LETIV", "LETELY", "LETTER",
                          "LETION", "LETIAN", "LETING", "LETORY", "LETTING"] ∧
     ¬(stringAt e offset ["LEMENT"] ∧
       ¬(stringAt e (-5) ["BATTLE", "TANGLE", "PUZZLE", "RABBLE", "BABBLE"] ∨
         stringAt e (-4) ["TABLE"])) ∧
     ¬(idx0 + 2 = e.lastIdx ∧ stringAt e (offset - 2) ["OCLES", "ACLES", "AKLES"]) ∧
     ¬ stringAt e (offset - 3) ["LISLE", "AISLE"] ∧ ¬ stringStart e ["ISLE"] ∧
     ¬ stringStart e ["ROBLES"] ∧
     ¬ stringAt e (offset - 4) ["PROBLEM", "RESPLEN"] ∧
     ¬ stringAt e (offset - 3) ["REPLEN"] ∧
     ¬ stringAt e (offset - 2) ["SPLE"] ∧
     ¬ charAt e (offset - 1) ('H') ∧ ¬ charAt e (offset - 1) ('W') then
    let e := metaphAddStr e ("AL") ("AL")
    let e := { e with flagAlInversion := true }
    let e := if charAt e (offset + 2) ('L') then setIdx e (idx0 + 2) else e
    (e, true)
  else (e, false)

/-- `encodeVowelPreserveVowelAfterL` from metaphone3.go. -/
def encodeVowelPreserveVowelAfterL (e : Encoder) (idx0 : Int) : Encoder × Bool :=
  let offset := idx0 - e.idx
  if e.EncodeVowels ∧ ¬ isVowelAt e (offset - 1) ∧ charAt e (offset + 1) ('E') ∧ 1 < idx0 ∧
     idx0 + 1 ≠ e.lastIdx ∧
     ¬(stringAt e (offset + 1) ["ES", "ED"] ∧ idx0 + 2 = e.lastIdx) ∧
     ¬ stringAt e (offset - 1) ["RLEST"] then
    let e := metaphAddStr e ("LA") ("LA")
    (setIdx e (skipVowels e (e.idx + 1)), true)
  else (e, false)

/-- `encodeLeCases` from metaphone3.go. -/
def encodeLeCases (e : Encoder) (idx0 : Int) : Encoder :=
  let r := encodeVowelLeTransposition e idx0
  if r.2 then r.1 else
  let r := encodeVowelPreserveVowelAfterL r.1 idx0
  if r.2 then r.1 else
  metaphAdd r.1 ('L')

/-- `encodeL` from metaphone3.go. -/
def encodeL (e : Encoder) : Encoder :=
  let saveIdx := e.idx
  let e := interpolateVowelWhenConsLAtEnd e
  chain (encodeLelyToL e) fun e =>
  chain (encodeColonel e) fun e =>
  chain (encodeFrenchAult e) fun e =>
  chain ((e, encodeFrenchEuil e)) fun e =>
  chain (encodeFrenchOulx e) fun e =>
  chain (encodeSilentLInLm e) fun e =>
  chain ((e, encodeSilentLInLkLv e)) fun e =>
  chain (encodeSilentLInOuld e) fun e =>
  chain (encodeLlAsVowelCases e) fun e =>
  encodeLeCases e saveIdx

/-! ### Letter rules: M, N -/

/-- `encodeSilentMAtBeginning` from metaphone3.go. -/
def encodeSilentMAtBeginning (e : Encoder) : Bool :=
  stringAtStart e 0 ["MN"]

/-- `encodeMrAndMrs` from metaphone3.go. -/
def encodeMrAndMrs (e : Encoder) : Encoder × Bool :=
  if stringExact e ["MR"] then
    if e.EncodeVowels then (bumpIdx (metaphAddStr e ("MASTAR") ("MASTAR")) 1, true)
    else (bumpIdx (metaphAddStr e ("MSTR") ("MSTR")) 1, true)
  else if stringExact e ["MRS"] then
    if e.EncodeVowels then (bumpIdx (metaphAddStr e ("MASAS") ("MASAS")) 2, true)
    else (bumpIdx (metaphAddStr e ("MSS") ("MSS")) 2, true)
  else (e, false)

/-- `encodeMac` from metaphone3.go. -/
def encodeMac (e : Encoder) : Encoder × Bool :=
  if stringAtStart e 0 ["MC", "MACIVER", "MACEWEN", "MACELROY", "MACILROY", "MACINTOSH"] then
    let e :=
      if e.EncodeVowels then metaphAddStr e ("MAK") ("MAK")
      else metaphAddStr e ("MK") ("MK")
    if stringStart e ["MC"] then
      if stringAt e 2 ["K", "G", "Q"] ∧ ¬ stringAt e 2 ["GEOR"] then (bumpIdx e 2, true)
      else (bumpIdx e 1, true)
    else (bumpIdx e 2, true)
  else (e, false)

/-- `encodeMpt` from metaphone3.go. -/
def encodeMpt (e : Encoder) : Encoder × Bool :=
  if stringAt e (-2) ["COMPTROL"] ∨ stringAt e (-4) ["ACCOMPT"] then
    (bumpIdx (metaphAdd e ('N')) 1, true)
  else (e, false)

/-- `testSilentMb1` from metaphone3.go. -/
def testSilentMb1 (e : Encoder) : Bool :=
  stringAtStart e (-3) ["THUMB"] ∨
  stringAtStart e (-2) ["DUMB", "BOMB", "DAMN", "LAMB", "NUMB", "TOMB"]

/-- `testPronouncedMb` from metaphone3.go. -/
def testPronouncedMb (e : Encoder) : Bool :=
  stringAt e (-2) ["NUMBER"] ∨
  (stringAt e 2 ["A", "O"] ∧ ¬ stringAt e (-2) ["DUMBASS"]) ∨
  stringAt e (-2) ["LAMBEN", "LAMBER", "LAMBET", "TOMBIG", "LAMBRE"]

/-- `testSilentMb2` from metaphone3.go. -/
def testSilentMb2 (e : Encoder) : Bool :=
  charNextIs e ('B') ∧ 1 < e.idx ∧
  (e.idx + 1 = e.lastIdx ∨
   stringAt e 2 ["ING", "ABL", "LIKE"] ∨
   stringAtEnd e 2 ["S"] ∨
   stringAt e (-5) ["BUNCOMB"] ∨
   (stringAtEnd e 2 ["ED", "ER"] ∧
    (stringStart e ["CLIMB", "PLUMB"] ∨
     ¬ stringAt e (-1) ["IMBER", "AMBER", "EMBER", "UMBER"]) ∧
    ¬ stringAt e (-2) ["CUMBER", "SOMBER"]))

/-- `testPronouncedMb2` from metaphone3.go. -/
def testPronouncedMb2 (e : Encoder) : Bool :=
  stringAt e (-1) ["OMBAS", "OMBAD", "UMBRA"] ∨ stringAt e (-3) ["FLAM"]

/-- `testMn` from metaphone3.go. -/
def testMn (e : Encoder) : Bool :=
  charNextIs e ('N') ∧
  (e.idx + 1 = e.lastIdx ∨
   stringAtEnd e 2 ["S", "LY", "ER", "ED", "ING", "EST"] ∨
   stringAt e (-2) ["DAMNEDEST"] ∨
   stringAt e (-5) ["GODDAMNIT"])

/-- `encodeMb` from metaphone3.go. -/
def encodeMb (e : Encoder) : Encoder :=
  if testSilentMb1 e then
    if ¬ testPronouncedMb e then bumpIdx e 1 else e
  else if testSilentMb2 e then
    if ¬ testPronouncedMb2 e then bumpIdx e 1 else e
  else if testMn e ∨ charNextIs e ('M') then bumpIdx e 1
  else e

/-- `encodeM` from metaphone3.go. -/
def encodeM (e : Encoder) : Encoder :=
  chain ((e, encodeSilentMAtBeginning e)) fun e =>
  chain (encodeMrAndMrs e) fun e =>
  chain (encodeMac e) fun e =>
  chain (encodeMpt e) fun e =>
    metaphAdd (encodeMb e) ('M')

/-- `encodeNce` from metaphone3.go. -/
def encodeNce (e : Encoder) : Encoder × Bool :=
  if stringAt e 1 ["C", "S"] ∧ stringAt e 2 ["E", "Y", "I"] ∧
     (e.idx + 2 = e.lastIdx ∨ (e.idx + 3 = e.lastIdx ∧ charAt e 3 ('S'))) then
    (bumpIdx (metaphAddStr e ("NTS") ("NTS")) 1, true)
  else (e, false)

/-- `encodeN` from metaphone3.go. -/
def encodeN (e : Encoder) : Encoder :=
  chain (encodeNce e) fun e =>
    let e := if charNextIs e ('N') then bumpIdx e 1 else e
    if ¬ stringAt e (-3) ["MONSIEUR"] ∧ ¬ stringAt e (-3) ["NENESS"] then metaphAdd e ('N')
    else e

/-! ### Letter rules: P, Q, R -/

/-- `encodeSilentPAtBeginning` from metaphone3.go. -/
def encodeSilentPAtBeginning (e : Encoder) : Bool :=
  stringAtStart e 0 ["PN", "PF", "PS", "PT"]

/-- `encodePt` from metaphone3.go. -/
def encodePt (e : Encoder) : Encoder × Bool :=
  if charNextIs e ('T') ∧
     (stringAtStart e 0 ["PTERO"] ∨ stringAt e (-5) ["RECEIPT"] ∨
      stringAt e (-4) ["ASYMPTOT"]) then
    (bumpIdx (metaphAdd e ('T')) 1, true)
  else (e, false)

/-- `encodePh` from metaphone3.go. -/
def encodePh (e : Encoder) : Encoder × Bool :=
  if charNextIs e ('H') then
    if stringAt e 0 ["PHTHALEIN"] ∨ stringAtStart e 0 ["PHTH"] ∨
       stringAt e (-3) ["APOPHTHEGM"] then
      (bumpIdx (metaphAdd e ('0')) 3, true)
    else if 0 < e.idx ∧
            (stringAt e 2 ["AM", "EAD", "OLE", "ELD", "ILL", "OLD", "EAP", "ERD", "ARD",
                           "ANG", "ORN", "EAV", "ART", "OUSE", "AMMER", "AZARD", "UGGER",
                           "OLSTER"] ∧
             ¬ stringAt e (-1) ["LPHAM"]) ∧
            ¬ stringAt e (-3) ["LYMPH", "NYMPH"] then
      (advanceCounter (metaphAdd e ('P')) 2 1, true)
    else
      (bumpIdx (metaphAdd e ('F')) 1, true)
  else (e, false)

/-- `encodePph` from metaphone3.go. -/
def encodePph (e : Encoder) : Encoder × Bool :=
  if charNextIs e ('P') ∧ e.idx + 2 < (e.input.length : Int) ∧ charAt e 2 ('H') then
    (bumpIdx (metaphAdd e ('F')) 2, true)
  else (e, false)

/-- `encodeRps` from metaphone3.go. -/
def encodeRps (e : Encoder) : Encoder × Bool :=
  if stringAt e (-3) ["CORPS"] ∧ ¬ stringAt e (-3) ["CORPSE"] then (bumpIdx e 1, true)
  else (e, false)

/-- `encodeCoup` from metaphone3.go. -/
def encodeCoup (e : Encoder) : Bool :=
  stringAtEnd e (-3) ["COUP"] ∧ ¬ stringAt e (-5) ["RECOUP"]

/-- `encodePneum` from metaphone3.go. -/
def encodePneum (e : Encoder) : Encoder × Bool :=
  if stringAt e 1 ["NEUM"] then (bumpIdx (metaphAdd e ('N')) 1, true)
  else (e, false)

/-- `encodePsych` from metaphone3.go. -/
def encodePsych (e : Encoder) : Encoder × Bool :=
  if stringAt e 1 ["SYCH"] then
    if e.EncodeVowels then (bumpIdx (metaphAddStr e ("SAK") ("SAK")) 4, true)
    else (bumpIdx (metaphAddStr e ("SK") ("SK")) 4, true)
  else (e, false)

/-- `encodePsalm` from metaphone3.go. -/
def encodePsalm (e : Encoder) : Encoder × Bool :=
  if stringAt e 1 ["SALM"] then
    if e.EncodeVowels then (bumpIdx (metaphAddStr e ("SAM") ("SAM")) 4, true)
    else (bumpIdx (metaphAddStr e ("SM") ("SM")) 4, true)
  else (e, false)

/-- `encodePb` from metaphone3.go. -/
def encodePb (e : Encoder) : Encoder :=
  if stringAt e 1 ["P", "B"] then bumpIdx e 1 else e

/-- `encodeP` from metaphone3.go. -/
def encodeP (e : Encoder) : Encoder :=
  chain ((e, encodeSilentPAtBeginning e)) fun e =>
  chain (encodePt e) fun e =>
  chain (encodePh e) fun e =>
  chain (encodePph e) fun e =>
  chain (encodeRps e) fun e =>
  chain ((e, encodeCoup e)) fun e =>
  chain (encodePneum e) fun e =>
  chain (encodePsych e) fun e =>
  chain (encodePsalm e) fun e =>
    metaphAdd (encodePb e) ('P')

/-- `encodeQ` from metaphone3.go. -/
def encodeQ (e : Encoder) : Encoder :=
  if stringAt e 0 ["QIN"] then metaphAdd e ('X')
  else
    let e := if charNextIs e ('Q') then bumpIdx e 1 else e
    metaphAdd e ('K')

/-- `encodeRz` from metaphone3.go. -/
def encodeRz (e : Encoder) : Encoder × Bool :=
  if stringAt e (-2) ["GARZ", "KURZ", "MARZ", "MERZ", "HERZ", "PERZ", "WARZ"] ∨
     stringAt e 0 ["RZANO", "RZOLA"] ∨ stringAt e (-1) ["ARZA", "ARZN"] then
    (e, false)
  else if stringAt e (-4) ["YASTRZEMSKI"] then
    (bumpIdx (metaphAddAlt e ('R') ('X')) 1, true)
  else if stringAt e (-1) ["BRZEZINSKI"] then
    (bumpIdx (metaphAddStr e ("RS") ("RJ")) 3, true)
  else if stringAt e (-1) ["TRZ", "PRZ", "KRZ"] ∨
          (stringAt e 0 ["RZ"] ∧ (isVowelAt e (-1) ∨ e.idx = 0)) then
    (bumpIdx (metaphAddStr e ("RS") ("X")) 1, true)
  else if stringAt e (-1) ["BRZ", "DRZ", "GRZ"] then
    (bumpIdx (metaphAddStr e ("RS") ("J")) 1, true)
  else (e, false)

/-- `testSilentR` from metaphone3.go. -/
def testSilentR (e : Encoder) : Bool :=
  (e.idx = e.lastIdx ∧
   stringAt e (-2) ["IER"] ∧
   (stringAt e (-5) ["MET", "VIV", "LUC"] ∨
    stringAt e (-6) ["CART", "DOSS", "FOUR", "OLIV", "BUST", "DAUM", "ATEL", "SONN",
                     "CORM", "MERC", "PELT", "POIR", "BERN", "FORT", "GREN", "SAUC",
                     "GAGN", "GAUT", "GRAN", "FORC", "MESS", "LUSS", "MEUN", "POTH",
                     "HOLL", "CHEN"] ∨
    stringAt e (-7) ["CROUP", "TORCH", "CLOUT", "FOURN", "GAUTH", "TROTT", "DEROS",
                     "CHART"] ∨
    stringAt e (-8) ["CHEVAL", "LAVOIS", "PELLET", "SOMMEL", "TREPAN", "LETELL",
                     "COLOMB"] ∨
    stringAt e (-9) ["CHARCUT"] ∨
    stringAt e (-10) ["CHARPENT"])) ∨
  stringAt e (-2) ["SURBURB", "WORSTED", "WORCESTER"] ∨
  stringAt e (-7) ["MONSIEUR"] ∨ stringAt e (-6) ["POITIERS"]

/-- `encodeVowelReTransposition` from metaphone3.go. -/
def encodeVowelReTransposition (e : Encoder) : Encoder × Bool :=
  if e.EncodeVowels ∧ charNextIs e ('E') ∧ 3 < e.input.length ∧
     ¬ stringStart e ["OUTRE", "LIBRE", "ANDRE"] ∧ ¬ stringExact e ["FRED", "TRES"] ∧
     ¬ stringAt e (-2) ["LDRED", "LFRED", "NDRED", "NFRED", "NDRES", "TRES", "IFRED"] ∧
     ¬ isVowelAt e (-1) ∧
     (e.idx + 1 = e.lastIdx ∨ stringAtEnd e 2 ["D", "S"]) then
    (metaphAddStr e ("AR") ("AR"), true)
  else (e, false)

/-- `encodeR` from metaphone3.go. -/
def encodeR (e : Encoder) : Encoder :=
  chain (encodeRz e) fun e =>
    let e :=
      if ¬ testSilentR e then
        let r := encodeVowelReTransposition e
        if r.2 then r.1 else metaphAdd r.1 ('R')
      else e
    if charNextIs e ('R') ∨ stringAt e (-6) ["POITIERS"] then bumpIdx e 1 else e

/-! ### Letter rules: S -/

/-- `encodeSkj` from metaphone3.go. -/
def encodeSkj (e : Encoder) : Encoder × Bool :=
  if stringAt e 0 ["SKJO", "SKJU"] ∧ isVowelAt e 3 then
    (bumpIdx (metaphAdd e ('X')) 2, true)
  else (e, false)

/-- `namesBeginningWithSwThatGetAltSv` from metaphone3.go. -/
def namesBeginningWithSwThatGetAltSv (e : Encoder) : Bool :=
  stringStart e ["SWANSON", "SWENSON", "SWINSON", "SWENSEN", "SWOBODA",
                 "SWIDERSKI", "SWARTHOUT", "SWEARENGIN"]

/-- `namesBeginningWithSwThatGetAlvXV` from metaphone3.go. -/
def namesBeginningWithSwThatGetAlvXV (e : Encoder) : Bool :=
  stringStart e ["SWART", "SWARTZ", "SWARTS", "SWIGER",
                 "SWITZER", "SWANGER", "SWIGERT", "SWIGART", "SWIHART",
                 "SWEITZER", "SWATZELL", "SWINDLER", "SWINEHART", "SWEARINGEN"]

/-- `encodeSpecialSw` from metaphone3.go. -/
def encodeSpecialSw (e : Encoder) : Encoder × Bool :=
  if e.idx = 0 then
    if namesBeginningWithSwThatGetAltSv e then
      (bumpIdx (metaphAddStr e ("S") ("SV")) 1, true)
    else if namesBeginningWithSwThatGetAlvXV e then
      (bumpIdx (metaphAddStr e ("S") ("XV")) 1, true)
    else (e, false)
  else (e, false)

/-- `encodeSj` from metaphone3.go. -/
def encodeSj (e : Encoder) : Encoder × Bool :=
  if stringStart e ["SJ"] then (bumpIdx (metaphAdd e ('X')) 1, true)
  else (e, false)

/-- `encodeSilentFrenchSFinal` from metaphone3.go. -/
def encodeSilentFrenchSFinal (e : Encoder) : Encoder × Bool :=
  if stringExact e ["LOUIS"] then
    (metaphAddAlt e ('S') replacementChar, true)
  else if e.idx = e.lastIdx ∧
          ((stringStart e ["YVES", "ARKANSAS", "FRANCAIS", "CRUDITES", "BRUYERES",
                           "DESCARTES", "DESCHUTES", "DESCHAMPS", "DESROCHES", "DESCHENES",
                           "RENDEZVOUS", "CONTRETEMPS", "DESLAURIERS"] ∨
            stringExact e ["HORS"] ∨
            stringEnd e ["CAMUS", "YPRES", "MESNES", "DEBRIS", "BLANCS", "INGRES", "CANNES",
                         "CHABLIS", "APROPOS", "JACQUES", "ELYSEES", "OEUVRES", "GEORGES",
                         "DESPRES"]) ∨
           (stringAt e (-2) ["AI", "OI", "UI"] ∧ ¬ stringStart e ["LOIS", "LUIS"])) then
    (e, true)
  else (e, false)

/-- `encodeSilentFrenchSInternal` from metaphone3.go. -/
def encodeSilentFrenchSInternal (e : Encoder) : Bool :=
  stringAt e (-2) ["MESNES", "DESCHAM", "DESPRES", "DESROCH", "DESROSI", "DESJARD",
                   "DESMARA", "DESCHEN", "DESHOTE", "DESLAUR", "DESCARTES"] ∨
  stringAt e (-5) ["DUQUESNE", "DUCHESNE"] ∨
  stringAt e (-3) ["FRESNEL", "GROSVENOR"] ∨
  stringAt e (-4) ["LOUISVILLE"] ∨
  stringAt e (-7) ["BEAUCHESNE", "ILLINOISAN"]

/-- `encodeIsl` from metaphone3.go. -/
def encodeIsl (e : Encoder) : Bool :=
  (stringAt e (-2) ["LISL", "LYSL", "AISL"] ∧
   ¬ stringAt e (-3) ["PAISLEY", "BAISLEY", "ALISLAM", "ALISLAH", "ALISLAA"]) ∨
  (e.idx = 1 ∧ stringAt e (-1) ["ISLE", "ISLAN"] ∧ ¬ stringAt e (-1) ["ISLEY", "ISLER"])

/-- `encodeStl` from metaphone3.go. -/
def encodeStl (e : Encoder) : Encoder × Bool :=
  if (stringAt e 0 ["STLE", "STLI"] ∧ ¬ stringAt e 2 ["LESS", "LIKE", "LINE"]) ∨
     stringAt e (-3) ["THISTLY", "BRISTLY", "GRISTLY"] ∨
     stringAt e (-1) ["USCLE"] then
    if stringStart e ["KRISTEN", "KRYSTLE", "CRYSTLE", "KRISTLE", "CHRISTENSEN",
                      "CHRISTENSON"] ∨
       stringAt e (-3) ["FIRSTLING"] ∨
       stringAt e (-2) ["NESTLING", "WESTLING"] then
      (bumpIdx (metaphAddStr e ("ST") ("ST")) 1, true)
    else
      if e.EncodeVowels ∧ charAt e 3 ('E') ∧ ¬ charAt e 4 ('R') ∧
         ¬ stringAt e 3 ["EY", "ETTE", "ETTA"] then
        let e := metaphAddStr e ("SAL") ("SAL")
        let e := { e with flagAlInversion := true }
        (bumpIdx e 2, true)
      else
        (bumpIdx (metaphAddStr e ("SL") ("SL")) 2, true)
  else (e, false)

/-- `encodeChristmas` from metaphone3.go. -/
def encodeChristmas (e : Encoder) : Encoder × Bool :=
  if stringAt e (-4) ["CHRISTMA"] then (bumpIdx (metaphAddStr e ("SM") ("SM")) 2, true)
  else (e, false)

/-- `encodeSthm` from metaphone3.go. -/
def encodeSthm (e : Encoder) : Encoder × Bool :=
  if stringAt e 0 ["STHM"] then (bumpIdx (metaphAddStr e ("SM") ("SM")) 3, true)
  else (e, false)

/-- `encodeIsten` from metaphone3.go. -/
def encodeIsten (e : Encoder) : Encoder × Bool :=
  if stringStart e ["CHRISTEN"] then
    if rootOrInflections e.input ("CHRISTEN") ∨ stringStart e ["CHRISTENDOM"] then
      (bumpIdx (metaphAddStr e ("S") ("ST")) 1, true)
    else
      (bumpIdx (metaphAddStr e ("ST") ("ST")) 1, true)
  else if stringAt e (-2) ["LISTEN", "RISTEN", "HASTEN", "FASTEN", "MUSTNT"] ∨
          stringAt e (-3) ["MOISTEN"] then
    (bumpIdx (metaphAdd e ('S')) 1, true)
  else (e, false)

/-- `encodeSugar` from metaphone3.go. -/
def encodeSugar (e : Encoder) : Encoder × Bool :=
  if stringAt e 0 ["SUGAR"] then (metaphAdd e ('X'), true)
  else (e, false)

/-- `encodeSh` from metaphone3.go. -/
def encodeSh (e : Encoder) : Encoder × Bool :=
  if stringAt e 0 ["SH"] then
    if stringAt e (-2) ["CASHMERE"] then
      (bumpIdx (metaphAdd e ('J')) 1, true)
    else
      let e :=
        if 0 < e.idx ∧
           (stringAtEnd e 1 ["HAP"] ∨
            stringAt e 1 ["HEIM", "HOEK", "HOLM", "HOLZ", "HOOD", "HEAD", "HEID",
                          "HAAR", "HORS", "HOLE", "HUND", "HELM", "HAWK", "HILL",
                          "HEART", "HATCH", "HOUSE", "HOUND", "HONOR"] ∨
            stringAtEnd e 2 ["EAR"] ∨
            (stringAt e 2 ["ORN"] ∧ ¬ stringAt e (-2) ["UNSHORN"]) ∨
            (stringAt e 1 ["HOUR"] ∧ ¬ stringStart e ["ASHOUR", "BASHOUR", "MANSHOUR"]) ∨
            stringAt e 2 ["ARMON", "ONEST", "ALLOW", "OLDER", "OPPER", "EIMER",
                          "ANDLE", "ONOUR", "ABILLE", "UMANCE", "ABITUA"]) then
          if ¬ stringAt e (-1) ["S"] then metaphAdd e ('S') else e
        else metaphAdd e ('X')
      (bumpIdx e 1, true)
  else (e, false)

/-- `encodeSch` from metaphone3.go. -/
def encodeSch (e : Encoder) : Encoder × Bool :=
  if stringAt e 1 ["CH"] then
    if 0 < e.idx ∧
       (stringAt e 3 ["IEF", "EAT", "ANCE", "ARGE"] ∨ stringStart e ["ESCHEW"]) then
      (metaphAdd e ('S'), true)
    else if (stringAt e 3 ["OO", "ER", "EN", "UY", "ED", "EM", "IA", "IZ", "IS", "OL"] ∧
             ¬ stringAt e 0 ["SCHOLT", "SCHISL", "SCHERR"]) ∨
            stringAt e 3 ["ISZ"] ∨
            (stringAt e (-1) ["ESCHAT", "ASCHIN", "ASCHAL", "ISCHAE", "ISCHIA"] ∧
             ¬ stringAt e (-2) ["FASCHING"]) ∨
            stringAtEnd e (-1) ["ESCHI"] ∨
            charAt e 3 ('Y') then
      if stringAt e 3 ["ER", "EN", "IS"] ∧
         (e.idx + 4 = e.lastIdx ∨ stringAt e 3 ["ENK", "ENB", "IST"]) then
        (bumpIdx (metaphAddStr e ("X") ("SK")) 2, true)
      else
        (bumpIdx (metaphAddStr e ("SK") ("SK")) 2, true)
    else
      (bumpIdx (metaphAdd e ('X')) 2, true)
  else (e, false)

/-- `encodeSur` from metaphone3.go. -/
def encodeSur (e : Encoder) : Encoder × Bool :=
  if stringAt e 1 ["URE", "URA", "URY"] then
    let e :=
      if e.idx = 0 ∨ stringAt e (-1) ["N", "K"] ∨ stringAt e (-2) ["NO"] then
        metaphAdd e ('X')
      else metaphAdd e ('J')
    (advanceCounter e 1 0, true)
  else (e, false)

/-- `encodeSu` from metaphone3.go. -/
def encodeSu (e : Encoder) : Encoder × Bool :=
  if stringAt e 1 ["UO", "UA"] ∧ e.idx ≠ 0 then
    let e :=
      if stringAt e (-1) ["RSUA"] then metaphAdd e ('S')
      else if isVowelAt e (-1) then metaphAddAlt e ('J') ('S')
      else metaphAddAlt e ('X') ('S')
    (advanceCounter e 2 0, true)
  else (e, false)

/-- `encodeSsio` from metaphone3.go. -/
def encodeSsio (e : Encoder) : Encoder × Bool :=
  if stringAt e 1 ["SION"] then
    let e :=
      if stringAt e (-2) ["CI"] then metaphAdd e ('J')
      else if isVowelAt e (-1) then metaphAdd e ('X')
      else e
    (advanceCounter e 3 1, true)
  else (e, false)

/-- `encodeSs` from metaphone3.go. -/
def encodeSs (e : Encoder) : Encoder × Bool :=
  if stringAt e (-1) ["USSIA", "ESSUR", "ISSUR", "ISSUE", "ESSIAN", "ASSURE", "ASSURA",
                      "ISSUAB", "ISSUAN", "ASSIUS"] then
    (advanceCounter (metaphAdd e ('X')) 2 1, true)
  else (e, false)

/-- `encodeSia` from metaphone3.go. -/
def encodeSia (e : Encoder) : Encoder × Bool :=
  if stringAt e (-2) ["CHSIA"] ∨ stringAt e (-1) ["RSIAL"] then
    (advanceCounter (metaphAdd e ('X')) 2 0, true)
  else if (stringAtStart e (-3) ["ALESIA", "ALYSIA", "ALISIA", "STASIA"] ∧
           ¬ stringStart e ["ANASTASIA"]) ∨
          stringAt e (-5) ["THERESIA", "DIONYSIAN"] then
    (advanceCounter (metaphAddAlt e ('X') ('S')) 2 0, true)
  else if stringAtEnd e 0 ["SIA", "SIAN"] ∨ stringAt e (-5) ["AMBROSIAL"] then
    let e :=
      if (isVowelAt e (-1) ∨ stringAt e (-1) ["R"]) ∧
         ¬(stringStart e ["JAMES", "NICOS", "PEGAS", "PEPYS",
                          "HOBBES", "HOLMES", "JAQUES", "KEYNES",
                          "MALTHUS", "HOMOOUS", "MAGLEMOS", "HOMOIOUS",
                          "LEVALLOIS", "TARDENOIS"] ∨ stringAt e (-4) ["ALGES"]) then
        metaphAdd e ('J')
      else metaphAdd e ('S')
    (advanceCounter e 1 0, true)
  else (e, false)

/-- `encodeSio` from metaphone3.go. -/
def encodeSio (e : Encoder) : Encoder × Bool :=
  if stringStart e ["SIOBHAN"] then
    (advanceCounter (metaphAdd e ('X')) 2 0, true)
  else if stringAt e 1 ["ION"] then
    let e :=
      if isVowelAt e (-1) ∨ stringAt e (-2) ["ER", "UR"] then metaphAdd e ('J')
      else metaphAdd e ('X')
    (advanceCounter e 2 0, true)
  else (e, false)

/-- `encodeAnglicisations` from metaphone3.go. -/
def encodeAnglicisations (e : Encoder) : Encoder × Bool :=
  if stringAtStart e 0 ["SM", "SN", "SL"] ∨ stringAt e 1 ["Z"] then
    let e := metaphAddAlt e ('S') ('X')
    if stringAt e 1 ["Z"] then (bumpIdx e 1, true) else (e, true)
  else (e, false)

/-- `encodeSc` from metaphone3.go. -/
def encodeSc (e : Encoder) : Encoder × Bool :=
  if stringAt e 0 ["SC"] then
    if stringAt e (-2) ["VISCOUNT"] then (e, true)
    else if stringAt e 2 ["I", "E", "Y"] then
      if stringAt e 2 ["IUT", "IOUS"] ∨ stringAt e (-2) ["FASCIS"] ∨
         stringAt e (-3) ["CONSCIEN", "CRESCEND", "CONSCION"] ∨
         stringAt e (-4) ["OMNISCIEN"] then
        (bumpIdx (metaphAdd e ('X')) 1, true)
      else if stringAt e 0 ["SCIVV", "SCIRO", "SCIPIO", "SCEPTIC", "SCEPSIS"] ∨
              stringAt e (-2) ["PISCITELLI"] then
        (bumpIdx (metaphAddStr e ("SK") ("SK")) 1, true)
      else
        (bumpIdx (metaphAdd e ('S')) 1, true)
    else
      (bumpIdx (metaphAddStr e ("SK") ("SK")) 1, true)
  else (e, false)

/-- `encodeSeiSuiSier` from metaphone3.go. -/
def encodeSeiSuiSier (e : Encoder) : Encoder × Bool :=
  if stringAtEnd e (-3) ["NAUSEA"] ∨
     stringAt e (-2) ["CASUI"] ∨
     (stringAt e (-1) ["OSIER", "ASIER"] ∧
      ¬(stringStart e ["OSIER", "EASIER"] ∨ stringAt e (-2) ["ROSIER", "MOSIER"])) then
    (advanceCounter (metaphAddAlt e ('J') ('X')) 2 0, true)
  else (e, false)

/-- `encodeSea` from metaphone3.go. -/
def encodeSea (e : Encoder) : Encoder × Bool :=
  if stringExact e ["SEAN"] ∨
     (stringAt e (-3) ["NAUSEO"] ∧ ¬ stringAt e (-3) ["NAUSEAT"]) then
    (advanceCounter (metaphAdd e ('X')) 2 0, true)
  else (e, false)

/-- `encodeS` from metaphone3.go. -/
def encodeS (e : Encoder) : Encoder :=
  chain (encodeSkj e) fun e =>
  chain (encodeSpecialSw e) fun e =>
  chain (encodeSj e) fun e =>
  chain (encodeSilentFrenchSFinal e) fun e =>
  chain ((e, encodeSilentFrenchSInternal e)) fun e =>
  chain ((e, encodeIsl e)) fun e =>
  chain (encodeStl e) fun e =>
  chain (encodeChristmas e) fun e =>
  chain (encodeSthm e) fun e =>
  chain (encodeIsten e) fun e =>
  chain (encodeSugar e) fun e =>
  chain (encodeSh e) fun e =>
  chain (encodeSch e) fun e =>
  chain (encodeSur e) fun e =>
  chain (encodeSu e) fun e =>
  chain (encodeSsio e) fun e =>
  chain (encodeSs e) fun e =>
  chain (encodeSia e) fun e =>
  chain (encodeSio e) fun e =>
  chain (encodeAnglicisations e) fun e =>
  chain (encodeSc e) fun e =>
  chain (encodeSeiSuiSier e) fun e =>
  chain (encodeSea e) fun e =>
    let e := metaphAdd e ('S')
    if stringAt e 1 ["S", "Z"] ∧ ¬ stringAt e 1 ["SH"] then bumpIdx e 1 else e

/-! ### Letter rules: T -/

/-- `encodeTInitial` from metaphone3.go. -/
def encodeTInitial (e : Encoder) : Encoder × Bool :=
  if e.idx = 0 then
    if stringAt e 1 ["SAR", "ZAR"] then (e, true)
    else if stringExact e ["TSO", "TSA", "TSU", "TSAO", "TSAI", "TSING", "TSANG"] then
      (advanceCounter (metaphAdd e ('X')) 2 1, true)
    else if charNextIs e ('S') ∧ isVowelAt e 2 then
      (advanceCounter (metaphAddStr e ("TS") ("S")) 2 1, true)
    else if charNextIs e ('J') then
      (advanceCounter (metaphAdd e ('X')) 2 1, true)
    else if stringExact e ["THU"] ∨
            stringAt e 1 ["HAI", "HUY", "HAO", "HYME", "HYMY", "HANH", "HERES"] then
      (advanceCounter (metaphAdd e ('T')) 2 1, true)
    else (e, false)
  else (e, false)

/-- `encodeTch` from metaphone3.go. -/
def encodeTch (e : Encoder) : Encoder × Bool :=
  if stringAt e 1 ["CH"] then (bumpIdx (metaphAdd e ('X')) 2, true)
  else (e, false)

/-- `encodeSilentFrenchT` from metaphone3.go. -/
def encodeSilentFrenchT (e : Encoder) : Bool :=
  (stringAtEnd e (-4) ["MONET", "GENET", "CHAUT"] ∨
   stringAt e (-2) ["POTPOURRI"] ∨
   stringAt e (-3) ["MORTGAGE", "BOATSWAIN"] ∨
   stringAt e (-4) ["BERET", "BIDET", "FILET", "DEBUT", "DEPOT", "PINOT", "TAROT"] ∨
   stringAt e (-5) ["BALLET", "BUFFET", "CACHET", "CHALET", "ESPRIT", "RAGOUT", "GOULET",
                    "CHABOT", "BENOIT"] ∨
   stringAt e (-6) ["GOURMET", "BOUQUET", "CROCHET", "CROQUET", "PARFAIT", "PINCHOT",
                    "CABARET", "PARQUET", "RAPPORT", "TOUCHET", "COURBET", "DIDEROT"] ∨
   stringAt e (-7) ["ENTREPOT", "CABERNET", "DUBONNET", "MASSENET", "MUSCADET", "RICOCHET",
                    "ESCARGOT"] ∨
   stringAt e (-8) ["SOBRIQUET", "CABRIOLET", "CASSOULET", "OUBRIQUET", "CAMEMBERT"]) ∧
  ¬ stringAt e 1 ["AN", "RY", "IC", "OM", "IN"]

/-- `encodeTunTulTuaTuo` from metaphone3.go. -/
def encodeTunTulTuaTuo (e : Encoder) : Encoder × Bool :=
  if stringAt e (-3) ["FORTUN"] ∨
     (stringAt e 0 ["TUL"] ∧ isVowelAt e (-1) ∧ isVowelAt e 3) ∨
     stringAt e (-2) ["BITUA", "BITUE"] ∨
     (1 < e.idx ∧ stringAt e 0 ["TUA", "TUO"]) then
    (metaphAddAlt e ('X') ('T'), true)
  else (e, false)

/-- `encodeTueTeuTeouTulTie` from metaphone3.go. -/
def encodeTueTeuTeouTulTie (e : Encoder) : Encoder × Bool :=
  if stringAt e 1 ["UENT"] ∨
     stringAt e (-4) ["RIGHTEOUS"] ∨
     stringAt e (-3) ["STATUTE", "AMATEUR", "STATUTOR"] ∨
     stringAt e (-1) ["NTULE", "NTULA", "STULE", "STULA", "STEUR"] ∨
     stringAtEnd e 0 ["TUE"] ∨
     stringAt e 0 ["TUENC"] ∨
     stringAtEnd e 0 ["TIENCE"] then
    (advanceCounter (metaphAddAlt e ('X') ('T')) 1 0, true)
  else (e, false)

/-- `encodeTurTiuSuffixes` from metaphone3.go. -/
def encodeTurTiuSuffixes (e : Encoder) : Encoder × Bool :=
  if 0 < e.idx ∧ stringAt e 1 ["URE", "URA", "URI", "URY", "URO", "IUS"] then
    let e :=
      if (stringAtEnd e 1 ["URA", "URO"] ∧ ¬ stringAt e (-3) ["VENTURA"]) ∨
         stringAt e 1 ["URIA"] then
        metaphAdd e ('T')
      else metaphAddAlt e ('X') ('T')
    (advanceCounter e 1 0, true)
  else (e, false)

/-- `encodeTi` from metaphone3.go. -/
def encodeTi (e : Encoder) : Encoder × Bool :=
  if (stringAt e 1 ["IO"] ∧ ¬ stringAt e (-1) ["ETIOL"]) ∨
     stringAt e 1 ["IAL"] ∨
     stringAt e (-1) ["RTIUM", "ATIUM"] ∨
     ((stringAt e 1 ["IAN"] ∧ 0 < e.idx) ∧
      ¬(stringAt e (-4) ["FAUSTIAN"] ∨ stringAt e (-5) ["PROUSTIAN"] ∨
        stringAt e (-2) ["TATIANA"] ∨ stringAt e (-3) ["KANTIAN", "GENTIAN"] ∨
        stringAt e (-8) ["ROOSEVELTIAN"]) ∨
      (stringAtEnd e 0 ["TIA"] ∧
       ¬(stringAt e (-3) ["HESTIA", "MASTIA"] ∨
         stringAt e (-2) ["OSTIA"] ∨ stringStart e ["TIA"] ∨
         stringAt e (-5) ["IZVESTIA"])) ∨
      stringAt e 1 ["IATE", "IATI", "IABL", "IATO", "IARY"] ∨
      stringAt e (-5) ["CHRISTIAN"]) then
    if stringAtStart e (-2) ["ANTI"] ∨ stringStart e ["PATIO", "PITIA", "DUTIA"] then
      (advanceCounter (metaphAdd e ('T')) 2 0, true)
    else if stringAt e (-4) ["EQUATION"] then
      (advanceCounter (metaphAdd e ('J')) 2 0, true)
    else if stringAt e 0 ["TION"] then
      (advanceCounter (metaphAdd e ('X')) 2 0, true)
    else if stringStart e ["KATIA", "LATIA"] then
      (advanceCounter (metaphAddAlt e ('T') ('X')) 2 0, true)
    else
      (advanceCounter (metaphAddAlt e ('X') ('T')) 2 0, true)
  else (e, false)

/-- `encodeTient` from metaphone3.go. -/
def encodeTient (e : Encoder) : Encoder × Bool :=
  if stringAt e 1 ["IENT"] then
    (advanceCounter (metaphAddAlt e ('X') ('T')) 2 0, true)
  else (e, false)

/-- `encodeTsch` from metaphone3.go. -/
def encodeTsch (e : Encoder) : Encoder × Bool :=
  if stringAt e 0 ["TSCH"] ∧ ¬ stringAt e (-3) ["WELT", "KLAT", "FEST"] then
    (bumpIdx (metaphAdd e ('X')) 3, true)
  else (e, false)

/-- `encodeTzsch` from metaphone3.go. -/
def encodeTzsch (e : Encoder) : Encoder × Bool :=
  if stringAt e 0 ["TZSCH"] then (bumpIdx (metaphAdd e ('X')) 4, true)
  else (e, false)

/-- `encodeThPronouncedSeparately` from metaphone3.go. -/
def encodeThPronouncedSeparately (e : Encoder) : Encoder × Bool :=
  if (0 < e.idx ∧
      stringAt e 1 ["HOOD", "HEAD", "HEID", "HAND", "HILL", "HOLD", "HAWK", "HEAP",
                    "HERD", "HOLE", "HOOK", "HUNT", "HUMO", "HAUS", "HOFF", "HARD"] ∧
      ¬ stringAt e (-3) ["SOUTH", "NORTH"]) ∨
     stringAt e 1 ["HOUSE", "HEART", "HASTE", "HYPNO", "HEQUE"] ∨
     (stringAtEnd e 1 ["HALL"] ∧ ¬ stringAt e (-3) ["SOUTH", "NORTH"]) ∨
     (stringAtEnd e 1 ["HAM"] ∧
      ¬ stringStart e ["GOTHAM", "WITHAM", "LATHAM", "BENTHAM", "WALTHAM", "WORTHAM",
                       "GRANTHAM"]) ∨
     (stringAt e 1 ["HATCH"] ∧ ¬(e.idx = 0 ∨ stringAt e (-2) ["UNTHATCH"])) ∨
     stringAt e (-3) ["GOETHE", "WARTHOG"] ∨
     stringAt e (-2) ["ESTHER", "NATHALIE"] then
    let e := if stringAt e (-3) ["POSTHUM"] then metaphAdd e ('X') else metaphAdd e ('T')
    (bumpIdx e 1, true)
  else (e, false)

/-- `encodeTth` from metaphone3.go. -/
def encodeTth (e : Encoder) : Encoder × Bool :=
  if stringAt e 0 ["TTH"] then
    let e :=
      if stringAt e (-2) ["MATTH"] then metaphAdd e ('0')
      else metaphAddStr e ("T0") ("T0")
    (bumpIdx e 2, true)
  else (e, false)

/-- `encodeTh` from metaphone3.go. -/
def encodeTh (e : Encoder) : Encoder × Bool :=
  if stringAt e 0 ["TH"] then
    if stringAt e (-3) ["CLOTHES"] then
      (bumpIdx e 2, true)
    else
      let e :=
        if stringAt e 2 ["OMAS", "OMPS", "OMPK", "OMSO", "OMSE", "AMES", "OVEN", "OFEN",
                         "ILDA", "ILDE"] ∨
           stringExact e ["THOM", "THOMS"] ∨
           stringStart e ["SCH", "VAN ", "VON "] then
          metaphAdd e ('T')
        else
          if stringStart e ["SM"] then metaphAddAlt e ('0') ('T')
          else metaphAdd e ('0')
      (bumpIdx e 1, true)
  else (e, false)

/-- `encodeT` from metaphone3.go. -/
def encodeT (e : Encoder) : Encoder :=
  chain (encodeTInitial e) fun e =>
  chain (encodeTch e) fun e =>
  chain ((e, encodeSilentFrenchT e)) fun e =>
  chain (encodeTunTulTuaTuo e) fun e =>
  chain (encodeTueTeuTeouTulTie e) fun e =>
  chain (encodeTurTiuSuffixes e) fun e =>
  chain (encodeTi e) fun e =>
  chain (encodeTient e) fun e =>
  chain (encodeTsch e) fun e =>
  chain (encodeTzsch e) fun e =>
  chain (encodeThPronouncedSeparately e) fun e =>
  chain (encodeTth e) fun e =>
  chain (encodeTh e) fun e =>
    let e := if stringAt e 1 ["T", "D"] then bumpIdx e 1 else e
    metaphAdd e ('T')

/-! ### Letter rules: V, W, X, Z -/

/-- `encodeV` from metaphone3.go. -/
def encodeV (e : Encoder) : Encoder :=
  let e := if charNextIs e ('V') then bumpIdx e 1 else e
  metaphAddExactApprox e ("V") ("F")

/-- `encodeSilentWAtBeginning` from metaphone3.go. -/
def encodeSilentWAtBeginning (e : Encoder) : Bool :=
  stringAtStart e 0 ["WR"]

/-- `encodeWitzWicz` from metaphone3.go. -/
def encodeWitzWicz (e : Encoder) : Encoder × Bool :=
  if stringAtEnd e 0 ["WICZ", "WITZ"] then
    let e :=
      if e.EncodeVowels then
        if e.primBuf.getLast? = some ('A') then metaphAddStr e ("TS") ("FAX")
        else metaphAddStr e ("ATS") ("FAX")
      else metaphAddStr e ("TS") ("FX")
    (bumpIdx e 3, true)
  else (e, false)

/-- `encodeWr` from metaphone3.go. -/
def encodeWr (e : Encoder) : Encoder × Bool :=
  if stringAt e 0 ["WR"] then (bumpIdx (metaphAdd e ('R')) 1, true)
  else (e, false)

/-- `germanicOrSlavicNameBeginningWithW` from metaphone3.go. -/
def germanicOrSlavicNameBeginningWithW (e : Encoder) : Bool :=
  stringStart e ["WEE", "WIX", "WAX",
    "WOLF", "WEIS", "WAHL", "WALZ", "WEIL", "WERT", "WINE", "WILK", "WALT", "WOLL",
    "WADA", "WULF", "WEHR", "WURM", "WYSE", "WENZ", "WIRT", "WOLK", "WEIN", "WYSS",
    "WASS", "WANN", "WINT", "WINK", "WILE", "WIKE", "WIER", "WELK", "WISE",
    "WIRTH", "WIESE", "WITTE", "WENTZ", "WOLFF", "WENDT", "WERTZ", "WILKE", "WALTZ",
    "WEISE", "WOOLF", "WERTH", "WEESE", "WURTH", "WINES", "WARGO", "WIMER", "WISER",
    "WAGER", "WILLE", "WILDS", "WAGAR", "WERTS", "WITTY", "WIENS", "WIEBE", "WIRTZ",
    "WYMER", "WULFF", "WIBLE", "WINER", "WIEST", "WALKO", "WALLA", "WEBRE", "WEYER",
    "WYBLE", "WOMAC", "WILTZ", "WURST", "WOLAK", "WELKE", "WEDEL", "WEIST", "WYGAN",
    "WUEST", "WEISZ", "WALCK", "WEITZ", "WYDRA", "WANDA", "WILMA", "WEBER",
    "WETZEL", "WEINER", "WENZEL", "WESTER", "WALLEN", "WENGER", "WALLIN", "WEILER",
    "WIMMER", "WEIMER", "WYRICK", "WEGNER", "WINNER", "WESSEL", "WILKIE", "WEIGEL",
    "WOJCIK", "WENDEL", "WITTER", "WIENER", "WEISER", "WEXLER", "WACKER", "WISNER",
    "WITMER", "WINKLE", "WELTER", "WIDMER", "WITTEN", "WINDLE", "WASHER", "WOLTER",
    "WILKEY", "WIDNER", "WARMAN", "WEYANT", "WEIBEL", "WANNER", "WILKEN", "WILTSE",
    "WARNKE", "WALSER", "WEIKEL", "WESNER", "WITZEL", "WROBEL", "WAGNON", "WINANS",
    "WENNER", "WOLKEN", "WILNER", "WYSONG", "WYCOFF", "WUNDER", "WINKEL", "WIDMAN",
    "WELSCH", "WEHNER", "WEIGLE", "WETTER", "WUNSCH", "WHITTY", "WAXMAN", "WILKER",
    "WILHAM", "WITTIG", "WITMAN", "WESTRA", "WEHRLE", "WASSER", "WILLER", "WEGMAN",
    "WARFEL", "WYNTER", "WERNER", "WAGNER", "WISSER",
    "WISEMAN", "WINKLER", "WILHELM", "WELLMAN", "WAMPLER", "WACHTER", "WALTHER",
    "WYCKOFF", "WEIDNER", "WOZNIAK", "WEILAND", "WILFONG", "WIEGAND", "WILCHER",
    "WIELAND", "WILDMAN", "WALDMAN", "WORTMAN", "WYSOCKI", "WEIDMAN", "WITTMAN",
    "WIDENER", "WOLFSON", "WENDELL", "WEITZEL", "WILLMAN", "WALDRUP", "WALTMAN",
    "WALCZAK", "WEIGAND", "WESSELS", "WIDEMAN", "WOLTERS", "WIREMAN", "WILHOIT",
    "WEGENER", "WOTRING", "WINGERT", "WIESNER", "WAYMIRE", "WHETZEL", "WENTZEL",
    "WINEGAR", "WESTMAN", "WYNKOOP", "WALLICK", "WURSTER", "WINBUSH", "WILBERT",
    "WALLACH", "WYNKOOP", "WALLICK", "WURSTER", "WINBUSH", "WILBERT", "WALLACH",
    "WEISSER", "WEISNER", "WINDERS", "WILLMON", "WILLEMS", "WIERSMA", "WACHTEL",
    "WARNICK", "WEIDLER", "WALTRIP", "WHETSEL", "WHELESS", "WELCHER", "WALBORN",
    "WILLSEY", "WEINMAN", "WAGAMAN", "WOMMACK", "WINGLER", "WINKLES", "WIEDMAN",
    "WHITNER", "WOLFRAM", "WARLICK", "WEEDMAN", "WHISMAN", "WINLAND", "WEESNER",
    "WARTHEN", "WETZLER", "WENDLER", "WALLNER", "WOLBERT", "WITTMER", "WISHART",
    "WILLIAM",
    "WESTPHAL", "WICKLUND", "WEISSMAN", "WESTLUND", "WOLFGANG", "WILLHITE",
    "WEISBERG", "WALRAVEN", "WOLFGRAM", "WILHOITE", "WECHSLER", "WENDLING",
    "WESTBERG", "WENDLAND", "WININGER", "WHISNANT", "WESTRICK", "WESTLING",
    "WESTBURY", "WEITZMAN", "WEHMEYER", "WEINMANN", "WISNESKI", "WHELCHEL",
    "WEISHAAR", "WAGGENER", "WALDROUP", "WESTHOFF", "WIEDEMAN", "WASINGER",
    "WINBORNE",
    "WHISENANT", "WEINSTEIN", "WESTERMAN", "WASSERMAN", "WITKOWSKI", "WEINTRAUB",
    "WINKELMAN", "WINKFIELD", "WANAMAKER", "WIECZOREK", "WIECHMANN", "WOJTOWICZ",
    "WALKOWIAK", "WEINSTOCK", "WILLEFORD", "WARKENTIN", "WEISINGER", "WINKLEMAN",
    "WILHEMINA",
    "WISNIEWSKI", "WUNDERLICH", "WHISENHUNT", "WEINBERGER", "WROBLEWSKI",
    "WAGUESPACK", "WEISGERBER", "WESTERVELT", "WESTERLUND", "WASILEWSKI",
    "WILDERMUTH", "WESTENDORF", "WESOLOWSKI", "WEINGARTEN", "WINEBARGER",
    "WESTERBERG", "WANNAMAKER", "WEISSINGER",
    "WALDSCHMIDT", "WEINGARTNER", "WINEBRENNER",
    "WOLFENBARGER", "WOJCIECHOWSKI"]

/-- `encodeInitialWVowel` from metaphone3.go. -/
def encodeInitialWVowel (e : Encoder) : Encoder × Bool :=
  if e.idx = 0 ∧ isVowelAt e 1 then
    let e :=
      if germanicOrSlavicNameBeginningWithW e then
        if e.EncodeVowels then metaphAddExactApproxAlt e ("A") ("VA") ("A") ("FA")
        else metaphAddExactApproxAlt e ("A") ("V") ("A") ("F")
      else metaphAdd e ('A')
    (setIdx e (skipVowels e (e.idx + 1)), true)
  else (e, false)

/-- `encodeWh` from metaphone3.go. -/
def encodeWh (e : Encoder) : Encoder × Bool :=
  if stringAt e 0 ["WH"] then
    if charAt e 2 ('O') ∧
       ¬ stringAt e 2 ["OA", "OP", "OOP", "OMP", "ORL", "ORT", "OOSH"] then
      (advanceCounter (metaphAdd e ('H')) 2 1, true)
    else if stringAt e 2 ["IDE", "ARD", "EAD", "AWK", "ERD", "OOK", "AND", "OLE", "OOD",
                          "EART", "OUSE", "OUND", "AMMER"] then
      (bumpIdx (metaphAdd e ('H')) 1, true)
    else if e.idx = 0 then
      let e := metaphAdd e ('A')
      (setIdx e (skipVowels e (e.idx + 2)), true)
    else
      (bumpIdx e 1, true)
  else (e, false)

/-- `encodeEasternEuropeanW` from metaphone3.go. -/
def encodeEasternEuropeanW (e : Encoder) : Encoder × Bool :=
  if (e.idx = e.lastIdx ∧ isVowelAt e (-1)) ∨
     stringAt e (-1) ["EWSKI", "EWSKY", "OWSKI", "OWSKY"] ∨
     stringAtEnd e 0 ["WIAK", "WICKI", "WACKI"] ∨
     stringStart e ["SCH"] then
    (metaphAddExactApproxAlt e ("") ("V") ("") ("F"), true)
  else (e, false)

/-- `encodeW` from metaphone3.go. -/
def encodeW (e : Encoder) : Encoder :=
  chain ((e, encodeSilentWAtBeginning e)) fun e =>
  chain (encodeWitzWicz e) fun e =>
  chain (encodeWr e) fun e =>
  chain (encodeInitialWVowel e) fun e =>
  chain (encodeWh e) fun e =>
  chain (encodeEasternEuropeanW e) fun e =>
    if e.EncodeVowels ∧ stringAtEnd e 0 ["WE"] then metaphAdd e ('A') else e

/-- `encodeInitialX` from metaphone3.go. -/
def encodeInitialX (e : Encoder) : Encoder × Bool :=
  if stringStart e ["XU", "XIA", "XIO", "XIE"] then (metaphAdd e ('X'), true)
  else if e.idx = 0 then (metaphAdd e ('S'), true)
  else (e, false)

/-- `encodeGreekX` from metaphone3.go. -/
def encodeGreekX (e : Encoder) : Encoder × Bool :=
  if stringAt e 1 ["YLO", "YLE", "ENO", "ANTH"] then (metaphAdd e ('S'), true)
  else (e, false)

/-- `encodeXSpecialCases` from metaphone3.go. -/
def encodeXSpecialCases (e : Encoder) : Encoder × Bool :=
  if stringAt e (-2) ["LUXUR"] then
    (metaphAddExactApprox e ("GJ") ("KJ"), true)
  else if stringStart e ["TEXEIRA", "TEIXEIRA"] then
    (metaphAdd e ('X'), true)
  else (e, false)

/-- `encodeXToH` from metaphone3.go. -/
def encodeXToH (e : Encoder) : Encoder × Bool :=
  if stringAt e (-2) ["OAXACA"] ∨ stringAt e (-3) ["QUIXOTE"] then
    (metaphAdd e ('H'), true)
  else (e, false)

/-- `encodeXVowel` from metaphone3.go. -/
def encodeXVowel (e : Encoder) : Encoder × Bool :=
  if stringAt e 1 ["UAL", "ION", "IOU"] then
    (advanceCounter (metaphAddStr e ("KX") ("KS")) 2 0, true)
  else (e, false)

/-- `encodeFrenchXFinal` from metaphone3.go (note: appends and then reports
the rune as not handled, exactly as the source does). -/
def encodeFrenchXFinal (e : Encoder) : Encoder × Bool :=
  if ¬(e.idx = e.lastIdx ∧
       (stringAt e (-3) ["IAU", "EAU", "IEU"] ∨
        stringAt e (-2) ["AI", "AU", "OU", "OI", "EU"])) then
    (metaphAddStr e ("KS") ("KS"), false)
  else (e, false)

/-- `encodeX` from metaphone3.go. -/
def encodeX (e : Encoder) : Encoder :=
  chain (encodeInitialX e) fun e =>
  chain (encodeGreekX e) fun e =>
  chain (encodeXSpecialCases e) fun e =>
  chain (encodeXToH e) fun e =>
  chain (encodeXVowel e) fun e =>
  chain (encodeFrenchXFinal e) fun e =>
    if stringAt e 1 ["X", "Z", "S", "CE", "CE"] then bumpIdx e 1 else e

/-- `encodeZz` from metaphone3.go. -/
def encodeZz (e : Encoder) : Encoder × Bool :=
  if charNextIs e ('Z') ∧
     (stringAtEnd e 2 ["I", "O", "A"] ∨
      stringAt e (-2) ["MOZZARELL", "PIZZICATO", "PUZZONLAN"]) then
    (bumpIdx (metaphAddStr e ("TS") ("S")) 1, true)
  else (e, false)

/-- `encodeZuZierZs` from metaphone3.go. -/
def encodeZuZierZs (e : Encoder) : Encoder × Bool :=
  if (e.idx = 1 ∧ stringAt e (-1) ["AZUR"]) ∨
     (stringAt e 0 ["ZIER"] ∧ ¬ stringAt e (-2) ["VIZIER"]) ∨
     stringAt e 0 ["ZSA"] then
    let e := metaphAddAlt e ('J') ('S')
    if stringAt e 0 ["ZSA"] then (bumpIdx e 1, true) else (e, true)
  else (e, false)

/-- `encodeFrenchEz` from metaphone3.go. -/
def encodeFrenchEz (e : Encoder) : Bool :=
  (e.idx = 3 ∧ stringAt e (-3) ["CHEZ"]) ∨ stringAt e (-5) ["RENDEZ"]

/-- `encodeGermanZ` from metaphone3.go. -/
def encodeGermanZ (e : Encoder) : Encoder × Bool :=
  if stringExact e ["NAZI"] ∨
     stringAt e (-2) ["NAZIFY", "MOZART"] ∨
     stringAt e (-3) ["HOLZ", "HERZ", "MERZ", "FITZ", "HERZOG"] ∨
     (stringAt e (-3) ["GANZ"] ∧ ¬ isVowelAt e 1) ∨
     stringAt e (-4) ["STOLZ", "PRINZ", "VENEZIA"] ∨
     (stringContains e ("SCH") ∧ ¬ stringEnd e ["IZE", "OZE", "ZEL"]) ∨
     (0 < e.idx ∧ stringAt e 0 ["ZEIT"]) ∨
     stringAt e (-3) ["WEIZ"] then
    if 0 < e.idx ∧ charAt e (-1) ('T') then (metaphAdd e ('S'), true)
    else (metaphAddStr e ("TS") ("TS"), true)
  else (e, false)

/-- `encodeZh` from metaphone3.go. -/
def encodeZh (e : Encoder) : Encoder × Bool :=
  if charNextIs e ('H') then (bumpIdx (metaphAdd e ('J')) 1, true)
  else (e, false)

/-- `encodeZ` from metaphone3.go. -/
def encodeZ (e : Encoder) : Encoder :=
  chain (encodeZz e) fun e =>
  chain (encodeZuZierZs e) fun e =>
  chain ((e, encodeFrenchEz e)) fun e =>
  chain (encodeGermanZ e) fun e =>
  chain (encodeZh e) fun e =>
    let e := metaphAdd e ('S')
    if charNextIs e ('Z') then bumpIdx e 1 else e

/-! ### Vowel rules -/

/-- `encodeSkipSilentUe` from metaphone3.go. -/
def encodeSkipSilentUe (e : Encoder) : Encoder × Bool :=
  if (stringAt e (-1) ["QUE", "GUE"] ∧
      ¬ stringStart e ["RISQUE", "PIROGUE", "ENRIQUE", "BARBEQUE", "PALENQUE", "APPLIQUE",
                       "COMMUNIQUE"] ∧
      ¬ stringAt e (-3) ["ARGUE", "SEGUE"]) ∧
     1 < e.idx ∧
     (e.idx + 1 = e.lastIdx ∨ stringStart e ["JACQUES"]) then
    (setIdx e (skipVowels e e.idx), true)
  else (e, false)

/-- `encodeOSilent` from metaphone3.go. -/
def encodeOSilent (e : Encoder) : Bool :=
  charAt e 0 ('O') ∧ stringAt e (-2) ["IRON"] ∧
  (stringStart e ["IRON"] ∨ stringAtEnd e (-2) ["IRON"]) ∧ ¬ stringAt e (-2) ["IRONIC"]

/-- `encodeEPronouncedAtEnd` from metaphone3.go. -/
def encodeEPronouncedAtEnd (e : Encoder) : Bool :=
  e.idx = e.lastIdx ∧
  (stringAt e (-6) ["STROPHE"] ∨
   e.input.length = 2 ∨
   (e.input.length = 3 ∧ ¬ isVowelAt e (-e.idx)) ∨
   (stringAtEnd e (-2) ["BKE", "DKE", "FKE", "KKE", "LKE", "NKE", "MKE", "PKE", "TKE",
                        "VKE", "ZKE"] ∧
    ¬ stringStart e ["FINKE", "FUNKE", "FRANKE"]) ∨
   stringAtEnd e (-4) ["SCHKE"] ∨
   stringExact e ["ACME", "NIKE", "CAFE", "RENE", "LUPE", "JOSE", "ESME",
                  "LETHE", "CADRE", "TILDE", "SIGNE", "POSSE", "LATTE", "ANIME", "DOLCE",
                  "CROCE", "ADOBE", "OUTRE", "JESSE", "JAIME", "JAFFE", "BENGE", "RUNGE",
                  "CHILE", "DESME", "CONDE", "URIBE", "LIBRE", "ANDRE",
                  "HECATE", "PSYCHE", "DAPHNE", "PENSKE", "CLICHE", "RECIPE",
                  "TAMALE", "SESAME", "SIMILE", "FINALE", "KARATE", "RENATE", "SHANTE",
                  "OBERLE", "COYOTE", "KRESGE", "STONGE", "STANGE", "SWAYZE", "FUENTE",
                  "SALOME", "URRIBE",
                  "ECHIDNE", "ARIADNE", "MEINEKE", "PORSCHE", "ANEMONE", "EPITOME",
                  "SYNCOPE", "SOUFFLE", "ATTACHE", "MACHETE", "KARAOKE", "BUKKAKE",
                  "VICENTE", "ELLERBE", "VERSACE",
                  "PENELOPE", "CALLIOPE", "CHIPOTLE", "ANTIGONE", "KAMIKAZE", "EURIDICE",
                  "YOSEMITE", "FERRANTE",
                  "HYPERBOLE", "GUACAMOLE", "XANTHIPPE",
                  "SYNECDOCHE"])

/-- `encodeESilent` from metaphone3.go. -/
def encodeESilent (e : Encoder) : Bool :=
  if encodeEPronouncedAtEnd e then false
  else
    e.idx = e.lastIdx ∨
    (1 < e.idx ∧ e.idx + 1 = e.lastIdx ∧ stringAt e 1 ["S", "D"] ∧
     ¬(stringAt e (-1) ["TED", "SES", "CES"] ∨
       stringStart e ["ABED", "IMED", "JARED", "AHMED", "HAMED", "JAVED",
                      "NORRED", "MEDVED", "MERCED", "ALLRED", "KHALED", "RASHED",
                      "MASJED", "MOHAMED", "MOHAMMED", "MUHAMMED", "MOUHAMED",
                      "ANTIPODES", "ANOPHELES"])) ∨
    stringAtEnd e 1 ["NESS", "LESS"] ∨
    (stringAtEnd e 1 ["LY"] ∧ ¬ stringStart e ["CICELY"])

/-- `encodeESuffix` from metaphone3.go. -/
def encodeESuffix (e : Encoder) (at0 : Int) : Bool :=
  if e.idx = at0 - 1 ∧ at0 + 1 < (e.input.length : Int) ∧
     (isVowelAt e (-e.idx + at0 + 1) ∨
      (stringAt e (-e.idx + at0) ["ST", "SL"] ∧ at0 + 2 < (e.input.length : Int))) then
    if stringAtEnd e (-e.idx + at0)
         ["T", "R", "TA", "TT", "NA", "NO", "NE", "RS", "RE", "LA", "AU", "RO", "RA",
          "TTE", "LIA", "NOW", "ROS", "RAS", "WOOD", "WATER", "WORTH"] then
      false
    else true
  else false

/-- `encodeSilentInternalE` from metaphone3.go. -/
def encodeSilentInternalE (e : Encoder) : Bool :=
  (stringStart e ["OLE"] ∧ encodeESuffix e 3) ∨
  (stringStart e ["BARE", "FIRE", "FORE", "GATE", "HAGE", "HAVE",
                  "HAZE", "HOLE", "CAPE", "HUSE", "LACE", "LINE",
                  "LIVE", "LOVE", "MORE", "MOSE", "MORE", "NICE",
                  "RAKE", "ROBE", "ROSE", "SISE", "SIZE", "WARE",
                  "WAKE", "WISE", "WINE"] ∧ encodeESuffix e 4) ∨
  (stringStart e ["BLAKE", "BRAKE", "BRINE", "CARLE", "CLEVE", "DUNNE",
                  "HEDGE", "HOUSE", "JEFFE", "LUNCE", "STOKE", "STONE",
                  "THORE", "WEDGE", "WHITE"] ∧ encodeESuffix e 5) ∨
  (stringStart e ["BRIDGE", "CHEESE"] ∧ encodeESuffix e 6) ∨
  stringAt e (-5) ["CHARLES"]

/-- `encodeEPronouncedExceptions` from metaphone3.go. -/
def encodeEPronouncedExceptions (e : Encoder) : Bool :=
  (e.idx + 1 = e.lastIdx ∧
   (stringAtEnd e (-3) ["OCLES", "ACLES", "AKLES"] ∨
    stringStart e ["INES",
      "LOPES", "ESTES", "GOMES", "NUNES", "ALVES", "ICKES",
      "INNES", "PERES", "WAGES", "NEVES", "BENES", "DONES",
      "CORTES", "CHAVES", "VALDES", "ROBLES", "TORRES", "FLORES", "BORGES",
      "NIEVES", "MONTES", "SOARES", "VALLES", "GEDDES", "ANDRES", "VIAJES",
      "CALLES", "FONTES", "HERMES", "ACEVES", "BATRES", "MATHES",
      "DELORES", "MORALES", "DOLORES", "ANGELES", "ROSALES", "MIRELES", "LINARES",
      "PERALES", "PAREDES", "BRIONES", "SANCHES", "CAZARES", "REVELES", "ESTEVES",
      "ALVARES", "MATTHES", "SOLARES", "CASARES", "CACERES", "STURGES", "RAMIRES",
      "FUNCHES", "BENITES", "FUENTES", "PUENTES", "TABARES", "HENTGES", "VALORES",
      "GONZALES", "MERCEDES", "FAGUNDES", "JOHANNES", "GONSALES", "BERMUDES",
      "CESPEDES", "BETANCES", "TERRONES", "DIOGENES", "CORRALES", "CABRALES",
      "MARTINES", "GRAJALES",
      "CERVANTES", "FERNANDES", "GONCALVES", "BENEVIDES", "CIFUENTES", "SIFUENTES",
      "SERVANTES", "HERNANDES", "BENAVIDES",
      "ARCHIMEDES", "CARRIZALES", "MAGALLANES"])) ∨
  stringAt e (-2) ["FRED", "DGES", "DRED", "GNES"] ∨
  stringAt e (-5) ["PROBLEM", "RESPLEN"] ∨
  stringAt e (-4) ["REPLEN"] ∨
  stringAt e (-3) ["SPLE"]

/-- `encodeEPronounced` from metaphone3.go. -/
def encodeEPronounced (e : Encoder) : Encoder :=
  if stringExact e ["LAME", "SAKE", "PATE", "AGAPE"] ∨
     (stringStart e ["RESUME"] ∧ e.idx = 5) then
    metaphAddAlt e replacementChar ('A')
  else if stringExact e ["INGE"] then
    metaphAddAlt e ('A') replacementChar
  else if e.idx = 5 ∧ stringStart e ["BLESSED", "LEARNED"] then
    bumpIdx (metaphAddExactApproxAlt e ("D") ("AD") ("T") ("AT")) 1
  else
    let e :=
      if (¬ encodeESilent e ∧ ¬ e.flagAlInversion ∧ ¬ encodeSilentInternalE e) ∨
         encodeEPronouncedExceptions e then
        metaphAdd e ('A')
      else e
    { e with flagAlInversion := false }

/-- The trailing vowel-run skip of `encodeVowels`. -/
def encodeVowelsTail (e : Encoder) : Encoder :=
  if ¬(¬ isVowelAt e (-2) ∧ stringAt e (-1) ["LEWA", "LEWO", "LEWI"]) then
    setIdx e (skipVowels e (e.idx + 1))
  else e

/-- `encodeVowels` from metaphone3.go. -/
def encodeVowels (e : Encoder) : Encoder :=
  if e.idx = 0 then
    encodeVowelsTail (metaphAdd e ('A'))
  else if e.EncodeVowels then
    if ¬ charAt e 0 ('E') then
      chain (encodeSkipSilentUe e) fun e =>
      chain ((e, encodeOSilent e)) fun e =>
      encodeVowelsTail (metaphAdd e ('A'))
    else
      encodeVowelsTail (encodeEPronounced e)
  else
    encodeVowelsTail e

/-! ### Control loop and public interface -/

/-- The per-rune rule dispatch (the `switch` in `Encode`). -/
def dispatch (e : Encoder) : Encoder :=
  let c := getCharD e.input e.idx
  if c = ('B') then encodeB e
  else if c = ('ß') ∨ c = ('Ç') then metaphAdd e ('S')
  else if c = ('C') then encodeC e
  else if c = ('D') then encodeD e
  else if c = ('F') then encodeF e
  else if c = ('G') then encodeG e
  else if c = ('H') then encodeH e
  else if c = ('J') then encodeJ e
  else if c = ('K') then encodeK e
  else if c = ('L') then encodeL e
  else if c = ('M') then encodeM e
  else if c = ('N') then encodeN e
  else if c = ('Ñ') then metaphAdd e ('N')
  else if c = ('P') then encodeP e
  else if c = ('Q') then encodeQ e
  else if c = ('R') then encodeR e
  else if c = ('S') then encodeS e
  else if c = ('T') then encodeT e
  else if c = ('Ð') ∨ c = ('Þ') then metaphAdd e ('0')
  else if c = ('V') then encodeV e
  else if c = ('W') then encodeW e
  else if c = ('X') then encodeX e
  else if c = ('\uC28A') then metaphAdd e ('X')
  else if c = ('\uC28E') then metaphAdd e ('S')
  else if c = ('Z') then encodeZ e
  else if isVowel c then encodeVowels e
  else e

/-- The cursor loop of `Encode`: while the cursor is inside the input and at
least one buffer is under `MaxLength`, dispatch on the current rune and then
advance by one.  The fuel is instantiated with the input length, which is
enough because the cursor strictly increases per iteration (proved below). -/
def encodeLoop : Nat → Encoder → Encoder
  | 0, e => e
  | fuel + 1, e =>
    if e.idx < (e.input.length : Int) then
      if e.MaxLength ≤ (e.primBuf.length : Int) ∧ e.MaxLength ≤ (e.secondBuf.length : Int) then
        e
      else encodeLoop fuel (bumpIdx (dispatch e) 1)
    else e

/-- `DefaultMaxLength` from metaphone3.go. -/
def DefaultMaxLength : Int := 8

/-- The `MaxLength` resolution at the top of `Encode`
(`if e.MaxLength <= 0 { e.MaxLength = DefaultMaxLength }`). -/
def resolveMaxLength (m : Int) : Int :=
  if m ≤ 0 then DefaultMaxLength else m

/-- `primeBuf` from metaphone3.go: reset a reused buffer to length zero
(capacity is not observable at the value level, so the result is always the
empty buffer). -/
def primeBuf (buf : List Char) (ensureCap : Int) : List Char :=
  let _ := buf
  let _ := ensureCap
  []

/-- The scan state set up at the top of an `Encode` call: resolved
`MaxLength`, upper-cased input, primed buffers, cleared flag. -/
def Encoder.initState (enc : Encoder) (s : String) : Encoder :=
  let ml := resolveMaxLength enc.MaxLength
  let input := s.data.map goToUpper
  { enc with
    MaxLength := ml
    flagAlInversion := false
    input := input
    lastIdx := (input.length : Int) - 1
    primBuf := primeBuf enc.primBuf ml
    secondBuf := primeBuf enc.secondBuf ml
    idx := 0 }

/-- The scan state at the end of the cursor loop (buffers not yet
truncated). -/
def Encoder.scanState (enc : Encoder) (s : String) : Encoder :=
  let e0 := enc.initState s
  encodeLoop e0.input.length e0

/-- The final truncation of a buffer to `MaxLength`. -/
def truncateBuf (buf : List Char) (maxLength : Int) : List Char :=
  if maxLength < (buf.length : Int) then buf.take maxLength.toNat else buf

/-- `Encode` from metaphone3.go: returns the primary and secondary metaphones
together with the encoder value as it stands after the call (Go mutates the
receiver). -/
def Encoder.Encode (enc : Encoder) (s : String) : String × String × Encoder :=
  if s = ("") then (("", "", enc))
  else
    let e1 := enc.scanState s
    let prim := truncateBuf e1.primBuf e1.MaxLength
    let sec := truncateBuf e1.secondBuf e1.MaxLength
    let encA := { e1 with primBuf := prim, secondBuf := sec }
    if areEqual prim sec then (String.mk prim, "", encA)
    else (String.mk prim, String.mk sec, encA)

/-- Sequential reuse of one encoder value across many words (used to state
the determinism claim). -/
def encodeAll (enc : Encoder) (ws : List String) : Encoder :=
  ws.foldl (fun a w => (a.Encode w).2.2) enc

/-- No two consecutive vowel markers in a buffer (the invariant of the
de-duplication claim). -/
def noAA : List Char → Bool
  | a :: b :: rest => !(a = ('A') ∧ b = ('A')) && noAA (b :: rest)
  | _ => true

/-! ### Cursor monotonicity: the `Step` relation and per-rule lemmas -/

/-- Effect of one rule call on the scan state: input, configuration and
`lastIdx` are unchanged, and the cursor does not move backward. -/
def Step (e r : Encoder) : Prop :=
  r.input = e.input ∧ r.EncodeVowels = e.EncodeVowels ∧ r.EncodeExact = e.EncodeExact ∧
  r.MaxLength = e.MaxLength ∧ r.lastIdx = e.lastIdx ∧ e.idx ≤ r.idx

/-- The cursor is inside the input (holds whenever the control loop
dispatches a rule). -/
def GoodIdx (e : Encoder) : Prop :=
  0 ≤ e.idx ∧ e.idx < (e.input.length : Int)

/-- A rule call satisfies its contract: the state evolves by a `Step`, and a
rule that reports the rune as unhandled leaves the state untouched. -/
abbrev RuleSpec (e : Encoder) (r : Encoder × Bool) : Prop :=
  Step e r.1 ∧ (r.2 = false → r.1 = e)

/-- An encoder in the default configuration. -/
def defaultEncoder : Encoder := {}

/-- An encoder with vowel encoding switched on. -/
def vowelsEncoder : Encoder := { EncodeVowels := true }

/-- An encoder configured with `MaxLength = 0` (the value Go's `Encode`
overwrites with the default). -/
def zeroMaxEncoder : Encoder := { MaxLength := 0 }

/-- An encoder with a small positive `MaxLength` and exact encoding on. -/
def smallEncoder : Encoder := { MaxLength := 4, EncodeExact := true }

/-- A mid-scan state over the word "QUE", cursor on the `U`. -/
def queEncoder : Encoder :=
  { input := [('Q'), ('U'), ('E')], idx := 1, lastIdx := 2 }


theorem step_refl (e : Encoder) : Step e e :=
  ⟨rfl, rfl, rfl, rfl, rfl, le_refl _⟩

theorem step_trans {a b c : Encoder} (h1 : Step a b) (h2 : Step b c) : Step a c := by
  obtain ⟨i1, v1, x1, m1, l1, d1⟩ := h1
  obtain ⟨i2, v2, x2, m2, l2, d2⟩ := h2
  exact ⟨i2.trans i1, v2.trans v1, x2.trans x1, m2.trans m1, l2.trans l1, d1.trans d2⟩

theorem goodIdx_of_step_eq {e r : Encoder} (h : Step e r) (hidx : r.idx = e.idx)
    (hg : GoodIdx e) : GoodIdx r := by
  obtain ⟨hi, -, -, -, -, -⟩ := h
  exact ⟨hidx ▸ hg.1, by rw [hidx, hi]; exact hg.2⟩

@[simp] theorem metaphAddAlt_idx (e : Encoder) (p s : Char) :
    (metaphAddAlt e p s).idx = e.idx := by
  unfold metaphAddAlt; dsimp only; split_ifs <;> rfl

@[simp] theorem metaphAddAlt_input (e : Encoder) (p s : Char) :
    (metaphAddAlt e p s).input = e.input := by
  unfold metaphAddAlt; dsimp only; split_ifs <;> rfl

@[simp] theorem metaphAdd_idx (e : Encoder) (c : Char) : (metaphAdd e c).idx = e.idx := by
  unfold metaphAdd; simp

@[simp] theorem metaphAdd_input (e : Encoder) (c : Char) :
    (metaphAdd e c).input = e.input := by
  unfold metaphAdd; simp

@[simp] theorem metaphAddStr_idx (e : Encoder) (p s : String) :
    (metaphAddStr e p s).idx = e.idx := by
  unfold metaphAddStr; dsimp only; split_ifs <;> rfl

@[simp] theorem metaphAddStr_input (e : Encoder) (p s : String) :
    (metaphAddStr e p s).input = e.input := by
  unfold metaphAddStr; dsimp only; split_ifs <;> rfl

@[simp] theorem metaphAddExactApprox_idx (e : Encoder) (a b : String) :
    (metaphAddExactApprox e a b).idx = e.idx := by
  unfold metaphAddExactApprox; split_ifs <;> simp

@[simp] theorem metaphAddExactApprox_input (e : Encoder) (a b : String) :
    (metaphAddExactApprox e a b).input = e.input := by
  unfold metaphAddExactApprox; split_ifs <;> simp

@[simp] theorem metaphAddExactApproxAlt_idx (e : Encoder) (a b c d : String) :
    (metaphAddExactApproxAlt e a b c d).idx = e.idx := by
  unfold metaphAddExactApproxAlt; split_ifs <;> simp

@[simp] theorem metaphAddExactApproxAlt_input (e : Encoder) (a b c d : String) :
    (metaphAddExactApproxAlt e a b c d).input = e.input := by
  unfold metaphAddExactApproxAlt; split_ifs <;> simp

@[simp] theorem bumpIdx_idx (e : Encoder) (k : Nat) : (bumpIdx e k).idx = e.idx + k := rfl

@[simp] theorem bumpIdx_input (e : Encoder) (k : Nat) : (bumpIdx e k).input = e.input := rfl

@[simp] theorem setIdx_idx (e : Encoder) (i : Int) : (setIdx e i).idx = i := rfl

@[simp] theorem setIdx_input (e : Encoder) (i : Int) : (setIdx e i).input = e.input := rfl

theorem step_metaphAddAlt (e : Encoder) (p s : Char) : Step e (metaphAddAlt e p s) := by
  unfold Step metaphAddAlt; dsimp only; split_ifs <;> simp

theorem step_metaphAdd (e : Encoder) (c : Char) : Step e (metaphAdd e c) := by
  unfold metaphAdd; exact step_metaphAddAlt e c c

theorem step_metaphAddStr (e : Encoder) (p s : String) : Step e (metaphAddStr e p s) := by
  unfold Step metaphAddStr; dsimp only; split_ifs <;> simp

theorem step_metaphAddExactApprox (e : Encoder) (a b : String) :
    Step e (metaphAddExactApprox e a b) := by
  unfold metaphAddExactApprox; split_ifs <;> exact step_metaphAddStr _ _ _

theorem step_metaphAddExactApproxAlt (e : Encoder) (a b c d : String) :
    Step e (metaphAddExactApproxAlt e a b c d) := by
  unfold metaphAddExactApproxAlt; split_ifs <;> exact step_metaphAddStr _ _ _

theorem step_bumpIdx (e : Encoder) (k : Nat) : Step e (bumpIdx e k) := by
  refine ⟨rfl, rfl, rfl, rfl, rfl, ?_⟩
  show e.idx ≤ e.idx + (k : Int)
  omega

theorem step_setIdx {e : Encoder} {i : Int} (h : e.idx ≤ i) : Step e (setIdx e i) :=
  ⟨rfl, rfl, rfl, rfl, rfl, h⟩

theorem step_setFlag (e : Encoder) (b : Bool) : Step e { e with flagAlInversion := b } :=
  ⟨rfl, rfl, rfl, rfl, rfl, le_refl _⟩

theorem step_advanceCounter (e : Encoder) (n v : Nat) : Step e (advanceCounter e n v) := by
  unfold advanceCounter; split_ifs <;> exact step_bumpIdx _ _

theorem step_add_bump (e : Encoder) (c : Char) (k : Nat) :
    Step e (bumpIdx (metaphAdd e c) k) :=
  step_trans (step_metaphAdd e c) (step_bumpIdx _ k)

theorem step_addAlt_bump (e : Encoder) (p s : Char) (k : Nat) :
    Step e (bumpIdx (metaphAddAlt e p s) k) :=
  step_trans (step_metaphAddAlt e p s) (step_bumpIdx _ k)

theorem step_addStr_bump (e : Encoder) (p s : String) (k : Nat) :
    Step e (bumpIdx (metaphAddStr e p s) k) :=
  step_trans (step_metaphAddStr e p s) (step_bumpIdx _ k)

theorem step_add_adv (e : Encoder) (c : Char) (n v : Nat) :
    Step e (advanceCounter (metaphAdd e c) n v) :=
  step_trans (step_metaphAdd e c) (step_advanceCounter _ n v)

theorem step_addAlt_adv (e : Encoder) (p s : Char) (n v : Nat) :
    Step e (advanceCounter (metaphAddAlt e p s) n v) :=
  step_trans (step_metaphAddAlt e p s) (step_advanceCounter _ n v)

theorem step_addStr_adv (e : Encoder) (p s : String) (n v : Nat) :
    Step e (advanceCounter (metaphAddStr e p s) n v) :=
  step_trans (step_metaphAddStr e p s) (step_advanceCounter _ n v)

theorem step_addEA_bump (e : Encoder) (a b : String) (k : Nat) :
    Step e (bumpIdx (metaphAddExactApprox e a b) k) :=
  step_trans (step_metaphAddExactApprox e a b) (step_bumpIdx _ k)

theorem step_addEAA_bump (e : Encoder) (a b c d : String) (k : Nat) :
    Step e (bumpIdx (metaphAddExactApproxAlt e a b c d) k) :=
  step_trans (step_metaphAddExactApproxAlt e a b c d) (step_bumpIdx _ k)

theorem step_addEAA_adv (e : Encoder) (a b c d : String) (n v : Nat) :
    Step e (advanceCounter (metaphAddExactApproxAlt e a b c d) n v) :=
  step_trans (step_metaphAddExactApproxAlt e a b c d) (step_advanceCounter _ n v)

/-- The vowel-run loop never decreases the offset it is given. -/
theorem skipVowelsLoop_ge (e : Encoder) :
    ∀ (fuel : Nat) (off : Int), off ≤ skipVowelsLoop e fuel off := by
  intro fuel
  induction fuel with
  | zero => intro off; simp [skipVowelsLoop]
  | succ n ih =>
    intro off
    unfold skipVowelsLoop
    dsimp only
    split_ifs
    all_goals first
      | omega
      | (have h := ih (off + 1); omega)
      | (have h := ih (off + 1 + 1); omega)


theorem ruleSpec_pure (e : Encoder) (b : Bool) : RuleSpec e ((e, b)) :=
  ⟨step_refl e, fun _ => rfl⟩

theorem ruleSpec_chainB {e : Encoder} {r : Encoder × Bool} {f : Encoder → Encoder × Bool}
    (h1 : RuleSpec e r) (h2 : RuleSpec e (f e)) : RuleSpec e (chainB r f) := by
  unfold chainB
  split_ifs with hb
  · exact ⟨h1.1, by simp⟩
  · have hr : r.1 = e := h1.2 (by revert hb; cases r.2 <;> simp)
    rw [hr]
    exact h2

theorem step_chain_fid {e : Encoder} {r : Encoder × Bool} {f : Encoder → Encoder}
    (h1 : RuleSpec e r) (h2 : Step e (f e)) : Step e (chain r f) := by
  unfold chain
  split_ifs with hb
  · exact h1.1
  · rw [h1.2 (by revert hb; cases r.2 <;> simp)]
    exact h2

theorem step_chain_gen {e : Encoder} {r : Encoder × Bool} {f : Encoder → Encoder}
    (h1 : Step e r.1) (h2 : Step r.1 (f r.1)) : Step e (chain r f) := by
  unfold chain
  split_ifs
  · exact h1
  · exact step_trans h1 h2

/-- `skipVowels` never moves the cursor backward when called on an argument
past the cursor (all call sites use `idx + 1` or `idx + 2`). -/
theorem skipVowels_ge {e : Encoder} (h0 : 0 ≤ e.idx) (h1 : e.idx < (e.input.length : Int))
    {s : Int} (hs : e.idx < s) : e.idx ≤ skipVowels e s := by
  unfold skipVowels
  split_ifs with c1 c2
  · omega
  · omega
  · unfold skipVowelsFinalOff
    have := skipVowelsLoop_ge e (e.input.length + 1) (s - e.idx)
    omega

theorem ruleSpec_encodeSilentB (e : Encoder) : RuleSpec e (encodeSilentB e) := by
  unfold encodeSilentB
  split_ifs <;> refine ⟨?_, by simp⟩
  · exact step_add_bump e ('T') 1
  · exact step_refl e

theorem ruleSpec_encodeCaToS (e : Encoder) : RuleSpec e (encodeCaToS e) := by
  unfold encodeCaToS
  split_ifs <;> refine ⟨?_, by simp⟩
  · exact step_add_adv e ('S') 1 0
  · exact step_refl e

theorem ruleSpec_encodeCoToS (e : Encoder) : RuleSpec e (encodeCoToS e) := by
  unfold encodeCoToS
  split_ifs <;> refine ⟨?_, by simp⟩
  · exact step_add_adv e ('S') 2 0
  · exact step_refl e

theorem ruleSpec_encodeChae (e : Encoder) : RuleSpec e (encodeChae e) := by
  unfold encodeChae
  try dsimp only
  split_ifs <;> refine ⟨?_, by simp⟩ <;>
    first
      | exact step_refl e
      | exact step_add_adv e ('X') 3 1
      | exact step_add_adv e ('K') 3 1
      | exact step_advanceCounter e 3 1

theorem ruleSpec_encodeChToH (e : Encoder) : RuleSpec e (encodeChToH e) := by
  unfold encodeChToH
  split_ifs <;> refine ⟨?_, by simp⟩
  · exact step_add_adv e ('H') 2 1
  · exact step_refl e

theorem ruleSpec_encodeSilentCh (e : Encoder) : RuleSpec e (encodeSilentCh e) := by
  unfold encodeSilentCh
  split_ifs <;> refine ⟨?_, by simp⟩
  · exact step_bumpIdx e 1
  · exact step_refl e

theorem ruleSpec_encodeArch (e : Encoder) : RuleSpec e (encodeArch e) := by
  unfold encodeArch
  try dsimp only
  split_ifs <;> refine ⟨?_, by simp⟩
  · exact step_addAlt_bump e ('K') ('X') 1
  · exact step_add_bump e ('X') 1
  · exact step_refl e

theorem ruleSpec_encodeChToX (e : Encoder) : RuleSpec e (encodeChToX e) := by
  unfold encodeChToX
  split_ifs <;> refine ⟨?_, by simp⟩
  · exact step_add_bump e ('X') 1
  · exact step_refl e

theorem ruleSpec_encodeEnglishChToK (e : Encoder) : RuleSpec e (encodeEnglishChToK e) := by
  unfold encodeEnglishChToK
  split_ifs <;> refine ⟨?_, by simp⟩
  · exact step_addAlt_bump e ('K') ('X') 1
  · exact step_refl e

theorem ruleSpec_encodeGermanicChToK (e : Encoder) : RuleSpec e (encodeGermanicChToK e) := by
  unfold encodeGermanicChToK
  try dsimp only
  split_ifs <;> refine ⟨?_, by simp⟩
  · exact step_add_bump e ('K') 1
  · exact step_addAlt_bump e ('K') ('X') 1
  · exact step_refl e

theorem ruleSpec_encodeGreekChInitial (e : Encoder) : RuleSpec e (encodeGreekChInitial e) := by
  unfold encodeGreekChInitial
  try dsimp only
  split_ifs <;> refine ⟨?_, by simp⟩
  · exact step_add_bump e ('K') 1
  · exact step_addAlt_bump e ('K') ('X') 1
  · exact step_refl e

theorem ruleSpec_encodeGreekChNonInitial (e : Encoder) :
    RuleSpec e (encodeGreekChNonInitial e) := by
  unfold encodeGreekChNonInitial
  split_ifs <;> refine ⟨?_, by simp⟩
  · exact step_addAlt_bump e ('K') ('X') 1
  · exact step_refl e

theorem ruleSpec_encodeChTail (e : Encoder) : RuleSpec e (encodeChTail e) := by
  unfold encodeChTail
  try dsimp only
  split_ifs <;> refine ⟨?_, by simp⟩
  · exact step_add_bump e ('K') 1
  · exact step_addAlt_bump e ('X') ('K') 1
  · exact step_add_bump e ('X') 1

theorem ruleSpec_encodeCh (e : Encoder) : RuleSpec e (encodeCh e) := by
  unfold encodeCh
  split_ifs
  case neg => exact ⟨step_refl e, fun _ => rfl⟩
  case pos =>
    refine ruleSpec_chainB (ruleSpec_encodeChae e) ?_
    refine ruleSpec_chainB (ruleSpec_encodeChToH e) ?_
    refine ruleSpec_chainB (ruleSpec_encodeSilentCh e) ?_
    refine ruleSpec_chainB (ruleSpec_encodeArch e) ?_
    refine ruleSpec_chainB (ruleSpec_encodeChToX e) ?_
    refine ruleSpec_chainB (ruleSpec_encodeEnglishChToK e) ?_
    refine ruleSpec_chainB (ruleSpec_encodeGermanicChToK e) ?_
    refine ruleSpec_chainB (ruleSpec_encodeGreekChInitial e) ?_
    refine ruleSpec_chainB (ruleSpec_encodeGreekChNonInitial e) ?_
    exact ruleSpec_encodeChTail e

theorem ruleSpec_encodeCcia (e : Encoder) : RuleSpec e (encodeCcia e) := by
  unfold encodeCcia
  split_ifs <;> refine ⟨?_, by simp⟩
  · exact step_addAlt_bump e ('X') ('S') 1
  · exact step_refl e

theorem ruleSpec_encodeCc (e : Encoder) : RuleSpec e (encodeCc e) := by
  unfold encodeCc
  split_ifs <;> refine ⟨?_, by simp⟩
  · exact step_add_adv e ('S') 2 1
  · exact step_add_adv e ('X') 2 1
  · exact step_addStr_adv e ("KS") ("KS") 2 1
  · exact step_add_bump e ('K') 1
  · exact step_refl e

theorem ruleSpec_encodeCkCgCq (e : Encoder) : RuleSpec e (encodeCkCgCq e) := by
  unfold encodeCkCgCq
  try dsimp only
  split_ifs <;> refine ⟨?_, by simp⟩ <;>
    first
      | exact step_trans (step_addStr_bump e ("K") ("SK") 1) (step_bumpIdx _ 1)
      | exact step_addStr_bump e ("K") ("SK") 1
      | exact step_trans (step_add_bump e ('K') 1) (step_bumpIdx _ 1)
      | exact step_add_bump e ('K') 1
      | exact step_refl e

theorem ruleSpec_encodeCe (e : Encoder) : RuleSpec e (encodeCe e) := by
  unfold encodeCe
  split_ifs <;> refine ⟨?_, by simp⟩
  · exact step_metaphAddAlt e ('X') ('S')
  · exact step_refl e

theorem ruleSpec_encodeCi (e : Encoder) : RuleSpec e (encodeCi e) := by
  unfold encodeCi
  split_ifs <;> refine ⟨?_, by simp⟩
  · exact step_metaphAddAlt e ('X') ('S')
  · exact step_metaphAdd e ('J')
  · exact step_metaphAddAlt e ('X') ('S')
  · exact step_metaphAddAlt e ('S') ('X')
  · exact step_refl e

theorem ruleSpec_encodeLatinateSuffixes (e : Encoder) :
    RuleSpec e (encodeLatinateSuffixes e) := by
  unfold encodeLatinateSuffixes
  split_ifs <;> refine ⟨?_, by simp⟩
  · exact step_metaphAddAlt e ('X') ('S')
  · exact step_refl e

theorem ruleSpec_encodeCFrontVowelInner (e : Encoder) :
    RuleSpec e (encodeCFrontVowelInner e) := by
  unfold encodeCFrontVowelInner
  refine ruleSpec_chainB (ruleSpec_pure e _) ?_
  refine ruleSpec_chainB (ruleSpec_encodeCe e) ?_
  refine ruleSpec_chainB (ruleSpec_encodeCi e) ?_
  exact ruleSpec_encodeLatinateSuffixes e

theorem ruleSpec_encodeCFrontVowel (e : Encoder) : RuleSpec e (encodeCFrontVowel e) := by
  unfold encodeCFrontVowel
  try dsimp only
  split_ifs <;> refine ⟨?_, by simp⟩ <;>
    first
      | exact step_refl e
      | exact step_trans (ruleSpec_encodeCFrontVowelInner e).1 (step_advanceCounter _ 1 0)
      | exact step_trans (ruleSpec_encodeCFrontVowelInner e).1
          (step_trans (step_metaphAdd _ ('S')) (step_advanceCounter _ 1 0))

theorem ruleSpec_encodeCz (e : Encoder) : RuleSpec e (encodeCz e) := by
  unfold encodeCz
  try dsimp only
  split_ifs <;> refine ⟨?_, by simp⟩
  · exact step_add_bump e ('S') 1
  · exact step_add_bump e ('X') 1
  · exact step_refl e

theorem ruleSpec_encodeCs (e : Encoder) : RuleSpec e (encodeCs e) := by
  unfold encodeCs
  split_ifs <;> refine ⟨?_, by simp⟩
  · exact step_addStr_bump e ("KS") ("X") 1
  · exact step_add_bump e ('X') 1
  · exact step_refl e

theorem step_encodeCTail (e : Encoder) : Step e (encodeCTail e) := by
  unfold encodeCTail
  try dsimp only
  split_ifs <;>
    first
      | exact step_trans (step_add_bump e ('K') 1) (step_bumpIdx _ 1)
      | exact step_trans (step_metaphAdd e ('K')) (step_trans (step_bumpIdx _ 1) (step_bumpIdx _ 1))
      | exact step_add_bump e ('K') 1
      | exact step_metaphAdd e ('K')
      | exact step_trans (step_bumpIdx e 1) (step_bumpIdx _ 1)
      | exact step_bumpIdx e 1
      | exact step_refl e

theorem step_encodeC (e : Encoder) : Step e (encodeC e) := by
  unfold encodeC
  refine step_chain_fid (ruleSpec_pure e _) ?_
  refine step_chain_fid (ruleSpec_encodeCaToS e) ?_
  refine step_chain_fid (ruleSpec_encodeCoToS e) ?_
  refine step_chain_fid (ruleSpec_encodeCh e) ?_
  refine step_chain_fid (ruleSpec_encodeCcia e) ?_
  refine step_chain_fid (ruleSpec_encodeCc e) ?_
  refine step_chain_fid (ruleSpec_encodeCkCgCq e) ?_
  refine step_chain_fid (ruleSpec_encodeCFrontVowel e) ?_
  refine step_chain_fid (ruleSpec_pure e _) ?_
  refine step_chain_fid (ruleSpec_encodeCz e) ?_
  refine step_chain_fid (ruleSpec_encodeCs e) ?_
  exact step_encodeCTail e

theorem step_encodeB (e : Encoder) : Step e (encodeB e) := by
  unfold encodeB
  refine step_chain_fid (ruleSpec_encodeSilentB e) ?_
  try dsimp only
  split_ifs
  · exact step_addEA_bump e ("B") ("P") 1
  · exact step_metaphAddExactApprox e ("B") ("P")

/-- Convenience: appending to the buffers and then skipping the following
vowel run never moves the cursor backward. -/
theorem step_skipTail {e r : Encoder} (hs : Step e r) (hidx : r.idx = e.idx)
    (hin : r.input = e.input) (hg : GoodIdx e) :
    Step e (setIdx r (skipVowels r (r.idx + 1))) := by
  refine step_trans hs (step_setIdx ?_)
  apply skipVowels_ge
  · rw [hidx]; exact hg.1
  · rw [hidx, hin]; exact hg.2
  · omega

theorem ruleSpec_encodeDg (e : Encoder) : RuleSpec e (encodeDg e) := by
  unfold encodeDg
  try dsimp only
  split_ifs <;> refine ⟨?_, by simp⟩ <;>
    first
      | exact step_refl e
      | exact step_addEA_bump e ("DG") ("TK") 1
      | exact step_add_bump e ('J') 1

theorem ruleSpec_encodeDj (e : Encoder) : RuleSpec e (encodeDj e) := by
  unfold encodeDj
  split_ifs <;> refine ⟨?_, by simp⟩
  · exact step_add_bump e ('J') 1
  · exact step_refl e

theorem ruleSpec_encodeDtDd (e : Encoder) : RuleSpec e (encodeDtDd e) := by
  unfold encodeDtDd
  try dsimp only
  split_ifs <;> refine ⟨?_, by simp⟩ <;>
    first
      | exact step_refl e
      | exact step_addEA_bump e ("D0") ("T0") 2
      | exact step_add_bump e ('T') 1
      | exact step_add_bump e ('D') 1

theorem ruleSpec_encodeDToJ (e : Encoder) : RuleSpec e (encodeDToJ e) := by
  unfold encodeDToJ
  split_ifs <;> refine ⟨?_, by simp⟩
  · exact step_addEAA_adv e ("J") ("D") ("J") ("T") 1 0
  · exact step_refl e

theorem ruleSpec_encodeDous (e : Encoder) : RuleSpec e (encodeDous e) := by
  unfold encodeDous
  split_ifs <;> refine ⟨?_, by simp⟩
  · exact step_addEAA_adv e ("J") ("D") ("J") ("T") 3 0
  · exact step_refl e

theorem step_encodeD (e : Encoder) : Step e (encodeD e) := by
  unfold encodeD
  refine step_chain_fid (ruleSpec_encodeDg e) ?_
  refine step_chain_fid (ruleSpec_encodeDj e) ?_
  refine step_chain_fid (ruleSpec_encodeDtDd e) ?_
  refine step_chain_fid (ruleSpec_encodeDToJ e) ?_
  refine step_chain_fid (ruleSpec_encodeDous e) ?_
  refine step_chain_fid (ruleSpec_pure e _) ?_
  split_ifs <;>
    first
      | exact step_metaphAdd e ('T')
      | exact step_metaphAdd e ('D')

theorem step_encodeF (e : Encoder) : Step e (encodeF e) := by
  unfold encodeF
  try dsimp only
  split_ifs <;>
    first
      | exact step_addStr_bump e ("F") ("FT") 1
      | exact step_trans (step_bumpIdx e 1) (step_metaphAdd _ ('F'))
      | exact step_metaphAdd e ('F')

theorem step_encodeG (e : Encoder) : Step e (encodeG e) := by
  unfold encodeG
  split_ifs
  · exact step_refl e
  · exact step_metaphAddExactApprox e ("G") ("K")

theorem ruleSpec_encodeInitialSilentH (e : Encoder) (hg : GoodIdx e) :
    RuleSpec e (encodeInitialSilentH e) := by
  unfold encodeInitialSilentH
  try dsimp only
  split_ifs <;> refine ⟨?_, by simp⟩ <;>
    first
      | exact step_refl e
      | exact step_skipTail (step_metaphAddStr e ("HA") ("A")) (by simp) (by simp) hg
      | exact step_skipTail (step_metaphAddAlt e ('H') ('A')) (by simp) (by simp) hg
      | exact step_skipTail (step_metaphAdd e ('A')) (by simp) (by simp) hg
      | exact step_skipTail (step_refl e) rfl rfl hg

theorem ruleSpec_encodeInitialHs (e : Encoder) : RuleSpec e (encodeInitialHs e) := by
  unfold encodeInitialHs
  split_ifs <;> refine ⟨?_, by simp⟩
  · exact step_add_bump e ('X') 1
  · exact step_refl e

theorem step_huHwLoop (fuel : Nat) : ∀ e : Encoder, Step e (huHwLoop fuel e) := by
  induction fuel with
  | zero => exact step_refl
  | succ n ih =>
    intro e
    unfold huHwLoop
    split_ifs
    · exact step_trans (step_bumpIdx e 1) (ih _)
    · exact step_refl e

theorem ruleSpec_encodeInitialHuHw (e : Encoder) : RuleSpec e (encodeInitialHuHw e) := by
  unfold encodeInitialHuHw
  try dsimp only
  split_ifs <;> refine ⟨?_, by simp⟩
  · obtain ⟨i2, v2, x2, m2, l2, d2⟩ :=
      step_trans (step_add_bump e ('A') 1)
        (step_huHwLoop ((bumpIdx (metaphAdd e ('A')) 1).input.length + 1)
          (bumpIdx (metaphAdd e ('A')) 1))
    refine ⟨i2, v2, x2, m2, l2, ?_⟩
    have hb : (bumpIdx (metaphAdd e ('A')) 1).idx = e.idx + 1 := by simp
    have d3 := (step_huHwLoop ((bumpIdx (metaphAdd e ('A')) 1).input.length + 1)
      (bumpIdx (metaphAdd e ('A')) 1)).2.2.2.2.2
    simp only [setIdx_idx]
    omega
  · exact step_add_bump e ('A') 2
  · exact step_refl e

theorem ruleSpec_encodeNonInitialSilentH (e : Encoder) (hg : GoodIdx e) :
    RuleSpec e (encodeNonInitialSilentH e) := by
  unfold encodeNonInitialSilentH
  split_ifs <;> refine ⟨?_, by simp⟩ <;>
    first
      | exact step_refl e
      | exact step_bumpIdx e 1
      | exact step_skipTail (step_refl e) rfl rfl hg

theorem ruleSpec_encodeHPronounced (e : Encoder) : RuleSpec e (encodeHPronounced e) := by
  unfold encodeHPronounced
  split_ifs <;> refine ⟨?_, by simp⟩
  · exact step_add_adv e ('H') 1 0
  · exact step_refl e

theorem step_encodeH (e : Encoder) (hg : GoodIdx e) : Step e (encodeH e) := by
  unfold encodeH
  refine step_chain_fid (ruleSpec_encodeInitialSilentH e hg) ?_
  refine step_chain_fid (ruleSpec_encodeInitialHs e) ?_
  refine step_chain_fid (ruleSpec_encodeInitialHuHw e) ?_
  refine step_chain_fid (ruleSpec_encodeNonInitialSilentH e hg) ?_
  exact (ruleSpec_encodeHPronounced e).1

theorem bool_eq_false {b : Bool} (h : ¬ b = true) : b = false := by
  cases b
  · rfl
  · exact absurd rfl h

/-- A successful `charAt` comparison against a genuine letter pins the probed
index inside the input. -/
theorem charAt_true_bounds {e : Encoder} {k : Int} {c : Char} (h : charAt e k c = true)
    (hc : c ≠ ('\x00')) : 0 ≤ e.idx + k ∧ e.idx + k < (e.input.length : Int) := by
  unfold charAt getCharD at h
  dsimp only at h
  by_cases h1 : (e.input.length : Int) ≤ e.idx + k
  · rw [if_pos h1] at h
    cases h
  · rw [if_neg h1] at h
    by_cases h2 : 0 ≤ e.idx + k
    · exact ⟨h2, by omega⟩
    · rw [if_neg h2] at h
      simp only [beq_iff_eq] at h
      exact absurd h.symm hc

theorem ruleSpec_encodeSpanishJ (e : Encoder) : RuleSpec e (encodeSpanishJ e) := by
  unfold encodeSpanishJ
  try dsimp only
  split_ifs <;> refine ⟨?_, by simp⟩ <;>
    first
      | exact step_refl e
      | exact step_add_adv e ('H') 1 0
      | exact step_add_adv e ('A') 1 0
      | exact step_advanceCounter e 1 0
      | exact step_addStr_adv e ("JARJ") ("HARHA") 4 4
      | exact step_addStr_adv e ("JRJ") ("HRH") 4 4
      | exact step_addAlt_adv e ('J') ('H') 1 0

theorem ruleSpec_encodeGermanJ (e : Encoder) : RuleSpec e (encodeGermanJ e) := by
  unfold encodeGermanJ
  split_ifs <;> refine ⟨?_, by simp⟩
  · exact step_add_adv e ('A') 1 0
  · exact step_refl e

theorem ruleSpec_encodeSpanishOjUj (e : Encoder) : RuleSpec e (encodeSpanishOjUj e) := by
  unfold encodeSpanishOjUj
  try dsimp only
  split_ifs <;> refine ⟨?_, by simp⟩ <;>
    first
      | exact step_refl e
      | exact step_addStr_adv e ("HAH") ("HAH") 3 2
      | exact step_addStr_adv e ("HH") ("HH") 3 2

theorem step_encodeJToJ (e : Encoder) (hg : GoodIdx e) : Step e (encodeJToJ e).1 := by
  unfold encodeJToJ
  try dsimp only
  split_ifs <;>
    first
      | exact step_metaphAdd e ('J')
      | exact step_skipTail (step_metaphAddStr e ("JA") ("A")) (by simp) (by simp) hg
      | exact step_skipTail (step_metaphAddAlt e ('J') ('A')) (by simp) (by simp) hg
      | exact step_skipTail (step_metaphAddStr e ("JA") ("JA")) (by simp) (by simp) hg
      | exact step_skipTail (step_metaphAdd e ('J')) (by simp) (by simp) hg

theorem ruleSpec_encodeSpanishJ2 (e : Encoder) : RuleSpec e (encodeSpanishJ2 e) := by
  unfold encodeSpanishJ2
  split_ifs <;> refine ⟨?_, by simp⟩
  · exact step_add_adv e ('H') 1 0
  · exact step_refl e

theorem ruleSpec_encodeJAsVowel (e : Encoder) : RuleSpec e (encodeJAsVowel e) := by
  unfold encodeJAsVowel
  split_ifs <;> refine ⟨?_, by simp⟩ <;>
    first
      | exact step_refl e
      | exact step_metaphAddAlt e ('J') replacementChar

theorem step_encodeJ (e : Encoder) (hg : GoodIdx e) : Step e (encodeJ e) := by
  unfold encodeJ
  refine step_chain_fid (ruleSpec_encodeSpanishJ e) ?_
  refine step_chain_fid (ruleSpec_encodeSpanishOjUj e) ?_
  split_ifs with h0
  · exact step_chain_fid (ruleSpec_encodeGermanJ e) (step_encodeJToJ e hg)
  · refine step_chain_fid (ruleSpec_encodeSpanishJ2 e) ?_
    try dsimp only
    split_ifs <;>
      first
        | exact (ruleSpec_encodeJAsVowel e).1
        | exact step_trans (ruleSpec_encodeJAsVowel e).1 (step_bumpIdx _ 1)
        | exact step_trans (ruleSpec_encodeJAsVowel e).1 (step_metaphAdd _ ('J'))
        | exact step_trans (ruleSpec_encodeJAsVowel e).1
            (step_trans (step_metaphAdd _ ('J')) (step_bumpIdx _ 1))

theorem ruleSpec_encodeSilentK (e : Encoder) : RuleSpec e (encodeSilentK e) := by
  unfold encodeSilentK
  split_ifs <;> refine ⟨?_, by simp⟩ <;>
    first
      | exact step_refl e
      | exact step_bumpIdx e 1

theorem step_encodeK (e : Encoder) : Step e (encodeK e) := by
  unfold encodeK
  refine step_chain_fid (ruleSpec_encodeSilentK e) ?_
  try dsimp only
  split_ifs <;>
    first
      | exact step_add_bump e ('K') 1
      | exact step_metaphAdd e ('K')

@[simp] theorem interpolate_idx (e : Encoder) :
    (interpolateVowelWhenConsLAtEnd e).idx = e.idx := by
  unfold interpolateVowelWhenConsLAtEnd; split_ifs <;> simp

@[simp] theorem interpolate_input (e : Encoder) :
    (interpolateVowelWhenConsLAtEnd e).input = e.input := by
  unfold interpolateVowelWhenConsLAtEnd; split_ifs <;> simp

theorem step_interpolate (e : Encoder) : Step e (interpolateVowelWhenConsLAtEnd e) := by
  unfold interpolateVowelWhenConsLAtEnd
  split_ifs
  · exact step_metaphAdd e ('A')
  · exact step_refl e

theorem ruleSpec_encodeLelyToL (e : Encoder) : RuleSpec e (encodeLelyToL e) := by
  unfold encodeLelyToL
  split_ifs <;> refine ⟨?_, by simp⟩
  · exact step_add_bump e ('L') 2
  · exact step_refl e

theorem ruleSpec_encodeColonel (e : Encoder) : RuleSpec e (encodeColonel e) := by
  unfold encodeColonel
  split_ifs <;> refine ⟨?_, by simp⟩
  · exact step_add_bump e ('R') 1
  · exact step_refl e

theorem ruleSpec_encodeFrenchAult (e : Encoder) : RuleSpec e (encodeFrenchAult e) := by
  unfold encodeFrenchAult
  split_ifs <;> refine ⟨?_, by simp⟩
  · exact step_bumpIdx e 1
  · exact step_refl e

theorem ruleSpec_encodeFrenchOulx (e : Encoder) : RuleSpec e (encodeFrenchOulx e) := by
  unfold encodeFrenchOulx
  split_ifs <;> refine ⟨?_, by simp⟩
  · exact step_bumpIdx e 1
  · exact step_refl e

theorem ruleSpec_encodeSilentLInLm (e : Encoder) : RuleSpec e (encodeSilentLInLm e) := by
  unfold encodeSilentLInLm
  split_ifs <;> refine ⟨?_, by simp⟩ <;>
    first
      | exact step_refl e
      | exact step_metaphAdd e ('L')

theorem ruleSpec_encodeSilentLInOuld (e : Encoder) : RuleSpec e (encodeSilentLInOuld e) := by
  unfold encodeSilentLInOuld
  split_ifs <;> refine ⟨?_, by simp⟩
  · exact step_addEA_bump e ("D") ("T") 1
  · exact step_refl e

theorem ruleSpec_encodeLlAsVowelSpecialCases (e : Encoder) :
    RuleSpec e (encodeLlAsVowelSpecialCases e) := by
  unfold encodeLlAsVowelSpecialCases
  split_ifs <;> refine ⟨?_, by simp⟩
  · exact step_bumpIdx e 1
  · exact step_refl e

theorem ruleSpec_encodeLlAsVowel (e : Encoder) : RuleSpec e (encodeLlAsVowel e) := by
  unfold encodeLlAsVowel
  split_ifs <;> refine ⟨?_, by simp⟩
  · exact step_addAlt_bump e ('L') replacementChar 1
  · exact step_refl e

theorem spec_encodeLlAsVowelCases (e : Encoder) :
    Step e (encodeLlAsVowelCases e).1 ∧
    ((encodeLlAsVowelCases e).2 = false →
      (encodeLlAsVowelCases e).1 = e ∨
      ((encodeLlAsVowelCases e).1 = bumpIdx e 1 ∧ charAt e 1 ('L') = true)) := by
  unfold encodeLlAsVowelCases
  try dsimp only
  split_ifs with h1 h2 h3
  · exact ⟨(ruleSpec_encodeLlAsVowelSpecialCases e).1, by simp⟩
  · rw [(ruleSpec_encodeLlAsVowelSpecialCases e).2 (bool_eq_false h2)] at h3 ⊢
    exact ⟨(ruleSpec_encodeLlAsVowel e).1, by simp⟩
  · rw [(ruleSpec_encodeLlAsVowelSpecialCases e).2 (bool_eq_false h2)] at h3 ⊢
    rw [(ruleSpec_encodeLlAsVowel e).2 (bool_eq_false h3)]
    refine ⟨step_bumpIdx e 1, fun _ => Or.inr ⟨rfl, ?_⟩⟩
    unfold charNextIs at h1
    exact h1
  · exact ⟨step_refl e, fun _ => Or.inl rfl⟩

theorem ruleSpec_encodeVowelLeTransposition (e : Encoder) (idx0 : Int)
    (h2 : e.idx ≤ idx0 + 2) : RuleSpec e (encodeVowelLeTransposition e idx0) := by
  unfold encodeVowelLeTransposition
  try dsimp only
  split_ifs <;> refine ⟨?_, by simp⟩ <;>
    first
      | exact step_refl e
      | exact
          (step_trans
            (step_trans (step_metaphAddStr e ("AL") ("AL")) (step_setFlag _ true))
            (step_setIdx (by simp; omega)))
      | exact step_trans (step_metaphAddStr e ("AL") ("AL")) (step_setFlag _ true)

theorem ruleSpec_encodeVowelPreserveVowelAfterL (e : Encoder) (idx0 : Int) (hg : GoodIdx e) :
    RuleSpec e (encodeVowelPreserveVowelAfterL e idx0) := by
  unfold encodeVowelPreserveVowelAfterL
  try dsimp only
  split_ifs <;> refine ⟨?_, by simp⟩
  · exact step_skipTail (step_metaphAddStr e ("LA") ("LA")) (by simp) (by simp) hg
  · exact step_refl e

theorem step_encodeLeCases (e : Encoder) (idx0 : Int) (hg : GoodIdx e)
    (h2 : e.idx ≤ idx0 + 2) : Step e (encodeLeCases e idx0) := by
  unfold encodeLeCases
  try dsimp only
  split_ifs with hA hB
  · exact (ruleSpec_encodeVowelLeTransposition e idx0 h2).1
  · rw [(ruleSpec_encodeVowelLeTransposition e idx0 h2).2 (bool_eq_false hA)] at hB ⊢
    exact (ruleSpec_encodeVowelPreserveVowelAfterL e idx0 hg).1
  · rw [(ruleSpec_encodeVowelLeTransposition e idx0 h2).2 (bool_eq_false hA)] at hB ⊢
    rw [(ruleSpec_encodeVowelPreserveVowelAfterL e idx0 hg).2 (bool_eq_false hB)]
    exact step_metaphAdd e ('L')

theorem step_encodeL (e : Encoder) (hg : GoodIdx e) : Step e (encodeL e) := by
  unfold encodeL
  try dsimp only
  have hgi : GoodIdx (interpolateVowelWhenConsLAtEnd e) := by
    unfold GoodIdx at hg ⊢
    simp [hg.1, hg.2]
  refine step_trans (step_interpolate e) ?_
  refine step_chain_fid (ruleSpec_encodeLelyToL _) ?_
  refine step_chain_fid (ruleSpec_encodeColonel _) ?_
  refine step_chain_fid (ruleSpec_encodeFrenchAult _) ?_
  refine step_chain_fid (ruleSpec_pure _ _) ?_
  refine step_chain_fid (ruleSpec_encodeFrenchOulx _) ?_
  refine step_chain_fid (ruleSpec_encodeSilentLInLm _) ?_
  refine step_chain_fid (ruleSpec_pure _ _) ?_
  refine step_chain_fid (ruleSpec_encodeSilentLInOuld _) ?_
  set e1 := interpolateVowelWhenConsLAtEnd e with he1
  unfold chain
  split_ifs with h
  · exact (spec_encodeLlAsVowelCases e1).1
  · rcases (spec_encodeLlAsVowelCases e1).2 (bool_eq_false h) with hid | ⟨hbump, hL⟩
    · rw [hid]
      refine step_encodeLeCases e1 e.idx hgi ?_
      simp [he1]
    · rw [hbump]
      refine step_trans (step_bumpIdx e1 1) (step_encodeLeCases _ e.idx ?_ ?_)
      · have hb := charAt_true_bounds hL (by decide)
        unfold GoodIdx
        simp [he1] at hb ⊢
        omega
      · simp [he1]
        try omega

theorem ruleSpec_encodeMrAndMrs (e : Encoder) : RuleSpec e (encodeMrAndMrs e) := by
  unfold encodeMrAndMrs
  split_ifs <;> refine ⟨?_, by simp⟩ <;>
    first
      | exact step_refl e
      | exact step_addStr_bump e ("MASTAR") ("MASTAR") 1
      | exact step_addStr_bump e ("MSTR") ("MSTR") 1
      | exact step_addStr_bump e ("MASAS") ("MASAS") 2
      | exact step_addStr_bump e ("MSS") ("MSS") 2

theorem ruleSpec_encodeMac (e : Encoder) : RuleSpec e (encodeMac e) := by
  unfold encodeMac
  try dsimp only
  split_ifs <;> refine ⟨?_, by simp⟩ <;>
    first
      | exact step_refl e
      | exact step_addStr_bump e ("MAK") ("MAK") 2
      | exact step_addStr_bump e ("MAK") ("MAK") 1
      | exact step_addStr_bump e ("MK") ("MK") 2
      | exact step_addStr_bump e ("MK") ("MK") 1

theorem ruleSpec_encodeMpt (e : Encoder) : RuleSpec e (encodeMpt e) := by
  unfold encodeMpt
  split_ifs <;> refine ⟨?_, by simp⟩
  · exact step_add_bump e ('N') 1
  · exact step_refl e

theorem step_encodeMb (e : Encoder) : Step e (encodeMb e) := by
  unfold encodeMb
  split_ifs <;>
    first
      | exact step_bumpIdx e 1
      | exact step_refl e

theorem step_encodeM (e : Encoder) : Step e (encodeM e) := by
  unfold encodeM
  refine step_chain_fid (ruleSpec_pure e _) ?_
  refine step_chain_fid (ruleSpec_encodeMrAndMrs e) ?_
  refine step_chain_fid (ruleSpec_encodeMac e) ?_
  refine step_chain_fid (ruleSpec_encodeMpt e) ?_
  exact step_trans (step_encodeMb e) (step_metaphAdd _ ('M'))

theorem ruleSpec_encodeNce (e : Encoder) : RuleSpec e (encodeNce e) := by
  unfold encodeNce
  split_ifs <;> refine ⟨?_, by simp⟩
  · exact step_addStr_bump e ("NTS") ("NTS") 1
  · exact step_refl e

theorem step_encodeN (e : Encoder) : Step e (encodeN e) := by
  unfold encodeN
  refine step_chain_fid (ruleSpec_encodeNce e) ?_
  try dsimp only
  split_ifs <;>
    first
      | exact step_trans (step_bumpIdx e 1) (step_metaphAdd _ ('N'))
      | exact step_bumpIdx e 1
      | exact step_metaphAdd e ('N')
      | exact step_refl e

theorem ruleSpec_encodePt (e : Encoder) : RuleSpec e (encodePt e) := by
  unfold encodePt
  split_ifs <;> refine ⟨?_, by simp⟩
  · exact step_add_bump e ('T') 1
  · exact step_refl e

theorem ruleSpec_encodePh (e : Encoder) : RuleSpec e (encodePh e) := by
  unfold encodePh
  split_ifs <;> refine ⟨?_, by simp⟩ <;>
    first
      | exact step_refl e
      | exact step_add_bump e ('0') 3
      | exact step_add_adv e ('P') 2 1
      | exact step_add_bump e ('F') 1

theorem ruleSpec_encodePph (e : Encoder) : RuleSpec e (encodePph e) := by
  unfold encodePph
  split_ifs <;> refine ⟨?_, by simp⟩
  · exact step_add_bump e ('F') 2
  · exact step_refl e

theorem ruleSpec_encodeRps (e : Encoder) : RuleSpec e (encodeRps e) := by
  unfold encodeRps
  split_ifs <;> refine ⟨?_, by simp⟩
  · exact step_bumpIdx e 1
  · exact step_refl e

theorem ruleSpec_encodePneum (e : Encoder) : RuleSpec e (encodePneum e) := by
  unfold encodePneum
  split_ifs <;> refine ⟨?_, by simp⟩
  · exact step_add_bump e ('N') 1
  · exact step_refl e

theorem ruleSpec_encodePsych (e : Encoder) : RuleSpec e (encodePsych e) := by
  unfold encodePsych
  split_ifs <;> refine ⟨?_, by simp⟩ <;>
    first
      | exact step_refl e
      | exact step_addStr_bump e ("SAK") ("SAK") 4
      | exact step_addStr_bump e ("SK") ("SK") 4

theorem ruleSpec_encodePsalm (e : Encoder) : RuleSpec e (encodePsalm e) := by
  unfold encodePsalm
  split_ifs <;> refine ⟨?_, by simp⟩ <;>
    first
      | exact step_refl e
      | exact step_addStr_bump e ("SAM") ("SAM") 4
      | exact step_addStr_bump e ("SM") ("SM") 4

theorem step_encodePb (e : Encoder) : Step e (encodePb e) := by
  unfold encodePb
  split_ifs
  · exact step_bumpIdx e 1
  · exact step_refl e

theorem step_encodeP (e : Encoder) : Step e (encodeP e) := by
  unfold encodeP
  refine step_chain_fid (ruleSpec_pure e _) ?_
  refine step_chain_fid (ruleSpec_encodePt e) ?_
  refine step_chain_fid (ruleSpec_encodePh e) ?_
  refine step_chain_fid (ruleSpec_encodePph e) ?_
  refine step_chain_fid (ruleSpec_encodeRps e) ?_
  refine step_chain_fid (ruleSpec_pure e _) ?_
  refine step_chain_fid (ruleSpec_encodePneum e) ?_
  refine step_chain_fid (ruleSpec_encodePsych e) ?_
  refine step_chain_fid (ruleSpec_encodePsalm e) ?_
  exact step_trans (step_encodePb e) (step_metaphAdd _ ('P'))

theorem step_encodeQ (e : Encoder) : Step e (encodeQ e) := by
  unfold encodeQ
  try dsimp only
  split_ifs <;>
    first
      | exact step_metaphAdd e ('X')
      | exact step_trans (step_bumpIdx e 1) (step_metaphAdd _ ('K'))
      | exact step_metaphAdd e ('K')

theorem ruleSpec_encodeRz (e : Encoder) : RuleSpec e (encodeRz e) := by
  unfold encodeRz
  split_ifs <;> refine ⟨?_, by simp⟩ <;>
    first
      | exact step_refl e
      | exact step_addAlt_bump e ('R') ('X') 1
      | exact step_addStr_bump e ("RS") ("RJ") 3
      | exact step_addStr_bump e ("RS") ("X") 1
      | exact step_addStr_bump e ("RS") ("J") 1

theorem ruleSpec_encodeVowelReTransposition (e : Encoder) :
    RuleSpec e (encodeVowelReTransposition e) := by
  unfold encodeVowelReTransposition
  split_ifs <;> refine ⟨?_, by simp⟩
  · exact step_metaphAddStr e ("AR") ("AR")
  · exact step_refl e

theorem step_encodeR (e : Encoder) : Step e (encodeR e) := by
  unfold encodeR
  refine step_chain_fid (ruleSpec_encodeRz e) ?_
  try dsimp only
  split_ifs <;>
    first
      | exact step_refl e
      | exact step_bumpIdx e 1
      | exact step_trans (ruleSpec_encodeVowelReTransposition e).1 (step_bumpIdx _ 1)
      | exact (ruleSpec_encodeVowelReTransposition e).1
      | exact step_trans (ruleSpec_encodeVowelReTransposition e).1
          (step_trans (step_metaphAdd _ ('R')) (step_bumpIdx _ 1))
      | exact step_trans (ruleSpec_encodeVowelReTransposition e).1 (step_metaphAdd _ ('R'))

theorem ruleSpec_encodeSkj (e : Encoder) : RuleSpec e (encodeSkj e) := by
  unfold encodeSkj
  split_ifs <;> refine ⟨?_, by simp⟩
  · exact step_add_bump e ('X') 2
  · exact step_refl e

theorem ruleSpec_encodeSpecialSw (e : Encoder) : RuleSpec e (encodeSpecialSw e) := by
  unfold encodeSpecialSw
  split_ifs <;> refine ⟨?_, by simp⟩ <;>
    first
      | exact step_refl e
      | exact step_addStr_bump e ("S") ("SV") 1
      | exact step_addStr_bump e ("S") ("XV") 1

theorem ruleSpec_encodeSj (e : Encoder) : RuleSpec e (encodeSj e) := by
  unfold encodeSj
  split_ifs <;> refine ⟨?_, by simp⟩
  · exact step_add_bump e ('X') 1
  · exact step_refl e

theorem ruleSpec_encodeSilentFrenchSFinal (e : Encoder) :
    RuleSpec e (encodeSilentFrenchSFinal e) := by
  unfold encodeSilentFrenchSFinal
  split_ifs <;> refine ⟨?_, by simp⟩ <;>
    first
      | exact step_refl e
      | exact step_metaphAddAlt e ('S') replacementChar

theorem ruleSpec_encodeStl (e : Encoder) : RuleSpec e (encodeStl e) := by
  unfold encodeStl
  try dsimp only
  split_ifs <;> refine ⟨?_, by simp⟩ <;>
    first
      | exact step_refl e
      | exact step_addStr_bump e ("ST") ("ST") 1
      | exact step_trans (step_metaphAddStr e ("SAL") ("SAL"))
          (step_trans (step_setFlag _ true) (step_bumpIdx _ 2))
      | exact step_addStr_bump e ("SL") ("SL") 2

theorem ruleSpec_encodeChristmas (e : Encoder) : RuleSpec e (encodeChristmas e) := by
  unfold encodeChristmas
  split_ifs <;> refine ⟨?_, by simp⟩
  · exact step_addStr_bump e ("SM") ("SM") 2
  · exact step_refl e

theorem ruleSpec_encodeSthm (e : Encoder) : RuleSpec e (encodeSthm e) := by
  unfold encodeSthm
  split_ifs <;> refine ⟨?_, by simp⟩
  · exact step_addStr_bump e ("SM") ("SM") 3
  · exact step_refl e

theorem ruleSpec_encodeIsten (e : Encoder) : RuleSpec e (encodeIsten e) := by
  unfold encodeIsten
  split_ifs <;> refine ⟨?_, by simp⟩ <;>
    first
      | exact step_refl e
      | exact step_addStr_bump e ("S") ("ST") 1
      | exact step_addStr_bump e ("ST") ("ST") 1
      | exact step_add_bump e ('S') 1

theorem ruleSpec_encodeSugar (e : Encoder) : RuleSpec e (encodeSugar e) := by
  unfold encodeSugar
  split_ifs <;> refine ⟨?_, by simp⟩
  · exact step_metaphAdd e ('X')
  · exact step_refl e

theorem ruleSpec_encodeSh (e : Encoder) : RuleSpec e (encodeSh e) := by
  unfold encodeSh
  try dsimp only
  split_ifs <;> refine ⟨?_, by simp⟩ <;>
    first
      | exact step_refl e
      | exact step_add_bump e ('J') 1
      | exact step_add_bump e ('S') 1
      | exact step_bumpIdx e 1
      | exact step_add_bump e ('X') 1

theorem ruleSpec_encodeSch (e : Encoder) : RuleSpec e (encodeSch e) := by
  unfold encodeSch
  split_ifs <;> refine ⟨?_, by simp⟩ <;>
    first
      | exact step_refl e
      | exact step_metaphAdd e ('S')
      | exact step_addStr_bump e ("X") ("SK") 2
      | exact step_addStr_bump e ("SK") ("SK") 2
      | exact step_add_bump e ('X') 2

theorem ruleSpec_encodeSur (e : Encoder) : RuleSpec e (encodeSur e) := by
  unfold encodeSur
  try dsimp only
  split_ifs <;> refine ⟨?_, by simp⟩ <;>
    first
      | exact step_refl e
      | exact step_add_adv e ('X') 1 0
      | exact step_add_adv e ('J') 1 0

theorem ruleSpec_encodeSu (e : Encoder) : RuleSpec e (encodeSu e) := by
  unfold encodeSu
  try dsimp only
  split_ifs <;> refine ⟨?_, by simp⟩ <;>
    first
      | exact step_refl e
      | exact step_add_adv e ('S') 2 0
      | exact step_addAlt_adv e ('J') ('S') 2 0
      | exact step_addAlt_adv e ('X') ('S') 2 0

theorem ruleSpec_encodeSsio (e : Encoder) : RuleSpec e (encodeSsio e) := by
  unfold encodeSsio
  try dsimp only
  split_ifs <;> refine ⟨?_, by simp⟩ <;>
    first
      | exact step_refl e
      | exact step_add_adv e ('J') 3 1
      | exact step_add_adv e ('X') 3 1
      | exact step_advanceCounter e 3 1

theorem ruleSpec_encodeSs (e : Encoder) : RuleSpec e (encodeSs e) := by
  unfold encodeSs
  split_ifs <;> refine ⟨?_, by simp⟩
  · exact step_add_adv e ('X') 2 1
  · exact step_refl e

theorem ruleSpec_encodeSia (e : Encoder) : RuleSpec e (encodeSia e) := by
  unfold encodeSia
  try dsimp only
  split_ifs <;> refine ⟨?_, by simp⟩ <;>
    first
      | exact step_refl e
      | exact step_add_adv e ('X') 2 0
      | exact step_addAlt_adv e ('X') ('S') 2 0
      | exact step_add_adv e ('J') 1 0
      | exact step_add_adv e ('S') 1 0

theorem ruleSpec_encodeSio (e : Encoder) : RuleSpec e (encodeSio e) := by
  unfold encodeSio
  try dsimp only
  split_ifs <;> refine ⟨?_, by simp⟩ <;>
    first
      | exact step_refl e
      | exact step_add_adv e ('X') 2 0
      | exact step_add_adv e ('J') 2 0

theorem ruleSpec_encodeAnglicisations (e : Encoder) :
    RuleSpec e (encodeAnglicisations e) := by
  unfold encodeAnglicisations
  try dsimp only
  split_ifs <;> refine ⟨?_, by simp⟩ <;>
    first
      | exact step_refl e
      | exact step_addAlt_bump e ('S') ('X') 1
      | exact step_metaphAddAlt e ('S') ('X')

theorem ruleSpec_encodeSc (e : Encoder) : RuleSpec e (encodeSc e) := by
  unfold encodeSc
  split_ifs <;> refine ⟨?_, by simp⟩ <;>
    first
      | exact step_refl e
      | exact step_add_bump e ('X') 1
      | exact step_addStr_bump e ("SK") ("SK") 1
      | exact step_add_bump e ('S') 1

theorem ruleSpec_encodeSeiSuiSier (e : Encoder) : RuleSpec e (encodeSeiSuiSier e) := by
  unfold encodeSeiSuiSier
  split_ifs <;> refine ⟨?_, by simp⟩
  · exact step_addAlt_adv e ('J') ('X') 2 0
  · exact step_refl e

theorem ruleSpec_encodeSea (e : Encoder) : RuleSpec e (encodeSea e) := by
  unfold encodeSea
  split_ifs <;> refine ⟨?_, by simp⟩
  · exact step_add_adv e ('X') 2 0
  · exact step_refl e

theorem step_encodeS (e : Encoder) : Step e (encodeS e) := by
  unfold encodeS
  refine step_chain_fid (ruleSpec_encodeSkj e) ?_
  refine step_chain_fid (ruleSpec_encodeSpecialSw e) ?_
  refine step_chain_fid (ruleSpec_encodeSj e) ?_
  refine step_chain_fid (ruleSpec_encodeSilentFrenchSFinal e) ?_
  refine step_chain_fid (ruleSpec_pure e _) ?_
  refine step_chain_fid (ruleSpec_pure e _) ?_
  refine step_chain_fid (ruleSpec_encodeStl e) ?_
  refine step_chain_fid (ruleSpec_encodeChristmas e) ?_
  refine step_chain_fid (ruleSpec_encodeSthm e) ?_
  refine step_chain_fid (ruleSpec_encodeIsten e) ?_
  refine step_chain_fid (ruleSpec_encodeSugar e) ?_
  refine step_chain_fid (ruleSpec_encodeSh e) ?_
  refine step_chain_fid (ruleSpec_encodeSch e) ?_
  refine step_chain_fid (ruleSpec_encodeSur e) ?_
  refine step_chain_fid (ruleSpec_encodeSu e) ?_
  refine step_chain_fid (ruleSpec_encodeSsio e) ?_
  refine step_chain_fid (ruleSpec_encodeSs e) ?_
  refine step_chain_fid (ruleSpec_encodeSia e) ?_
  refine step_chain_fid (ruleSpec_encodeSio e) ?_
  refine step_chain_fid (ruleSpec_encodeAnglicisations e) ?_
  refine step_chain_fid (ruleSpec_encodeSc e) ?_
  refine step_chain_fid (ruleSpec_encodeSeiSuiSier e) ?_
  refine step_chain_fid (ruleSpec_encodeSea e) ?_
  try dsimp only
  split_ifs <;>
    first
      | exact step_add_bump e ('S') 1
      | exact step_metaphAdd e ('S')

theorem ruleSpec_encodeTInitial (e : Encoder) : RuleSpec e (encodeTInitial e) := by
  unfold encodeTInitial
  split_ifs <;> refine ⟨?_, by simp⟩ <;>
    first
      | exact step_refl e
      | exact step_add_adv e ('X') 2 1
      | exact step_addStr_adv e ("TS") ("S") 2 1
      | exact step_add_adv e ('T') 2 1

theorem ruleSpec_encodeTch (e : Encoder) : RuleSpec e (encodeTch e) := by
  unfold encodeTch
  split_ifs <;> refine ⟨?_, by simp⟩
  · exact step_add_bump e ('X') 2
  · exact step_refl e

theorem ruleSpec_encodeTunTulTuaTuo (e : Encoder) : RuleSpec e (encodeTunTulTuaTuo e) := by
  unfold encodeTunTulTuaTuo
  split_ifs <;> refine ⟨?_, by simp⟩
  · exact step_metaphAddAlt e ('X') ('T')
  · exact step_refl e

theorem ruleSpec_encodeTueTeuTeouTulTie (e : Encoder) :
    RuleSpec e (encodeTueTeuTeouTulTie e) := by
  unfold encodeTueTeuTeouTulTie
  split_ifs <;> refine ⟨?_, by simp⟩
  · exact step_addAlt_adv e ('X') ('T') 1 0
  · exact step_refl e

theorem ruleSpec_encodeTurTiuSuffixes (e : Encoder) :
    RuleSpec e (encodeTurTiuSuffixes e) := by
  unfold encodeTurTiuSuffixes
  try dsimp only
  split_ifs <;> refine ⟨?_, by simp⟩ <;>
    first
      | exact step_refl e
      | exact step_add_adv e ('T') 1 0
      | exact step_addAlt_adv e ('X') ('T') 1 0

theorem ruleSpec_encodeTi (e : Encoder) : RuleSpec e (encodeTi e) := by
  unfold encodeTi
  split_ifs <;> refine ⟨?_, by simp⟩ <;>
    first
      | exact step_refl e
      | exact step_add_adv e ('T') 2 0
      | exact step_add_adv e ('J') 2 0
      | exact step_add_adv e ('X') 2 0
      | exact step_addAlt_adv e ('T') ('X') 2 0
      | exact step_addAlt_adv e ('X') ('T') 2 0

theorem ruleSpec_encodeTient (e : Encoder) : RuleSpec e (encodeTient e) := by
  unfold encodeTient
  split_ifs <;> refine ⟨?_, by simp⟩
  · exact step_addAlt_adv e ('X') ('T') 2 0
  · exact step_refl e

theorem ruleSpec_encodeTsch (e : Encoder) : RuleSpec e (encodeTsch e) := by
  unfold encodeTsch
  split_ifs <;> refine ⟨?_, by simp⟩
  · exact step_add_bump e ('X') 3
  · exact step_refl e

theorem ruleSpec_encodeTzsch (e : Encoder) : RuleSpec e (encodeTzsch e) := by
  unfold encodeTzsch
  split_ifs <;> refine ⟨?_, by simp⟩
  · exact step_add_bump e ('X') 4
  · exact step_refl e

theorem ruleSpec_encodeThPronouncedSeparately (e : Encoder) :
    RuleSpec e (encodeThPronouncedSeparately e) := by
  unfold encodeThPronouncedSeparately
  try dsimp only
  split_ifs <;> refine ⟨?_, by simp⟩ <;>
    first
      | exact step_refl e
      | exact step_add_bump e ('X') 1
      | exact step_add_bump e ('T') 1

theorem ruleSpec_encodeTth (e : Encoder) : RuleSpec e (encodeTth e) := by
  unfold encodeTth
  try dsimp only
  split_ifs <;> refine ⟨?_, by simp⟩ <;>
    first
      | exact step_refl e
      | exact step_add_bump e ('0') 2
      | exact step_addStr_bump e ("T0") ("T0") 2

theorem ruleSpec_encodeTh (e : Encoder) : RuleSpec e (encodeTh e) := by
  unfold encodeTh
  try dsimp only
  split_ifs <;> refine ⟨?_, by simp⟩ <;>
    first
      | exact step_refl e
      | exact step_bumpIdx e 2
      | exact step_add_bump e ('T') 1
      | exact step_addAlt_bump e ('0') ('T') 1
      | exact step_add_bump e ('0') 1

theorem step_encodeT (e : Encoder) : Step e (encodeT e) := by
  unfold encodeT
  refine step_chain_fid (ruleSpec_encodeTInitial e) ?_
  refine step_chain_fid (ruleSpec_encodeTch e) ?_
  refine step_chain_fid (ruleSpec_pure e _) ?_
  refine step_chain_fid (ruleSpec_encodeTunTulTuaTuo e) ?_
  refine step_chain_fid (ruleSpec_encodeTueTeuTeouTulTie e) ?_
  refine step_chain_fid (ruleSpec_encodeTurTiuSuffixes e) ?_
  refine step_chain_fid (ruleSpec_encodeTi e) ?_
  refine step_chain_fid (ruleSpec_encodeTient e) ?_
  refine step_chain_fid (ruleSpec_encodeTsch e) ?_
  refine step_chain_fid (ruleSpec_encodeTzsch e) ?_
  refine step_chain_fid (ruleSpec_encodeThPronouncedSeparately e) ?_
  refine step_chain_fid (ruleSpec_encodeTth e) ?_
  refine step_chain_fid (ruleSpec_encodeTh e) ?_
  try dsimp only
  split_ifs <;>
    first
      | exact step_trans (step_bumpIdx e 1) (step_metaphAdd _ ('T'))
      | exact step_metaphAdd e ('T')

theorem step_encodeV (e : Encoder) : Step e (encodeV e) := by
  unfold encodeV
  try dsimp only
  split_ifs <;>
    first
      | exact step_trans (step_bumpIdx e 1) (step_metaphAddExactApprox _ ("V") ("F"))
      | exact step_metaphAddExactApprox e ("V") ("F")

theorem step_skipTailOff {e r : Encoder} (hs : Step e r) (hidx : r.idx = e.idx)
    (hin : r.input = e.input) (hg : GoodIdx e) {k : Int} (hk : 0 < k) :
    Step e (setIdx r (skipVowels r (r.idx + k))) := by
  refine step_trans hs (step_setIdx ?_)
  apply skipVowels_ge
  · rw [hidx]; exact hg.1
  · rw [hidx, hin]; exact hg.2
  · omega

theorem ruleSpec_encodeWitzWicz (e : Encoder) : RuleSpec e (encodeWitzWicz e) := by
  unfold encodeWitzWicz
  try dsimp only
  split_ifs <;> refine ⟨?_, by simp⟩ <;>
    first
      | exact step_refl e
      | exact step_addStr_bump e ("TS") ("FAX") 3
      | exact step_addStr_bump e ("ATS") ("FAX") 3
      | exact step_addStr_bump e ("TS") ("FX") 3

theorem ruleSpec_encodeWr (e : Encoder) : RuleSpec e (encodeWr e) := by
  unfold encodeWr
  split_ifs <;> refine ⟨?_, by simp⟩
  · exact step_add_bump e ('R') 1
  · exact step_refl e

theorem ruleSpec_encodeInitialWVowel (e : Encoder) (hg : GoodIdx e) :
    RuleSpec e (encodeInitialWVowel e) := by
  unfold encodeInitialWVowel
  try dsimp only
  split_ifs <;> refine ⟨?_, by simp⟩ <;>
    first
      | exact step_refl e
      | exact step_skipTail (step_metaphAddExactApproxAlt e ("A") ("VA") ("A") ("FA"))
          (by simp) (by simp) hg
      | exact step_skipTail (step_metaphAddExactApproxAlt e ("A") ("V") ("A") ("F"))
          (by simp) (by simp) hg
      | exact step_skipTail (step_metaphAdd e ('A')) (by simp) (by simp) hg

theorem ruleSpec_encodeWh (e : Encoder) (hg : GoodIdx e) : RuleSpec e (encodeWh e) := by
  unfold encodeWh
  try dsimp only
  split_ifs <;> refine ⟨?_, by simp⟩ <;>
    first
      | exact step_refl e
      | exact step_add_adv e ('H') 2 1
      | exact step_add_bump e ('H') 1
      | exact step_skipTailOff (step_metaphAdd e ('A')) (by simp) (by simp) hg
          (by norm_num)
      | exact step_bumpIdx e 1

theorem ruleSpec_encodeEasternEuropeanW (e : Encoder) :
    RuleSpec e (encodeEasternEuropeanW e) := by
  unfold encodeEasternEuropeanW
  split_ifs <;> refine ⟨?_, by simp⟩
  · exact step_metaphAddExactApproxAlt e ("") ("V") ("") ("F")
  · exact step_refl e

theorem step_encodeW (e : Encoder) (hg : GoodIdx e) : Step e (encodeW e) := by
  unfold encodeW
  refine step_chain_fid (ruleSpec_pure e _) ?_
  refine step_chain_fid (ruleSpec_encodeWitzWicz e) ?_
  refine step_chain_fid (ruleSpec_encodeWr e) ?_
  refine step_chain_fid (ruleSpec_encodeInitialWVowel e hg) ?_
  refine step_chain_fid (ruleSpec_encodeWh e hg) ?_
  refine step_chain_fid (ruleSpec_encodeEasternEuropeanW e) ?_
  split_ifs
  · exact step_metaphAdd e ('A')
  · exact step_refl e

theorem ruleSpec_encodeInitialX (e : Encoder) : RuleSpec e (encodeInitialX e) := by
  unfold encodeInitialX
  split_ifs <;> refine ⟨?_, by simp⟩ <;>
    first
      | exact step_refl e
      | exact step_metaphAdd e ('X')
      | exact step_metaphAdd e ('S')

theorem ruleSpec_encodeGreekX (e : Encoder) : RuleSpec e (encodeGreekX e) := by
  unfold encodeGreekX
  split_ifs <;> refine ⟨?_, by simp⟩
  · exact step_metaphAdd e ('S')
  · exact step_refl e

theorem ruleSpec_encodeXSpecialCases (e : Encoder) :
    RuleSpec e (encodeXSpecialCases e) := by
  unfold encodeXSpecialCases
  split_ifs <;> refine ⟨?_, by simp⟩ <;>
    first
      | exact step_refl e
      | exact step_metaphAddExactApprox e ("GJ") ("KJ")
      | exact step_metaphAdd e ('X')

theorem ruleSpec_encodeXToH (e : Encoder) : RuleSpec e (encodeXToH e) := by
  unfold encodeXToH
  split_ifs <;> refine ⟨?_, by simp⟩
  · exact step_metaphAdd e ('H')
  · exact step_refl e

theorem ruleSpec_encodeXVowel (e : Encoder) : RuleSpec e (encodeXVowel e) := by
  unfold encodeXVowel
  split_ifs <;> refine ⟨?_, by simp⟩
  · exact step_addStr_adv e ("KX") ("KS") 2 0
  · exact step_refl e

theorem step_encodeFrenchXFinal_fst (e : Encoder) : Step e (encodeFrenchXFinal e).1 := by
  unfold encodeFrenchXFinal
  split_ifs
  · exact step_metaphAddStr e ("KS") ("KS")
  · exact step_refl e

theorem step_encodeX (e : Encoder) : Step e (encodeX e) := by
  unfold encodeX
  refine step_chain_fid (ruleSpec_encodeInitialX e) ?_
  refine step_chain_fid (ruleSpec_encodeGreekX e) ?_
  refine step_chain_fid (ruleSpec_encodeXSpecialCases e) ?_
  refine step_chain_fid (ruleSpec_encodeXToH e) ?_
  refine step_chain_fid (ruleSpec_encodeXVowel e) ?_
  refine step_chain_gen (step_encodeFrenchXFinal_fst e) ?_
  split_ifs
  · exact step_bumpIdx _ 1
  · exact step_refl _

theorem ruleSpec_encodeZz (e : Encoder) : RuleSpec e (encodeZz e) := by
  unfold encodeZz
  split_ifs <;> refine ⟨?_, by simp⟩
  · exact step_addStr_bump e ("TS") ("S") 1
  · exact step_refl e

theorem ruleSpec_encodeZuZierZs (e : Encoder) : RuleSpec e (encodeZuZierZs e) := by
  unfold encodeZuZierZs
  try dsimp only
  split_ifs <;> refine ⟨?_, by simp⟩ <;>
    first
      | exact step_refl e
      | exact step_addAlt_bump e ('J') ('S') 1
      | exact step_metaphAddAlt e ('J') ('S')

theorem ruleSpec_encodeGermanZ (e : Encoder) : RuleSpec e (encodeGermanZ e) := by
  unfold encodeGermanZ
  split_ifs <;> refine ⟨?_, by simp⟩ <;>
    first
      | exact step_refl e
      | exact step_metaphAdd e ('S')
      | exact step_metaphAddStr e ("TS") ("TS")

theorem ruleSpec_encodeZh (e : Encoder) : RuleSpec e (encodeZh e) := by
  unfold encodeZh
  split_ifs <;> refine ⟨?_, by simp⟩
  · exact step_add_bump e ('J') 1
  · exact step_refl e

theorem step_encodeZ (e : Encoder) : Step e (encodeZ e) := by
  unfold encodeZ
  refine step_chain_fid (ruleSpec_encodeZz e) ?_
  refine step_chain_fid (ruleSpec_encodeZuZierZs e) ?_
  refine step_chain_fid (ruleSpec_pure e _) ?_
  refine step_chain_fid (ruleSpec_encodeGermanZ e) ?_
  refine step_chain_fid (ruleSpec_encodeZh e) ?_
  try dsimp only
  split_ifs <;>
    first
      | exact step_add_bump e ('S') 1
      | exact step_metaphAdd e ('S')

/-- A successful prefix match pins down every letter it covers. -/
theorem matchFrom_getD : ∀ {v w : List Char}, matchFrom v w = true →
    ∀ (i : Nat), i < v.length → w.getD i ('\x00') = v.getD i ('\x00') := by
  intro v
  induction v with
  | nil => intro w h i hi; simp at hi
  | cons c cs ih =>
    intro w h i hi
    cases w with
    | nil => simp [matchFrom] at h
    | cons d ds =>
      rw [matchFrom, Bool.and_eq_true] at h
      obtain ⟨hcd, hrest⟩ := h
      cases i with
      | zero =>
        have hde : c = d := beq_iff_eq.mp hcd
        simp [hde]
      | succ n =>
        have hn : n < cs.length := by simpa using hi
        simpa using ih hrest n hn

theorem getD_drop : ∀ (l : List Char) (n i : Nat),
    (l.drop n).getD i ('\x00') = l.getD (n + i) ('\x00') := by
  intro l
  induction l with
  | nil => intro n i; simp
  | cons c cs ih =>
    intro n i
    cases n with
    | zero => simp
    | succ m => simpa [Nat.succ_add] using ih m i

theorem stringAtLoop_exists : ∀ {vals : List String} {input : List Char} {start : Nat},
    stringAtLoop input start vals = true →
    ∃ v, v ∈ vals ∧ start + v.length ≤ input.length ∧
      matchFrom v.data (input.drop start) = true := by
  intro vals
  induction vals with
  | nil => intro input start h; simp [stringAtLoop] at h
  | cons v rest ih =>
    intro input start h
    unfold stringAtLoop at h
    split_ifs at h with h1 h2
    · exact ⟨v, by simp, by omega, h2⟩
    · obtain ⟨w, hw, hlen, hm⟩ := ih h
      exact ⟨w, by simp [hw], hlen, hm⟩

theorem stringAtEndLoop_exists : ∀ {vals : List String} {input : List Char} {start : Nat},
    stringAtEndLoop input start vals = true →
    ∃ v, v ∈ vals ∧ start + v.length ≤ input.length ∧
      matchFrom v.data (input.drop start) = true := by
  intro vals
  induction vals with
  | nil => intro input start h; simp [stringAtEndLoop] at h
  | cons v rest ih =>
    intro input start h
    unfold stringAtEndLoop at h
    split_ifs at h with h1 h2 h3
    · obtain ⟨w, hw, hlen, hm⟩ := ih h
      exact ⟨w, by simp [hw], hlen, hm⟩
    · exact ⟨v, by simp, by omega, h3⟩
    · obtain ⟨w, hw, hlen, hm⟩ := ih h
      exact ⟨w, by simp [hw], hlen, hm⟩

/-- The front guard of `stringAt` already forces the probed position inside
the input. -/
theorem stringAt_bounds {e : Encoder} {off : Int} {vals : List String}
    (h : stringAt e off vals = true) :
    0 ≤ e.idx + off ∧ e.idx + off < (e.input.length : Int) := by
  cases vals with
  | nil => simp [stringAt] at h
  | cons v0 rest =>
    unfold stringAt at h
    dsimp only at h
    split_ifs at h with hguard
    push_neg at hguard
    exact ⟨by omega, by omega⟩

/-- The front guard of `stringAt` also bounds the first candidate's span. -/
theorem stringAt_v0_len {e : Encoder} {off : Int} {v0 : String} {rest : List String}
    (h : stringAt e (off) (v0 :: rest) = true) :
    e.idx + off + (v0.length : Int) ≤ (e.input.length : Int) := by
  unfold stringAt at h
  dsimp only at h
  split_ifs at h with hguard
  push_neg at hguard
  omega

/-- A true `stringAt` fixes each letter common to every candidate. -/
theorem stringAt_char {e : Encoder} {off : Int} {vals : List String} (k : Nat) (c : Char)
    (h : stringAt e (off) vals = true)
    (hall : ∀ v ∈ vals, k < v.data.length ∧ v.data.getD k ('\x00') = c)
    {j : Int} (hj : j = e.idx + off + k) :
    getCharD e.input j = c := by
  cases vals with
  | nil => simp [stringAt] at h
  | cons v0 rest =>
    unfold stringAt at h
    dsimp only at h
    split_ifs at h with hguard
    push_neg at hguard
    obtain ⟨w, hw, hlen, hm⟩ := stringAtLoop_exists h
    obtain ⟨hk, hvc⟩ := hall w hw
    have h1 : (e.input.drop (e.idx + off).toNat).getD k ('\x00') = c := by
      rw [matchFrom_getD hm k (by simpa using hk), hvc]
    rw [getD_drop] at h1
    unfold getCharD
    rw [if_pos (by omega)]
    have hjn : j.toNat = (e.idx + off).toNat + k := by omega
    rw [hjn]; exact h1

/-- A true `stringAtEnd` fixes each letter common to every candidate. -/
theorem stringAtEnd_char {e : Encoder} {off : Int} {vals : List String} (k : Nat) (c : Char)
    (h : stringAtEnd e (off) vals = true)
    (hall : ∀ v ∈ vals, k < v.data.length ∧ v.data.getD k ('\x00') = c)
    {j : Int} (hj : j = e.idx + off + k) :
    getCharD e.input j = c := by
  cases vals with
  | nil => simp [stringAtEnd] at h
  | cons v0 rest =>
    unfold stringAtEnd at h
    dsimp only at h
    split_ifs at h with hguard
    push_neg at hguard
    obtain ⟨w, hw, hlen, hm⟩ := stringAtEndLoop_exists h
    obtain ⟨hk, hvc⟩ := hall w hw
    have h1 : (e.input.drop (e.idx + off).toNat).getD k ('\x00') = c := by
      rw [matchFrom_getD hm k (by simpa using hk), hvc]
    rw [getD_drop] at h1
    unfold getCharD
    rw [if_pos (by omega)]
    have hjn : j.toNat = (e.idx + off).toNat + k := by omega
    rw [hjn]; exact h1

/-- When the rune under the cursor is a `U`, the vowel-run loop of
`skipVowels` advances at least once, so `skipVowels(idx)` lands at or after
the cursor. -/
theorem skipVowelsFinalOff_ue_ge_one {e : Encoder}
    (hU : getCharD e.input e.idx = ('U')) :
    1 ≤ skipVowelsFinalOff e e.idx := by
  unfold skipVowelsFinalOff
  have hz : e.idx - e.idx = 0 := by omega
  rw [hz]
  have hU0 : getCharD e.input (e.idx + 0) = ('U') := by rw [add_zero]; exact hU
  unfold skipVowelsLoop
  dsimp only
  split_ifs with h1 h2 h3 h4
  · rcases h2 with hc | hc | hc
    · have hw : getCharD e.input (e.idx + 0) = ('W') :=
        stringAt_char 0 ('W') hc (by decide) (by omega)
      rw [hU0] at hw
      exact absurd hw (by decide)
    · have hw : getCharD e.input (e.idx + 0) = ('W') :=
        stringAt_char 1 ('W') hc (by decide) (by omega)
      rw [hU0] at hw
      exact absurd hw (by decide)
    · have hw : getCharD e.input (e.idx + 0) = ('W') :=
        stringAtEnd_char 0 ('W') hc (by decide) (by omega)
      rw [hU0] at hw
      exact absurd hw (by decide)
  all_goals first
    | omega
    | (have h := skipVowelsLoop_ge e e.input.length (0 + 1 + 1); omega)
    | (have h := skipVowelsLoop_ge e e.input.length (0 + 1); omega)
    | (exfalso; apply h1; exact Or.inl (by rw [hU0]; decide))

theorem skipVowels_idx_ge {e : Encoder} (hU : getCharD e.input e.idx = ('U'))
    (hlen : e.idx ≤ (e.input.length : Int)) (hpos : 0 ≤ e.idx) :
    e.idx ≤ skipVowels e e.idx := by
  unfold skipVowels
  split_ifs
  · omega
  · omega
  · have h1 := skipVowelsFinalOff_ue_ge_one hU
    omega

theorem ruleSpec_encodeSkipSilentUe (e : Encoder) :
    RuleSpec e (encodeSkipSilentUe e) := by
  unfold encodeSkipSilentUe
  split_ifs with h
  · refine ⟨step_setIdx ?_, by simp⟩
    obtain ⟨⟨hQ, _, _⟩, hidx, _⟩ := h
    have hb := stringAt_bounds hQ
    have hU : getCharD e.input e.idx = ('U') :=
      stringAt_char 1 ('U') hQ (by decide) (by omega)
    exact skipVowels_idx_ge hU (by omega) (by omega)
  · exact ⟨step_refl e, fun _ => rfl⟩

theorem step_encodeVowelsTail (e : Encoder) (h0 : 0 ≤ e.idx)
    (h1 : e.idx < (e.input.length : Int)) : Step e (encodeVowelsTail e) := by
  unfold encodeVowelsTail
  split_ifs
  · exact step_refl e
  · exact step_setIdx (skipVowels_ge h0 h1 (by omega))

theorem step_addA_vowelsTail (e : Encoder) (hg : GoodIdx e) :
    Step e (encodeVowelsTail (metaphAdd e ('A'))) := by
  refine step_trans (step_metaphAdd e ('A')) (step_encodeVowelsTail _ ?_ ?_)
  · simpa using hg.1
  · simpa using hg.2

theorem spec_encodeEPronounced (e : Encoder) (hg : GoodIdx e) :
    Step e (encodeEPronounced e) ∧ 0 ≤ (encodeEPronounced e).idx ∧
      (encodeEPronounced e).idx < ((encodeEPronounced e).input.length : Int) := by
  unfold encodeEPronounced
  try dsimp only
  split_ifs with h1 h2 h3
  · exact ⟨step_metaphAddAlt e replacementChar ('A'), by simpa using hg.1,
      by simpa using hg.2⟩
  · exact ⟨step_metaphAddAlt e ('A') replacementChar, by simpa using hg.1,
      by simpa using hg.2⟩
  · obtain ⟨h5, hS⟩ := h3
    have hlen : e.idx + (-e.idx) + (String.length ("BLESSED") : Int) ≤
        (e.input.length : Int) := by
      apply stringAt_v0_len
      unfold stringStart at hS
      exact hS
    have hseven : String.length ("BLESSED") = 7 := by decide
    refine ⟨step_addEAA_bump e ("D") ("AD") ("T") ("AT") 1, by simp; omega, ?_⟩
    simp only [bumpIdx_idx, metaphAddExactApproxAlt_idx, bumpIdx_input,
      metaphAddExactApproxAlt_input]
    rw [hseven] at hlen
    omega
  · exact ⟨step_trans (step_metaphAdd e ('A')) (step_setFlag _ false),
      by simpa using hg.1, by simpa using hg.2⟩
  · exact ⟨step_setFlag e false, by simpa using hg.1, by simpa using hg.2⟩

theorem step_encodeVowels (e : Encoder) (hg : GoodIdx e) : Step e (encodeVowels e) := by
  unfold encodeVowels
  split_ifs <;>
    first
      | exact step_addA_vowelsTail e hg
      | (refine step_chain_fid (ruleSpec_encodeSkipSilentUe e) ?_
         refine step_chain_fid (ruleSpec_pure e _) ?_
         exact step_addA_vowelsTail e hg)
      | exact step_trans (spec_encodeEPronounced e hg).1
          (step_encodeVowelsTail _ (spec_encodeEPronounced e hg).2.1
            (spec_encodeEPronounced e hg).2.2)
      | exact step_encodeVowelsTail e hg.1 hg.2

/-- Peels a single conditional off a rule body. -/
theorem step_ite {c : Prop} [Decidable c] {e a b : Encoder}
    (h1 : c → Step e a) (h2 : ¬c → Step e b) : Step e (if c then a else b) := by
  split_ifs with h
  · exact h1 h
  · exact h2 h

/-- No branch of the per-rune dispatch moves the cursor backward or touches
the input, the configuration, or `lastIdx`. -/
theorem step_dispatch (e : Encoder) (hg : GoodIdx e) : Step e (dispatch e) := by
  unfold dispatch
  try dsimp only
  refine step_ite (fun h => step_encodeB e) (fun h => ?_)
  refine step_ite (fun h => step_metaphAdd e ('S')) (fun h => ?_)
  refine step_ite (fun h => step_encodeC e) (fun h => ?_)
  refine step_ite (fun h => step_encodeD e) (fun h => ?_)
  refine step_ite (fun h => step_encodeF e) (fun h => ?_)
  refine step_ite (fun h => step_encodeG e) (fun h => ?_)
  refine step_ite (fun h => step_encodeH e hg) (fun h => ?_)
  refine step_ite (fun h => step_encodeJ e hg) (fun h => ?_)
  refine step_ite (fun h => step_encodeK e) (fun h => ?_)
  refine step_ite (fun h => step_encodeL e hg) (fun h => ?_)
  refine step_ite (fun h => step_encodeM e) (fun h => ?_)
  refine step_ite (fun h => step_encodeN e) (fun h => ?_)
  refine step_ite (fun h => step_metaphAdd e ('N')) (fun h => ?_)
  refine step_ite (fun h => step_encodeP e) (fun h => ?_)
  refine step_ite (fun h => step_encodeQ e) (fun h => ?_)
  refine step_ite (fun h => step_encodeR e) (fun h => ?_)
  refine step_ite (fun h => step_encodeS e) (fun h => ?_)
  refine step_ite (fun h => step_encodeT e) (fun h => ?_)
  refine step_ite (fun h => step_metaphAdd e ('0')) (fun h => ?_)
  refine step_ite (fun h => step_encodeV e) (fun h => ?_)
  refine step_ite (fun h => step_encodeW e hg) (fun h => ?_)
  refine step_ite (fun h => step_encodeX e) (fun h => ?_)
  refine step_ite (fun h => step_metaphAdd e ('X')) (fun h => ?_)
  refine step_ite (fun h => step_metaphAdd e ('S')) (fun h => ?_)
  refine step_ite (fun h => step_encodeZ e) (fun h => ?_)
  refine step_ite (fun h => step_encodeVowels e hg) (fun h => ?_)
  exact step_refl e

/-- Per outer iteration of the control loop the cursor strictly increases. -/
theorem dispatch_bump_strict (e : Encoder) (hg : GoodIdx e) :
    e.idx < (bumpIdx (dispatch e) 1).idx := by
  have h := (step_dispatch e hg).2.2.2.2.2
  simp only [bumpIdx_idx]
  omega

/-- One unit of fuel beyond `len - idx` is already slack: the loop has
stabilized. -/
theorem encodeLoop_stable : ∀ (fuel : Nat) (e : Encoder), 0 ≤ e.idx →
    (e.input.length : Int) ≤ e.idx + fuel →
    encodeLoop (fuel + 1) e = encodeLoop fuel e := by
  intro fuel
  induction fuel with
  | zero =>
    intro e h0 hlen
    unfold encodeLoop
    rw [if_neg (by push_cast at hlen ⊢; omega)]
  | succ n ih =>
    intro e h0 hlen
    conv_lhs => rw [encodeLoop]
    conv_rhs => rw [encodeLoop]
    split_ifs with hidx hbuf
    · rfl
    · have hs := step_dispatch e ⟨h0, hidx⟩
      obtain ⟨hin, -, -, -, -, hle⟩ := hs
      apply ih
      · simp only [bumpIdx_idx]; omega
      · simp only [bumpIdx_idx, bumpIdx_input, hin]
        push_cast at hlen ⊢
        omega
    · rfl

/-- Extra fuel beyond `len - idx` never changes the loop's result. -/
theorem encodeLoop_absorb (k : Nat) (e : Encoder) (h0 : 0 ≤ e.idx)
    (hlen : (e.input.length : Int) ≤ e.idx + k) :
    ∀ (m : Nat), encodeLoop (k + m) e = encodeLoop k e := by
  intro m
  induction m with
  | zero => rfl
  | succ n ih =>
    have hst : encodeLoop (k + n + 1) e = encodeLoop (k + n) e := by
      apply encodeLoop_stable (k + n) e h0
      push_cast at hlen ⊢
      omega
    calc encodeLoop (k + (n + 1)) e = encodeLoop (k + n + 1) e := rfl
      _ = encodeLoop (k + n) e := hst
      _ = encodeLoop k e := ih

/-- The whole scan is one big `Step`: the loop never decreases the cursor and
never touches input, configuration or `lastIdx`. -/
theorem step_encodeLoop : ∀ (fuel : Nat) (e : Encoder), 0 ≤ e.idx →
    Step e (encodeLoop fuel e) := by
  intro fuel
  induction fuel with
  | zero => intro e h0; exact step_refl e
  | succ n ih =>
    intro e h0
    rw [encodeLoop]
    split_ifs with hidx hbuf
    · exact step_refl e
    · have hs : Step e (bumpIdx (dispatch e) 1) :=
        step_trans (step_dispatch e ⟨h0, hidx⟩) (step_bumpIdx _ 1)
      refine step_trans hs (ih _ ?_)
      have := hs.2.2.2.2.2
      omega
    · exact step_refl e

@[simp] theorem initState_idx (enc : Encoder) (s : String) :
    (enc.initState s).idx = 0 := rfl

@[simp] theorem initState_input (enc : Encoder) (s : String) :
    (enc.initState s).input = s.data.map goToUpper := rfl

@[simp] theorem initState_EncodeVowels (enc : Encoder) (s : String) :
    (enc.initState s).EncodeVowels = enc.EncodeVowels := rfl

@[simp] theorem initState_EncodeExact (enc : Encoder) (s : String) :
    (enc.initState s).EncodeExact = enc.EncodeExact := rfl

@[simp] theorem initState_MaxLength (enc : Encoder) (s : String) :
    (enc.initState s).MaxLength = resolveMaxLength enc.MaxLength := rfl

/-- The scan changes neither the configuration switches nor the resolved
`MaxLength` it starts from. -/
theorem scanState_frame (enc : Encoder) (s : String) :
    (enc.scanState s).EncodeVowels = enc.EncodeVowels ∧
    (enc.scanState s).EncodeExact = enc.EncodeExact ∧
    (enc.scanState s).MaxLength = resolveMaxLength enc.MaxLength := by
  unfold Encoder.scanState
  have h := step_encodeLoop (enc.initState s).input.length (enc.initState s)
    (by rw [initState_idx])
  obtain ⟨-, hv, hx, hm, -, -⟩ := h
  exact ⟨by rw [hv, initState_EncodeVowels], by rw [hx, initState_EncodeExact],
    by rw [hm, initState_MaxLength]⟩

/-! ### The claims -/

/-- C1: under the default configuration, `Encode` maps "A" to ("A", ""),
"ACK" to ("AK", ""), "EEK" to ("AK", ""), and "ACHE" to ("AK", "AX"); with
`EncodeVowels = true`, "SUPERNODE" maps to ("SAPARNAT", ""). -/
theorem C1_fixture_outputs :
    (defaultEncoder.Encode ("A")).1 = ("A") ∧
    (defaultEncoder.Encode ("A")).2.1 = ("") ∧
    (defaultEncoder.Encode ("ACK")).1 = ("AK") ∧
    (defaultEncoder.Encode ("ACK")).2.1 = ("") ∧
    (defaultEncoder.Encode ("EEK")).1 = ("AK") ∧
    (defaultEncoder.Encode ("EEK")).2.1 = ("") ∧
    (defaultEncoder.Encode ("ACHE")).1 = ("AK") ∧
    (defaultEncoder.Encode ("ACHE")).2.1 = ("AX") ∧
    (vowelsEncoder.Encode ("SUPERNODE")).1 = ("SAPARNAT") ∧
    (vowelsEncoder.Encode ("SUPERNODE")).2.1 = ("") := by
  decide

/-- C10: for every configuration, `Encode` of the empty string returns
("", "") at once, leaving the encoder untouched. -/
theorem C10_empty_input (enc : Encoder) :
    enc.Encode ("") = (("", "", enc)) := by
  unfold Encoder.Encode
  rw [if_pos rfl]

/-- C4: the control loop terminates within `input length` iterations — the
cursor strictly increases on every outer iteration (first conjunct: no rule
dispatch leaves the cursor at or below where it started, once bumped), so any
fuel beyond the rune count leaves the scan's result unchanged (second
conjunct). -/
theorem C4_termination :
    (∀ (e : Encoder), GoodIdx e → e.idx < (bumpIdx (dispatch e) 1).idx) ∧
    (∀ (enc : Encoder) (s : String) (m : Nat),
      encodeLoop ((enc.initState s).input.length + m) (enc.initState s) =
        encodeLoop (enc.initState s).input.length (enc.initState s)) := by
  constructor
  · exact dispatch_bump_strict
  · intro enc s m
    apply encodeLoop_absorb
    · rw [initState_idx]
    · rw [initState_idx, initState_input]
      omega

theorem C4_termination_witness :
    (defaultEncoder.initState ("ACK")).idx <
      (bumpIdx (dispatch (defaultEncoder.initState ("ACK"))) 1).idx ∧
    encodeLoop ((defaultEncoder.initState ("ACK")).input.length + 2)
        (defaultEncoder.initState ("ACK")) =
      encodeLoop (defaultEncoder.initState ("ACK")).input.length
        (defaultEncoder.initState ("ACK")) :=
  ⟨C4_termination.1 (defaultEncoder.initState ("ACK")) ⟨by decide, by decide⟩,
   C4_termination.2 defaultEncoder ("ACK") 2⟩

/-- C9 counterexample: with `MaxLength = 0` the encoder's `MaxLength` reads 8,
not 0, after an `Encode` call — the `MaxLength <= 0` case is mutated, not
preserved. -/
theorem C9_counterexample :
    zeroMaxEncoder.MaxLength = 0 ∧
    ¬ (zeroMaxEncoder.Encode ("A")).2.2.MaxLength = zeroMaxEncoder.MaxLength := by
  decide

/-- C9 amended: `EncodeVowels` and `EncodeExact` are unchanged by every
`Encode` call, and `MaxLength` is unchanged whenever it was positive; but a
non-positive `MaxLength` is overwritten with the resolved default on any
nonempty input (Go mutates the receiver's field). -/
theorem C9_amended_config_frame (enc : Encoder) (s : String) :
    (enc.Encode s).2.2.EncodeVowels = enc.EncodeVowels ∧
    (enc.Encode s).2.2.EncodeExact = enc.EncodeExact ∧
    (0 < enc.MaxLength → (enc.Encode s).2.2.MaxLength = enc.MaxLength) ∧
    (¬ s = ("") → (enc.Encode s).2.2.MaxLength = resolveMaxLength enc.MaxLength) := by
  have hf := scanState_frame enc s
  unfold Encoder.Encode
  try dsimp only
  split_ifs with hs h2
  · exact ⟨rfl, rfl, fun _ => rfl, fun hne => absurd hs hne⟩
  · exact ⟨hf.1, hf.2.1,
      fun hpos => by rw [hf.2.2]; unfold resolveMaxLength; rw [if_neg (by omega)],
      fun _ => hf.2.2⟩
  · exact ⟨hf.1, hf.2.1,
      fun hpos => by rw [hf.2.2]; unfold resolveMaxLength; rw [if_neg (by omega)],
      fun _ => hf.2.2⟩

theorem C9_amended_config_frame_witness :
    (smallEncoder.Encode ("ACK")).2.2.EncodeVowels = smallEncoder.EncodeVowels ∧
    (smallEncoder.Encode ("ACK")).2.2.EncodeExact = smallEncoder.EncodeExact ∧
    (smallEncoder.Encode ("ACK")).2.2.MaxLength = smallEncoder.MaxLength ∧
    (smallEncoder.Encode ("ACK")).2.2.MaxLength = resolveMaxLength smallEncoder.MaxLength := by
  obtain ⟨h1, h2, h3, h4⟩ := C9_amended_config_frame smallEncoder ("ACK")
  exact ⟨h1, h2, h3 (by decide), h4 (by decide)⟩

theorem length_mk (l : List Char) : (String.mk l).length = l.length := rfl

theorem truncateBuf_length (buf : List Char) (m : Int) (hm : 0 ≤ m) :
    ((truncateBuf buf m).length : Int) ≤ m := by
  unfold truncateBuf
  split_ifs with h
  · rw [List.length_take]
    push_cast
    omega
  · push_cast at h ⊢
    omega

theorem resolveMaxLength_pos (m : Int) : 0 < resolveMaxLength m := by
  unfold resolveMaxLength DefaultMaxLength
  split_ifs with h <;> omega

/-- C2: both returned strings hold at most `E` runes, where `E` is
`MaxLength` when positive and the default 8 otherwise. -/
theorem C2_length_bound (enc : Encoder) (s : String) :
    ((enc.Encode s).1.length : Int) ≤ resolveMaxLength enc.MaxLength ∧
    ((enc.Encode s).2.1.length : Int) ≤ resolveMaxLength enc.MaxLength := by
  have hpos : 0 < resolveMaxLength enc.MaxLength := resolveMaxLength_pos enc.MaxLength
  have hm := (scanState_frame enc s).2.2
  have hp := truncateBuf_length (enc.scanState s).primBuf (enc.scanState s).MaxLength
    (by rw [hm]; omega)
  have hq := truncateBuf_length (enc.scanState s).secondBuf (enc.scanState s).MaxLength
    (by rw [hm]; omega)
  unfold Encoder.Encode
  try dsimp only
  split_ifs with hs h2 <;>
    first
      | exact ⟨by rw [show (("") : String).length = 0 from rfl]; omega,
          by rw [show (("") : String).length = 0 from rfl]; omega⟩
      | exact ⟨by rw [length_mk]; exact hm ▸ hp,
          by rw [show (("") : String).length = 0 from rfl]; omega⟩
      | exact ⟨by rw [length_mk]; exact hm ▸ hp, by rw [length_mk]; exact hm ▸ hq⟩

theorem areEqual_refl : ∀ (l : List Char), areEqual l l = true := by
  intro l
  induction l with
  | nil => rfl
  | cons a rest ih => unfold areEqual; rw [ih]; simp

/-- C3: if the two buffers agree at the end of the scan — untruncated, or
content-equal after the final truncation — the secondary result is the empty
string. -/
theorem C3_secondary_empty (enc : Encoder) (s : String)
    (h : (enc.scanState s).primBuf = (enc.scanState s).secondBuf ∨
         areEqual (truncateBuf (enc.scanState s).primBuf (enc.scanState s).MaxLength)
           (truncateBuf (enc.scanState s).secondBuf (enc.scanState s).MaxLength) = true) :
    (enc.Encode s).2.1 = ("") := by
  have heq : areEqual (truncateBuf (enc.scanState s).primBuf (enc.scanState s).MaxLength)
      (truncateBuf (enc.scanState s).secondBuf (enc.scanState s).MaxLength) = true := by
    rcases h with h | h
    · rw [h]; exact areEqual_refl _
    · exact h
  unfold Encoder.Encode
  try dsimp only
  split_ifs with hs h2 <;>
    first
      | rfl
      | exact absurd heq h2

theorem C3_secondary_empty_witness :
    (defaultEncoder.Encode ("ACK")).2.1 = ("") :=
  C3_secondary_empty defaultEncoder ("ACK") (Or.inl (by decide))

/-- C5: no failure mode of the scan is reachable. The `skipVowels` fatal
branch (`off < 1`) cannot fire: a forward call keeps the final offset at 1 or
more, and the single cursor-level call (the silent-UE rule) sits on a `U` so
the vowel loop advances at least once.  The negative-index fault of `charAt`
cannot fire whenever the probed index is nonnegative (`charAtChecked` agrees
with the total model), and the control loop keeps the cursor nonnegative, so
the switch's unchecked read and the `0 < idx`-guarded negative-offset calls
stay in range. -/
theorem C5_no_panic :
    (∀ (e : Encoder) (start : Int), e.idx < start → 1 ≤ skipVowelsFinalOff e start) ∧
    (∀ (e : Encoder), stringAt e (-1) [("QUE"), ("GUE")] = true →
       1 ≤ skipVowelsFinalOff e e.idx) ∧
    (∀ (e : Encoder) (off : Int) (c : Char), 0 ≤ e.idx + off →
       charAtChecked e off c = some (charAt e off c)) ∧
    (∀ (fuel : Nat) (e : Encoder), 0 ≤ e.idx → 0 ≤ (encodeLoop fuel e).idx) := by
  refine ⟨?_, ?_, ?_, ?_⟩
  · intro e start h
    unfold skipVowelsFinalOff
    have h2 := skipVowelsLoop_ge e (e.input.length + 1) (start - e.idx)
    omega
  · intro e hQ
    have hb := stringAt_bounds hQ
    have hU : getCharD e.input e.idx = ('U') :=
      stringAt_char 1 ('U') hQ (by decide) (by omega)
    exact skipVowelsFinalOff_ue_ge_one hU
  · intro e off c h
    unfold charAtChecked charAt
    try dsimp only
    split_ifs <;> rfl
  · intro fuel e h0
    have h1 := (step_encodeLoop fuel e h0).2.2.2.2.2
    omega

theorem C5_no_panic_witness :
    1 ≤ skipVowelsFinalOff defaultEncoder 1 ∧
    1 ≤ skipVowelsFinalOff queEncoder queEncoder.idx ∧
    charAtChecked queEncoder (-1) ('Q') = some (charAt queEncoder (-1) ('Q')) ∧
    0 ≤ (encodeLoop 3 queEncoder).idx :=
  ⟨C5_no_panic.1 defaultEncoder 1 (by decide),
   C5_no_panic.2.1 queEncoder (by decide),
   C5_no_panic.2.2.1 queEncoder (-1) ('Q') (by decide),
   C5_no_panic.2.2.2 3 queEncoder (by decide)⟩

theorem resolveMaxLength_idem (m : Int) :
    resolveMaxLength (resolveMaxLength m) = resolveMaxLength m := by
  unfold resolveMaxLength DefaultMaxLength
  split_ifs <;> omega

/-- `Encode` keeps the switches and the resolution class of `MaxLength`. -/
theorem encode_config_class (e : Encoder) (w : String) :
    (e.Encode w).2.2.EncodeVowels = e.EncodeVowels ∧
    (e.Encode w).2.2.EncodeExact = e.EncodeExact ∧
    resolveMaxLength (e.Encode w).2.2.MaxLength = resolveMaxLength e.MaxLength := by
  have hf := scanState_frame e w
  unfold Encoder.Encode
  try dsimp only
  split_ifs with hs h2 <;>
    first
      | exact ⟨rfl, rfl, rfl⟩
      | exact ⟨hf.1, hf.2.1, by rw [hf.2.2, resolveMaxLength_idem]⟩

/-- Two encoders in the same configuration class set up identical scans. -/
theorem initState_congr (e1 e2 : Encoder) (s : String)
    (hv : e1.EncodeVowels = e2.EncodeVowels) (hx : e1.EncodeExact = e2.EncodeExact)
    (hm : resolveMaxLength e1.MaxLength = resolveMaxLength e2.MaxLength) :
    e1.initState s = e2.initState s := by
  unfold Encoder.initState
  cases e1
  cases e2
  dsimp only at hv hx hm ⊢
  rw [hv, hx, hm]
  simp only [primeBuf]

/-- The returned pair depends only on the configuration class and the word. -/
theorem encode_pair_congr (e1 e2 : Encoder) (s : String)
    (hv : e1.EncodeVowels = e2.EncodeVowels) (hx : e1.EncodeExact = e2.EncodeExact)
    (hm : resolveMaxLength e1.MaxLength = resolveMaxLength e2.MaxLength) :
    (e1.Encode s).1 = (e2.Encode s).1 ∧ (e1.Encode s).2.1 = (e2.Encode s).2.1 := by
  have hscan : e1.scanState s = e2.scanState s := by
    unfold Encoder.scanState
    rw [initState_congr e1 e2 s hv hx hm]
  unfold Encoder.Encode
  split_ifs with hs
  · exact ⟨rfl, rfl⟩
  · rw [hscan]
    exact ⟨rfl, rfl⟩

/-- Any chain of reuses keeps the configuration class. -/
theorem encodeAll_config_class (ws : List String) : ∀ (e : Encoder),
    (encodeAll e ws).EncodeVowels = e.EncodeVowels ∧
    (encodeAll e ws).EncodeExact = e.EncodeExact ∧
    resolveMaxLength (encodeAll e ws).MaxLength = resolveMaxLength e.MaxLength := by
  induction ws with
  | nil => intro e; exact ⟨rfl, rfl, rfl⟩
  | cons w rest ih =>
    intro e
    have h := encode_config_class e w
    have h2 := ih ((e.Encode w).2.2)
    unfold encodeAll at h2 ⊢
    rw [List.foldl_cons]
    exact ⟨h2.1.trans h.1, h2.2.1.trans h.2.1, h2.2.2.trans h.2.2⟩

/-- C6: under a fixed configuration, `Encode` is deterministic across reuse —
after encoding any other words on the same encoder value, the word's
(primary, secondary) pair is unchanged. -/
theorem C6_deterministic_reuse (enc : Encoder) (ws : List String) (s : String) :
    ((encodeAll enc ws).Encode s).1 = (enc.Encode s).1 ∧
    ((encodeAll enc ws).Encode s).2.1 = (enc.Encode s).2.1 := by
  have h := encodeAll_config_class ws enc
  exact encode_pair_congr (encodeAll enc ws) enc s h.1 h.2.1 h.2.2

/-- Appending one rune keeps the no-AA invariant as long as an `A` is never
put after a trailing `A`. -/
theorem noAA_append : ∀ (l : List Char) (c : Char), noAA l = true →
    (c = ('A') → ¬ l.getLast? = some ('A')) → noAA (l ++ [c]) = true := by
  intro l
  induction l with
  | nil => intro c h hc; rfl
  | cons a rest ih =>
    intro c h hc
    cases rest with
    | nil =>
      have hac : ¬(a = ('A') ∧ c = ('A')) := by
        rintro ⟨ha, hcA⟩
        exact hc hcA (by simp [ha])
      simp [noAA, hac]
    | cons b rest2 =>
      show noAA (a :: b :: (rest2 ++ [c])) = true
      unfold noAA at h ⊢
      rw [Bool.and_eq_true] at h ⊢
      refine ⟨h.1, ?_⟩
      exact ih c h.2 (fun hcA => by
        have := hc hcA
        rw [List.getLast?_cons_cons] at this
        exact this)

/-- C7 counterexample: encoding "OHRE" with `EncodeVowels` pushes the
two-rune string "AR" after a trailing vowel marker — `metaphAddStr`
de-duplicates only the literal "A" — so the primary buffer holds two
consecutive `A`s (the primary comes out "AAR"). -/
theorem C7_counterexample :
    noAA ((vowelsEncoder.Encode ("OHRE")).1.data) = false := by decide

/-- C7 amended: the de-duplication holds for the single-rune appenders (and
hence for every `metaphAdd`/`metaphAddAlt` call) and for the literal one-rune
string "A" passed to `metaphAddStr`: a vowel marker is never appended to a
channel whose last symbol is already `A`, so those appends preserve the no-AA
invariant on both buffers.  Multi-rune string appends are not de-duplicated
(see the counterexample). -/
theorem C7_amended_single_append (e : Encoder) (p s : Char) :
    ((noAA e.primBuf = true → noAA (metaphAddAlt e p s).primBuf = true) ∧
     (noAA e.secondBuf = true → noAA (metaphAddAlt e p s).secondBuf = true)) ∧
    ((noAA e.primBuf = true → noAA (metaphAddStr e ("A") ("A")).primBuf = true) ∧
     (noAA e.secondBuf = true → noAA (metaphAddStr e ("A") ("A")).secondBuf = true)) := by
  constructor
  · unfold metaphAddAlt
    try dsimp only
    split_ifs with h1 h2 h3 <;>
      refine ⟨fun hn => ?_, fun hn => ?_⟩ <;>
        first
          | exact hn
          | exact noAA_append _ _ hn (fun hp hl => h1.2 ⟨hp, hl⟩)
          | exact noAA_append _ _ hn (fun hp hl => h2.2 ⟨hp, hl⟩)
          | exact noAA_append _ _ hn (fun hp hl => h3.2 ⟨hp, hl⟩)
  · unfold metaphAddStr
    try dsimp only
    split_ifs with h1 h2 h3 <;>
      refine ⟨fun hn => ?_, fun hn => ?_⟩ <;>
        first
          | exact hn
          | (refine noAA_append _ _ hn (fun hp hl => ?_)
             simp_all)

theorem C7_amended_single_append_witness :
    noAA (metaphAddAlt defaultEncoder ('A') ('K')).primBuf = true ∧
    noAA (metaphAddAlt defaultEncoder ('A') ('K')).secondBuf = true ∧
    noAA (metaphAddStr defaultEncoder ("A") ("A")).primBuf = true ∧
    noAA (metaphAddStr defaultEncoder ("A") ("A")).secondBuf = true :=
  ⟨(C7_amended_single_append defaultEncoder ('A') ('K')).1.1 (by decide),
   (C7_amended_single_append defaultEncoder ('A') ('K')).1.2 (by decide),
   (C7_amended_single_append defaultEncoder ('A') ('A')).2.1 (by decide),
   (C7_amended_single_append defaultEncoder ('A') ('A')).2.2 (by decide)⟩

theorem stringAt_oob (e : Encoder) (off : Int) (vals : List String)
    (h : e.idx + off < 0 ∨ (e.input.length : Int) ≤ e.idx + off) :
    stringAt e off vals = false := by
  cases vals with
  | nil => rfl
  | cons v0 rest =>
    unfold stringAt
    dsimp only
    rw [if_pos]
    rcases h with h | h
    · exact Or.inl h
    · exact Or.inr (Or.inl h)

theorem stringAtStart_oob (e : Encoder) (off : Int) (vals : List String)
    (h : e.idx + off < 0 ∨ (e.input.length : Int) ≤ e.idx + off) :
    stringAtStart e off vals = false := by
  unfold stringAtStart
  split_ifs with h1
  · exact stringAt_oob e off vals h
  · rfl

theorem stringAtEnd_oob (e : Encoder) (off : Int) (vals : List String)
    (h : e.idx + off < 0 ∨ (e.input.length : Int) ≤ e.idx + off) :
    stringAtEnd e off vals = false := by
  cases vals with
  | nil => rfl
  | cons v0 rest =>
    unfold stringAtEnd
    dsimp only
    rw [if_pos]
    rcases h with h | h
    · exact Or.inl h
    · exact Or.inr (Or.inl h)

theorem stringExactLoop_oob : ∀ (vals : List String) (input : List Char),
    (∀ v ∈ vals, input.length < v.length) → stringExactLoop input vals = false := by
  intro vals
  induction vals with
  | nil => intro input h; rfl
  | cons v rest ih =>
    intro input h
    unfold stringExactLoop
    rw [if_pos (h v (by simp))]

theorem stringEndLoop_oob : ∀ (vals : List String) (input : List Char),
    (∀ v ∈ vals, input.length < v.length) → stringEndLoop input vals = false := by
  intro vals
  induction vals with
  | nil => intro input h; rfl
  | cons v rest ih =>
    intro input h
    unfold stringEndLoop
    rw [if_pos (h v (by simp))]

theorem stringContains_oob (e : Encoder) (v : String)
    (h : e.input.length < v.length) : stringContains e v = false := by
  unfold stringContains
  rw [if_pos h]

/-- The predicates read nothing but the normalized input and the cursor. -/
theorem predicates_pure (e1 e2 : Encoder) (hin : e1.input = e2.input)
    (hidx : e1.idx = e2.idx) (off : Int) (vals : List String) (v : String) :
    stringAt e1 off vals = stringAt e2 off vals ∧
    stringAtStart e1 off vals = stringAtStart e2 off vals ∧
    stringAtEnd e1 off vals = stringAtEnd e2 off vals ∧
    stringExact e1 vals = stringExact e2 vals ∧
    stringEnd e1 vals = stringEnd e2 vals ∧
    stringContains e1 v = stringContains e2 v := by
  refine ⟨?_, ?_, ?_, ?_, ?_, ?_⟩
  · unfold stringAt; rw [hin, hidx]
  · unfold stringAtStart stringAt; rw [hin, hidx]
  · unfold stringAtEnd; rw [hin, hidx]
  · unfold stringExact; rw [hin]
  · unfold stringEnd; rw [hin]
  · unfold stringContains; rw [hin]

/-- C8: the context predicates are bounds-safe and pure: a probe whose start
lies before position 0 or at/past the end returns `false` without reading the
input; candidates longer than the input are rejected outright; and every
predicate reads only the normalized input and the cursor, mutating nothing. -/
theorem C8_predicates_safe :
    (∀ (e : Encoder) (off : Int) (vals : List String),
       e.idx + off < 0 ∨ (e.input.length : Int) ≤ e.idx + off →
       stringAt e off vals = false) ∧
    (∀ (e : Encoder) (off : Int) (vals : List String),
       e.idx + off < 0 ∨ (e.input.length : Int) ≤ e.idx + off →
       stringAtStart e off vals = false) ∧
    (∀ (e : Encoder) (off : Int) (vals : List String),
       e.idx + off < 0 ∨ (e.input.length : Int) ≤ e.idx + off →
       stringAtEnd e off vals = false) ∧
    (∀ (e : Encoder) (vals : List String),
       (∀ v ∈ vals, e.input.length < v.length) → stringExact e vals = false) ∧
    (∀ (e : Encoder) (vals : List String),
       (∀ v ∈ vals, e.input.length < v.length) → stringEnd e vals = false) ∧
    (∀ (e : Encoder) (v : String),
       e.input.length < v.length → stringContains e v = false) ∧
    (∀ (e1 e2 : Encoder), e1.input = e2.input → e1.idx = e2.idx →
       ∀ (off : Int) (vals : List String) (v : String),
         stringAt e1 off vals = stringAt e2 off vals ∧
         stringAtStart e1 off vals = stringAtStart e2 off vals ∧
         stringAtEnd e1 off vals = stringAtEnd e2 off vals ∧
         stringExact e1 vals = stringExact e2 vals ∧
         stringEnd e1 vals = stringEnd e2 vals ∧
         stringContains e1 v = stringContains e2 v) :=
  ⟨stringAt_oob, stringAtStart_oob, stringAtEnd_oob,
   fun e vals h => stringExactLoop_oob vals e.input h,
   fun e vals h => stringEndLoop_oob vals e.input h,
   stringContains_oob, predicates_pure⟩

theorem C8_predicates_safe_witness :
    stringAt defaultEncoder 1 [("A")] = false ∧
    stringAtStart defaultEncoder 1 [("A")] = false ∧
    stringAtEnd defaultEncoder 1 [("A")] = false ∧
    stringExact defaultEncoder [("A")] = false ∧
    stringEnd defaultEncoder [("A")] = false ∧
    stringContains defaultEncoder ("A") = false ∧
    stringAt defaultEncoder 0 [("B")] = stringAt vowelsEncoder 0 [("B")] :=
  ⟨C8_predicates_safe.1 defaultEncoder 1 [("A")] (by decide),
   C8_predicates_safe.2.1 defaultEncoder 1 [("A")] (by decide),
   C8_predicates_safe.2.2.1 defaultEncoder 1 [("A")] (by decide),
   C8_predicates_safe.2.2.2.1 defaultEncoder [("A")] (by decide),
   C8_predicates_safe.2.2.2.2.1 defaultEncoder [("A")] (by decide),
   C8_predicates_safe.2.2.2.2.2.1 defaultEncoder ("A") (by decide),
   (C8_predicates_safe.2.2.2.2.2.2 defaultEncoder vowelsEncoder rfl rfl 0
     [("B")] ("B")).1⟩

end Metaphone3
